import Mathlib

/-!
# ScribbleKit: the Direct3D 12 backend (`InterfaceDX12`)

A shallow embedding of `src/DX12/InterfaceDX12.{h,cpp}` and of
`src/GraphicsApiInterface.h`, followed by theorems about it.

Conventions of the embedding
* `UINT8`, `UINT`, `UINT64` values are natural numbers; where a machine
  operation can wrap, the modulus is written out.
* `float` values are rationals. `Update`, whose result the theorems speak
  about, computes in binary32: its literals and its sum are rounded to the
  nearest binary32 value. The other `float` data (clear colour, vertices,
  aspect ratio) are only passed on and carry the decimal values.
* GPU objects are opaque handles (natural numbers), `0` being `nullptr`.
-/

namespace scribble

/-! ## Results and errors (`GraphicsApiInterface.h`) -/

/-- A Windows `HRESULT` (a signed 32-bit value). -/
abbrev HRESULT := Int

/-- The one value `ThrowIfFailed` accepts. -/
def S_OK : HRESULT := 0

/-- The `SUCCEEDED` macro of the Windows SDK: `hr >= 0`. -/
def SUCCEEDED (hr : HRESULT) : Bool := decide (0 ≤ hr)

/-- The `FAILED` macro of the Windows SDK: `hr < 0`. -/
def FAILED (hr : HRESULT) : Bool := decide (hr < 0)

/-- How a call of a C++ function ends: with a value, with a thrown
`std::runtime_error` carrying `what`, or never (the thread stays blocked in
`WaitForSingleObject(..., INFINITE)`). -/
inductive Res (α : Type) where
  | ok (a : α)
  | threw (what : String)
  | blocked
  deriving DecidableEq, Repr

/-! ## Direct3D 12 data that the code builds or passes around -/

/-- A GPU or OS object, by identity; `0` is `nullptr`. -/
abbrev Handle := Nat

/-- Viewport description `D3D12_VIEWPORT`. -/
structure D3D12_VIEWPORT where
  TopLeftX : ℚ
  TopLeftY : ℚ
  Width : ℚ
  Height : ℚ
  MinDepth : ℚ
  MaxDepth : ℚ
  deriving DecidableEq

/-- Rectangle `D3D12_RECT` (`tagRECT`). -/
structure D3D12_RECT where
  left : Int
  top : Int
  right : Int
  bottom : Int
  deriving DecidableEq

/-- The resource states that the code names. -/
inductive D3D12_RESOURCE_STATES where
  | PRESENT
  | RENDER_TARGET
  | COPY_DEST
  | PIXEL_SHADER_RESOURCE
  | GENERIC_READ
  deriving DecidableEq, Repr

/-- The two descriptor heap types that the code creates. -/
inductive D3D12_DESCRIPTOR_HEAP_TYPE where
  | RTV
  | CBV_SRV_UAV
  deriving DecidableEq, Repr

/-- The two command list types that the code creates. -/
inductive D3D12_COMMAND_LIST_TYPE where
  | DIRECT
  | BUNDLE
  deriving DecidableEq, Repr

/-- The two heap types that the code allocates from. -/
inductive D3D12_HEAP_TYPE where
  | DEFAULT
  | UPLOAD
  deriving DecidableEq, Repr

/-- The two feature levels that the code asks for. -/
inductive D3D_FEATURE_LEVEL where
  | L11_0
  | L12_0
  deriving DecidableEq, Repr

/-- Vertex buffer view `D3D12_VERTEX_BUFFER_VIEW`. -/
structure D3D12_VERTEX_BUFFER_VIEW where
  BufferLocation : Nat
  SizeInBytes : Nat
  StrideInBytes : Nat
  deriving DecidableEq

/-- A command recorded into a command list or a bundle. -/
inductive Command where
  | SetGraphicsRootSignature (rootSignature : Handle)
  | SetDescriptorHeaps (heaps : List Handle)
  | SetGraphicsRootDescriptorTable (rootParameterIndex : Nat) (baseDescriptor : Nat)
  | RSSetViewports (viewports : List D3D12_VIEWPORT)
  | RSSetScissorRects (rects : List D3D12_RECT)
  | ResourceBarrier (resource : Handle) (stateBefore stateAfter : D3D12_RESOURCE_STATES)
  | OMSetRenderTargets (renderTargetDescriptor : Nat)
  | ClearRenderTargetView (renderTargetView : Nat) (colorRGBA : List ℚ)
  | ExecuteBundle (bundle : Handle)
  | IASetPrimitiveTopologyTriangleList
  | IASetVertexBuffers (startSlot : Nat) (views : List D3D12_VERTEX_BUFFER_VIEW)
  | DrawInstanced (vertexCountPerInstance instanceCount startVertex startInstance : Nat)
  | UpdateSubresources (destination intermediate : Handle) (data : List Nat)
      (rowPitch slicePitch : Nat)
  deriving DecidableEq

/-- One adapter as `GetHardwareAdapter` sees it: the `Flags` of its
`DXGI_ADAPTER_DESC1` and what `D3D12CreateDevice` answers for it at the two
feature levels the code asks for. -/
structure Adapter where
  id : Nat
  Flags : Nat
  createDevice_11_0 : HRESULT
  createDevice_12_0 : HRESULT
  deriving DecidableEq, Repr

/-- The flag `DXGI_ADAPTER_FLAG_SOFTWARE` of `DXGI_ADAPTER_DESC1::Flags`. -/
def DXGI_ADAPTER_FLAG_SOFTWARE : Nat := 2

/-- What `IDXGIFactory6::EnumAdapterByGpuPreference` enumerates, by index, for
the two preferences the code can pass. -/
structure Factory6 where
  unspecified : List Adapter
  highPerformance : List Adapter
  deriving DecidableEq, Repr

/-- The DXGI factory: `QueryInterface` for `IDXGIFactory6` succeeds exactly when
`factory6` is present; `adapters` is what `EnumAdapters1` enumerates, by index. -/
structure Factory where
  factory6 : Option Factory6
  adapters : List Adapter
  deriving DecidableEq, Repr

/-- An entry of the command queue that the GPU has not retired yet. -/
inductive QueueItem where
  | commandLists (lists : List (List Command))
  | signal (value : Nat)
  deriving DecidableEq

/-- An API call as it is logged, in call order, with the arguments and results
that the theorems speak about. The `pendingLists` fields are bookkeeping of the
model: the number of submitted command lists that the GPU has not retired at
the moment of the call (for `ExecuteCommandLists`, counting the new ones). -/
inductive Call where
  | hr (name : String) (result : HRESULT)
  | D3D12CreateDevice (adapter : Option Adapter) (level : D3D_FEATURE_LEVEL) (result : HRESULT)
  | CreateDescriptorHeap (type : D3D12_DESCRIPTOR_HEAP_TYPE) (numDescriptors : Nat)
      (shaderVisible : Bool) (result : HRESULT) (heap : Handle)
  | CreateRenderTargetView (resource : Handle) (destDescriptor : Nat)
  | CreateShaderResourceView (resource : Handle) (destDescriptor : Nat)
  | CreateConstantBufferView (bufferLocation sizeInBytes : Nat) (destDescriptor : Nat)
  | CreateCommittedResource (heapType : D3D12_HEAP_TYPE) (width : Nat)
      (initialState : D3D12_RESOURCE_STATES) (result : HRESULT) (resource : Handle)
  | CreateCommandAllocator (type : D3D12_COMMAND_LIST_TYPE) (result : HRESULT)
      (allocator : Handle)
  | CreateCommandList (type : D3D12_COMMAND_LIST_TYPE) (allocator initialState : Handle)
      (result : HRESULT) (list : Handle)
  | CreateFence (initialValue : Nat) (result : HRESULT) (fence : Handle)
  | CreateEvent (event : Handle)
  | memcpy (dest : Nat) (size : Nat)
  | CommandAllocatorReset (allocator : Handle) (result : HRESULT) (pendingLists : Nat)
  | CommandListReset (list allocator initialState : Handle) (result : HRESULT)
  | CommandListClose (list : Handle) (result : HRESULT)
  | ExecuteCommandLists (lists : List Handle) (pendingLists : Nat)
  | Present (syncInterval flags : Nat) (result : HRESULT)
  | Signal (fence : Handle) (value : Nat) (result : HRESULT)
  | GetCompletedValue (fence : Handle) (value : Nat)
  | SetEventOnCompletion (fence : Handle) (value : Nat) (event : Handle) (result : HRESULT)
  | WaitForSingleObject (event : Handle)
  | GetCurrentBackBufferIndex (index : Nat)
  | CloseHandle (handle : Handle)
  deriving DecidableEq

/-! ## The object and its environment -/

/-- Four floats: `struct Float4`. -/
structure Float4 where
  x : ℚ
  y : ℚ
  z : ℚ
  w : ℚ
  deriving DecidableEq

/-- The constant buffer layout: `struct SceneConstantBuffer`, a `Float4 offset`
followed by `float padding[60]`. -/
structure SceneConstantBuffer where
  offset : Float4
  padding : Fin 60 → ℚ

/-- Size of a `float` in bytes. -/
def sizeof_float : Nat := 4

/-- The value of `sizeof(SceneConstantBuffer)`: four floats of `offset` and 60
floats of `padding`, all of alignment 4, so without gaps. -/
def SceneConstantBuffer.sizeof : Nat := 4 * sizeof_float + 60 * sizeof_float

/-- The floats of a `SceneConstantBuffer` in memory order. -/
def SceneConstantBuffer.floats (c : SceneConstantBuffer) : List ℚ :=
  [c.offset.x, c.offset.y, c.offset.z, c.offset.w] ++ List.ofFn c.padding

/-- The value-initialised struct `SceneConstantBuffer{}`: all floats zero. -/
def SceneConstantBuffer.zero : SceneConstantBuffer :=
  { offset := { x := 0, y := 0, z := 0, w := 0 }, padding := fun _ => 0 }

/-- Number of back buffers: `static constexpr uint32_t FRAME_COUNT = 2`. -/
def FRAME_COUNT : Nat := 2

/-- The data members of `class InterfaceDX12` (`InterfaceDX12.h`). `ComPtr`
members hold the handle of the object they point to; of the array
`m_renderTargets` only the entries below `FRAME_COUNT` exist. -/
structure InterfaceDX12 where
  m_use_warp_device : Bool
  m_viewport : D3D12_VIEWPORT
  m_scissorRect : D3D12_RECT
  m_swapChain : Handle
  m_device : Handle
  m_renderTargets : Nat → Handle
  m_commandAllocator : Handle
  m_bundleCommandAllocator : Handle
  m_commandQueue : Handle
  m_rootSignature : Handle
  m_rtvHeap : Handle
  m_srvHeap : Handle
  m_pipelineState : Handle
  m_commandList : Handle
  m_bundleCommandList : Handle
  m_rtvDescriptorSize : Nat
  m_srvDescriptorSize : Nat
  m_vertexBuffer : Handle
  m_vertexBufferView : D3D12_VERTEX_BUFFER_VIEW
  m_texture : Handle
  m_constantBuffer : Handle
  m_constantBufferData : SceneConstantBuffer
  m_pCbvDataBegin : Nat
  m_assetsPath : String
  m_frameIndex : Nat
  m_fenceEvent : Handle
  m_fence : Handle
  m_fenceValue : Nat
  m_aspect_ratio : ℚ
  m_width : Int
  m_height : Int
  mp_window : Handle

/-- The command queue with its fence and the event of the fence: the entries
that the GPU has not retired (oldest first), the completed value of the fence,
whether the auto-reset event is set, and the fence value that the event waits
for, if any. -/
structure Gpu where
  queue : List QueueItem
  fenceCompleted : Nat
  eventSignaled : Bool
  eventWaitingFor : Option Nat

/-- Everything outside the object that the code talks to: the window, DXGI,
the device, the swap chain, the command queue with its fence, and mapped
memory.

* `hresults` are the results that the coming `HRESULT`-returning calls will
  give, in call order (`S_OK` once the list is used up); any list is possible.
* `gpuProgress` says how many queue entries the GPU retires before each coming
  `GetCompletedValue`; any list is possible (`0` once it is used up).
* `advance` is how the swap chain moves its current back buffer index at a
  successful `Present`.
* `gpu` is the command queue with its fence and event; the fence only grows.
* `trace` logs the API calls in call order. -/
structure World where
  windowWidth : Int
  windowHeight : Int
  factory : Factory
  hresults : List HRESULT
  gpuProgress : List Nat
  nextHandle : Handle
  incrementSize : D3D12_DESCRIPTOR_HEAP_TYPE → Nat
  cpuStart : Handle → Nat
  gpuStart : Handle → Nat
  gpuVirtualAddress : Handle → Nat
  requiredIntermediateSize : Nat
  backBuffers : List Handle
  backBufferIndex : Nat
  advance : Nat → Nat
  recorded : Handle → List Command
  memory : Nat → List ℚ
  gpu : Gpu
  trace : List Call

/-- The object together with its environment. -/
structure Sys where
  self : InterfaceDX12
  world : World

/-- A member function or API call: from a state to how it ends and the state it
leaves. A thrown exception or a blocked wait keeps the state reached so far. -/
def DX (α : Type) : Type := Sys → Res α × Sys

/-- Return a value without touching the state. -/
def DX.pure {α : Type} (a : α) : DX α := fun s => (Res.ok a, s)

/-- Sequencing: the second part runs only when the first returned. -/
def DX.bind {α β : Type} (m : DX α) (f : α → DX β) : DX β := fun s =>
  match m s with
  | (Res.ok a, s') => f a s'
  | (Res.threw e, s') => (Res.threw e, s')
  | (Res.blocked, s') => (Res.blocked, s')

instance : Monad DX where
  pure := DX.pure
  bind := DX.bind

/-- The statement `throw std::runtime_error(what)`. -/
def DX.throw {α : Type} (what : String) : DX α := fun s => (Res.threw what, s)

/-- Read the object. -/
def getSelf : DX InterfaceDX12 := fun s => (Res.ok s.self, s)

/-- Read the environment. -/
def getWorld : DX World := fun s => (Res.ok s.world, s)

/-- Assign to data members of the object. -/
def modifySelf (f : InterfaceDX12 → InterfaceDX12) : DX Unit :=
  fun s => (Res.ok (), { s with self := f s.self })

/-- The state a call leaves, however it ends. -/
def DX.exec {α : Type} (m : DX α) (s : Sys) : Sys := (m s).2

/-- `ThrowIfFailed(value, err_message)` of `GraphicsApiInterface.h`. -/
def ThrowIfFailed (value : HRESULT) (err_message : String) : DX Unit :=
  if value ≠ S_OK then
    DX.throw (err_message ++ " " ++ toString value)
  else
    DX.pure ()

/-- The one-argument overload `ThrowIfFailed(value)`. -/
def ThrowIfFailed1 (value : HRESULT) : DX Unit :=
  ThrowIfFailed value "Unspecified failure"

/-! ## The environment's side of the API -/

/-- Number of command lists in a queue entry. -/
def QueueItem.numLists : QueueItem → Nat
  | QueueItem.commandLists lists => lists.length
  | QueueItem.signal _ => 0

/-- The completed value of the fence after the GPU has retired a queue entry,
from the value before: only a signal changes it, and never downwards. -/
def QueueItem.completes (item : QueueItem) (fenceCompleted : Nat) : Nat :=
  match item with
  | QueueItem.signal v => max fenceCompleted v
  | QueueItem.commandLists _ => fenceCompleted

/-- Number of submitted command lists that the GPU has not retired. -/
def Gpu.pendingLists (g : Gpu) : Nat := (g.queue.map QueueItem.numLists).sum

/-- The GPU retires the oldest queue entry (nothing happens on an empty queue):
a `signal v` raises the fence to at least `v`, and the registered event is set
once the fence has reached the value it waits for. -/
def Gpu.retire (g : Gpu) : Gpu :=
  match g.queue with
  | [] => g
  | item :: rest =>
    let completed := item.completes g.fenceCompleted
    let fired :=
      match g.eventWaitingFor with
      | some target => decide (target ≤ completed)
      | none => false
    { queue := rest
      fenceCompleted := completed
      eventSignaled := g.eventSignaled || fired
      eventWaitingFor := if fired then none else g.eventWaitingFor }

/-- The GPU retires `k` queue entries. -/
def Gpu.run : Nat → Gpu → Gpu
  | 0, g => g
  | k + 1, g => Gpu.run k g.retire

/-- The thread waits on the auto-reset event while the GPU works through at
most `n` queue entries: the wait ends (resetting the event) as soon as the
event is set. -/
def Gpu.waitLoop : Nat → Gpu → Option Gpu
  | 0, g => if g.eventSignaled then some { g with eventSignaled := false } else none
  | n + 1, g =>
    if g.eventSignaled then some { g with eventSignaled := false }
    else Gpu.waitLoop n g.retire

/-- Waiting with `INFINITE` timeout: the GPU can work through the whole queue,
and if the event is still not set when the queue is empty nothing will ever
set it. -/
def Gpu.waitForEvent (g : Gpu) : Option Gpu := Gpu.waitLoop g.queue.length g

/-- The contents of the command lists after one more command was recorded
into `list`. -/
def appendAt (recorded : Handle → List Command) (list : Handle) (c : Command) :
    Handle → List Command :=
  fun h => if h = list then recorded h ++ [c] else recorded h

/-- The contents of the command lists after `list` was created or reset. -/
def clearAt (recorded : Handle → List Command) (list : Handle) : Handle → List Command :=
  fun h => if h = list then [] else recorded h

/-- Memory after the floats `src` were written at `dest`. -/
def writeAt (memory : Nat → List ℚ) (dest : Nat) (src : List ℚ) : Nat → List ℚ :=
  fun p => if p = dest then src ++ (memory p).drop src.length else memory p

/-- A new entry goes to the end of the queue. -/
def Gpu.push (g : Gpu) (item : QueueItem) : Gpu := { g with queue := g.queue ++ [item] }

/-- A newly created command queue is empty. -/
def Gpu.newQueue (g : Gpu) : Gpu := { g with queue := [] }

/-- A newly created fence has its initial value. -/
def Gpu.newFence (g : Gpu) (initialValue : Nat) : Gpu :=
  { g with fenceCompleted := initialValue }

/-- A newly created auto-reset event is not set and waits for nothing. -/
def Gpu.newEvent (g : Gpu) : Gpu := { g with eventSignaled := false, eventWaitingFor := none }

/-- The effect of a successful `SetEventOnCompletion(value, event)`: the event is
set at once if the fence has reached `value`, and otherwise waits for the fence
to reach it. -/
def Gpu.setEventOnCompletion (g : Gpu) (value : Nat) : Gpu :=
  if value ≤ g.fenceCompleted then { g with eventSignaled := true }
  else { g with eventWaitingFor := some value }

/-- Append a call to the log. -/
def World.log (w : World) (c : Call) : World := { w with trace := w.trace ++ [c] }

/-- The result that the next `HRESULT`-returning call will give. -/
def World.nextResult (w : World) : HRESULT := w.hresults.headD S_OK

/-- An `HRESULT`-returning call without further effect in the model. -/
def callHR (name : String) : DX HRESULT := fun s =>
  let hr := s.world.nextResult
  (Res.ok hr,
    { s with world := { s.world with
        hresults := s.world.hresults.tail
        trace := s.world.trace ++ [Call.hr name hr] } })

/-- A call that creates an object: on success the object is new, on failure
the output pointer is null. `entry` builds the log entry. (Every creation
call uses up one handle value, so that no two objects share a handle.) -/
def create (entry : HRESULT → Handle → Call) : DX (HRESULT × Handle) := fun s =>
  let hr := s.world.nextResult
  let h := if SUCCEEDED hr then s.world.nextHandle else 0
  (Res.ok (hr, h),
    { s with world := { s.world with
        hresults := s.world.hresults.tail
        nextHandle := s.world.nextHandle + 1
        trace := s.world.trace ++ [entry hr h] } })

/-- What `D3D12CreateDevice` answers for an adapter at a feature level. -/
def Adapter.createDevice (a : Adapter) : D3D_FEATURE_LEVEL → HRESULT
  | D3D_FEATURE_LEVEL.L11_0 => a.createDevice_11_0
  | D3D_FEATURE_LEVEL.L12_0 => a.createDevice_12_0

/-- The failure code `DXGI_ERROR_NOT_FOUND` (0x887A0002). -/
def DXGI_ERROR_NOT_FOUND : HRESULT := -2005270526

/-- What `D3D12CreateDevice(adapter, level, ...)` answers. A null adapter stands
for the default adapter, the first one that `EnumAdapters` enumerates. -/
def Factory.createDeviceResult (factory : Factory) (adapter : Option Adapter)
    (level : D3D_FEATURE_LEVEL) : HRESULT :=
  match adapter with
  | some a => a.createDevice level
  | none =>
    match factory.adapters.head? with
    | some a => a.createDevice level
    | none => DXGI_ERROR_NOT_FOUND

/-- The API call `D3D12CreateDevice(adapter, level, IID_PPV_ARGS(&device))`. -/
def D3D12CreateDevice (adapter : Option Adapter) (level : D3D_FEATURE_LEVEL) :
    DX (HRESULT × Handle) := fun s =>
  let hr := s.world.factory.createDeviceResult adapter level
  let h := if SUCCEEDED hr then s.world.nextHandle else 0
  (Res.ok (hr, h),
    { s with world := { s.world with
        nextHandle := s.world.nextHandle + 1
        trace := s.world.trace ++ [Call.D3D12CreateDevice adapter level hr] } })

/-- The call `ID3D12Device::CreateCommandQueue`: a new queue is empty. -/
def CreateCommandQueue : DX (HRESULT × Handle) := fun s =>
  let hr := s.world.nextResult
  let h := if SUCCEEDED hr then s.world.nextHandle else 0
  (Res.ok (hr, h),
    { s with world := { s.world with
        hresults := s.world.hresults.tail
        nextHandle := s.world.nextHandle + 1
        gpu := if SUCCEEDED hr then s.world.gpu.newQueue else s.world.gpu
        trace := s.world.trace ++ [Call.hr "CreateCommandQueue" hr] } })

/-- The call `ID3D12Device::CreateCommandList`: a new list is empty. -/
def CreateCommandList (type : D3D12_COMMAND_LIST_TYPE) (allocator initialState : Handle) :
    DX (HRESULT × Handle) := fun s =>
  let hr := s.world.nextResult
  let h := if SUCCEEDED hr then s.world.nextHandle else 0
  (Res.ok (hr, h),
    { s with world := { s.world with
        hresults := s.world.hresults.tail
        nextHandle := s.world.nextHandle + 1
        recorded := if SUCCEEDED hr then clearAt s.world.recorded h else s.world.recorded
        trace := s.world.trace ++ [Call.CreateCommandList type allocator initialState hr h] } })

/-- The call `ID3D12Device::CreateFence(initialValue, ...)`. -/
def CreateFence (initialValue : Nat) : DX (HRESULT × Handle) := fun s =>
  let hr := s.world.nextResult
  let h := if SUCCEEDED hr then s.world.nextHandle else 0
  (Res.ok (hr, h),
    { s with world := { s.world with
        hresults := s.world.hresults.tail
        nextHandle := s.world.nextHandle + 1
        gpu := if SUCCEEDED hr then s.world.gpu.newFence initialValue else s.world.gpu
        trace := s.world.trace ++ [Call.CreateFence initialValue hr h] } })

/-- The call `CreateEvent(nullptr, FALSE, FALSE, nullptr)`: an auto-reset event,
initially not set. The next entry of `hresults` decides: `S_OK` gives a new
event; any other value `e` gives a null handle, and `e` is then what
`HRESULT_FROM_WIN32(GetLastError())` evaluates to. -/
def CreateEvent : DX (Handle × HRESULT) := fun s =>
  let e := s.world.nextResult
  let h := if e = S_OK then s.world.nextHandle else 0
  (Res.ok (h, e),
    { s with world := { s.world with
        hresults := s.world.hresults.tail
        nextHandle := s.world.nextHandle + 1
        gpu := if e = S_OK then s.world.gpu.newEvent else s.world.gpu
        trace := s.world.trace ++ [Call.CreateEvent h] } })

/-- The call `IDXGISwapChain::GetBuffer(n, ...)`. -/
def GetBuffer (n : Nat) : DX (HRESULT × Handle) := fun s =>
  let hr := s.world.nextResult
  let h := if SUCCEEDED hr then s.world.backBuffers.getD n 0 else 0
  (Res.ok (hr, h),
    { s with world := { s.world with
        hresults := s.world.hresults.tail
        trace := s.world.trace ++ [Call.hr "GetBuffer" hr] } })

/-- The call `ID3D12Resource::Map(0, &readRange, &p)`: on success `p` points to
the memory of the resource, which the model addresses by the resource. -/
def Map (resource : Handle) : DX (HRESULT × Nat) := fun s =>
  let hr := s.world.nextResult
  let p := if SUCCEEDED hr then resource else 0
  (Res.ok (hr, p),
    { s with world := { s.world with
        hresults := s.world.hresults.tail
        trace := s.world.trace ++ [Call.hr "Map" hr] } })

/-- The call `memcpy(dest, src, size)` for a source made of floats: the first
`size / sizeof(float)` floats at `dest` are replaced by those of `src`. -/
def memcpy (dest : Nat) (src : List ℚ) (size : Nat) : DX Unit := fun s =>
  let n := size / sizeof_float
  (Res.ok (),
    { s with world := { s.world with
        memory := writeAt s.world.memory dest (src.take n)
        trace := s.world.trace ++ [Call.memcpy dest size] } })

/-- A call without result that is only logged. -/
def logCall (c : Call) : DX Unit := fun s =>
  (Res.ok (), { s with world := s.world.log c })

/-- Record a command into a command list or bundle. -/
def record (list : Handle) (c : Command) : DX Unit := fun s =>
  (Res.ok (),
    { s with world := { s.world with
        recorded := appendAt s.world.recorded list c } })

/-- The call `ID3D12CommandAllocator::Reset`. -/
def CommandAllocatorReset (allocator : Handle) : DX HRESULT := fun s =>
  let hr := s.world.nextResult
  (Res.ok hr,
    { s with world := { s.world with
        hresults := s.world.hresults.tail
        trace := s.world.trace ++
          [Call.CommandAllocatorReset allocator hr s.world.gpu.pendingLists] } })

/-- The call `ID3D12GraphicsCommandList::Reset(allocator, initialState)`: on
success the list is empty and recording. -/
def CommandListReset (list allocator initialState : Handle) : DX HRESULT := fun s =>
  let hr := s.world.nextResult
  (Res.ok hr,
    { s with world := { s.world with
        hresults := s.world.hresults.tail
        recorded := if SUCCEEDED hr then clearAt s.world.recorded list else s.world.recorded
        trace := s.world.trace ++ [Call.CommandListReset list allocator initialState hr] } })

/-- The call `ID3D12GraphicsCommandList::Close`. -/
def CommandListClose (list : Handle) : DX HRESULT := fun s =>
  let hr := s.world.nextResult
  (Res.ok hr,
    { s with world := { s.world with
        hresults := s.world.hresults.tail
        trace := s.world.trace ++ [Call.CommandListClose list hr] } })

/-- The call `ID3D12CommandQueue::ExecuteCommandLists`: the lists, with what
they hold now, go to the end of the queue. -/
def ExecuteCommandLists (lists : List Handle) : DX Unit := fun s =>
  let g := s.world.gpu.push (QueueItem.commandLists (lists.map s.world.recorded))
  (Res.ok (),
    { s with world := { s.world with
        gpu := g
        trace := s.world.trace ++ [Call.ExecuteCommandLists lists g.pendingLists] } })

/-- The call `IDXGISwapChain::Present(syncInterval, flags)`: on success the swap
chain moves on to its next back buffer. -/
def Present (syncInterval flags : Nat) : DX HRESULT := fun s =>
  let hr := s.world.nextResult
  (Res.ok hr,
    { s with world := { s.world with
        hresults := s.world.hresults.tail
        backBufferIndex := if SUCCEEDED hr then s.world.advance s.world.backBufferIndex
          else s.world.backBufferIndex
        trace := s.world.trace ++ [Call.Present syncInterval flags hr] } })

/-- The call `IDXGISwapChain3::GetCurrentBackBufferIndex`. -/
def GetCurrentBackBufferIndex : DX Nat := fun s =>
  (Res.ok s.world.backBufferIndex,
    { s with world := s.world.log (Call.GetCurrentBackBufferIndex s.world.backBufferIndex) })

/-- The call `ID3D12CommandQueue::Signal(fence, value)`: on success the signal
goes to the end of the queue. -/
def Signal (fence : Handle) (value : Nat) : DX HRESULT := fun s =>
  let hr := s.world.nextResult
  (Res.ok hr,
    { s with world := { s.world with
        hresults := s.world.hresults.tail
        gpu := if SUCCEEDED hr then s.world.gpu.push (QueueItem.signal value) else s.world.gpu
        trace := s.world.trace ++ [Call.Signal fence value hr] } })

/-- The call `ID3D12Fence::GetCompletedValue`, after the GPU has retired as many
queue entries as `gpuProgress` says. -/
def GetCompletedValue (fence : Handle) : DX Nat := fun s =>
  let g := Gpu.run (s.world.gpuProgress.headD 0) s.world.gpu
  (Res.ok g.fenceCompleted,
    { s with world := { s.world with
        gpuProgress := s.world.gpuProgress.tail
        gpu := g
        trace := s.world.trace ++ [Call.GetCompletedValue fence g.fenceCompleted] } })

/-- The call `ID3D12Fence::SetEventOnCompletion(value, event)`. -/
def SetEventOnCompletion (fence : Handle) (value : Nat) (event : Handle) : DX HRESULT :=
  fun s =>
  let hr := s.world.nextResult
  (Res.ok hr,
    { s with world := { s.world with
        hresults := s.world.hresults.tail
        gpu := if SUCCEEDED hr then s.world.gpu.setEventOnCompletion value else s.world.gpu
        trace := s.world.trace ++ [Call.SetEventOnCompletion fence value event hr] } })

/-- The call `WaitForSingleObject(event, INFINITE)`; its result is not used. -/
def WaitForSingleObject (event : Handle) : DX Unit := fun s =>
  match s.world.gpu.waitForEvent with
  | some g =>
    (Res.ok (),
      { s with world := { s.world with
          gpu := g
          trace := s.world.trace ++ [Call.WaitForSingleObject event] } })
  | none =>
    (Res.blocked,
      { s with world := { s.world with
          trace := s.world.trace ++ [Call.WaitForSingleObject event] } })

/-! ## Texture constants (`InterfaceDX12.h`, "Texture info") -/

/-- Texture width in pixels: `static const UINT TextureWidth = 256`. -/
def TextureWidth : Nat := 256

/-- Texture height in pixels: `static const UINT TextureHeight = 256`. -/
def TextureHeight : Nat := 256

/-- The number of bytes used to represent a pixel in the texture. -/
def TexturePixelSize : Nat := 4

/-! ## `InterfaceDX12::GenerateTextureData` -/

/-- Body of the `for` loop of `GenerateTextureData` at offset `n`: the four
byte stores into `pData`, chosen by the parity test `i % 2 == j % 2`.
A store outside the vector leaves it as it is (`List.set`). -/
def GenerateTextureData.body (rowPitch cellPitch cellHeight : Nat)
    (pData : List Nat) (n : Nat) : List Nat :=
  let x := n % rowPitch
  let y := n / rowPitch
  let i := x / cellPitch
  let j := y / cellHeight
  if i % 2 = j % 2 then
    (((pData.set n 0x00).set (n + 1) 0x00).set (n + 2) 0x00).set (n + 3) 0xff
  else
    (((pData.set n 0xff).set (n + 1) 0xff).set (n + 2) 0xff).set (n + 3) 0xff

/-- The loop `for (UINT n = 0; n < textureSize; n += TexturePixelSize)`,
started at `n` with the vector `pData`. All values stay far below `2^32`, so
the `UINT` arithmetic never wraps. -/
def GenerateTextureData.loop (textureSize rowPitch cellPitch cellHeight : Nat)
    (n : Nat) (pData : List Nat) : List Nat :=
  if n < textureSize then
    GenerateTextureData.loop textureSize rowPitch cellPitch cellHeight
      (n + TexturePixelSize)
      (GenerateTextureData.body rowPitch cellPitch cellHeight pData n)
  else
    pData
termination_by textureSize - n
decreasing_by simp only [TexturePixelSize]; omega

/-- Generate a simple black and white checkerboard texture
(`InterfaceDX12::GenerateTextureData`). -/
def GenerateTextureData : List Nat :=
  let rowPitch := TextureWidth * TexturePixelSize
  let cellPitch := rowPitch >>> 3
  let cellHeight := TextureWidth >>> 3
  let textureSize := rowPitch * TextureHeight
  let data : List Nat := List.replicate textureSize 0
  GenerateTextureData.loop textureSize rowPitch cellPitch cellHeight 0 data

/-- The `RowPitch` that `LoadAssets` declares for the texture upload:
`textureData.RowPitch = TextureWidth * TexturePixelSize`. -/
def LoadAssets.textureRowPitch : Nat := TextureWidth * TexturePixelSize

/-- The `SlicePitch` that `LoadAssets` declares for the texture upload:
`textureData.SlicePitch = textureData.RowPitch * TextureHeight`. -/
def LoadAssets.textureSlicePitch : Nat := LoadAssets.textureRowPitch * TextureHeight

/-- The byte that one pass of the loop body at offset `n` leaves at `n + c`
(`c < 4`); used to state what the loop computes. -/
def GenerateTextureData.byteAt (rowPitch cellPitch cellHeight n c : Nat) : Nat :=
  if (n % rowPitch / cellPitch) % 2 = (n / rowPitch / cellHeight) % 2 then
    (if c = 3 then 0xff else 0x00)
  else 0xff

/-! ## `InterfaceDX12::GetHardwareAdapter` -/

/-- One of the two enumeration loops of `GetHardwareAdapter`, over the adapters
that the enumeration call yields for the indices not visited yet, in index
order; the result is the value of the local `adapter` after the loop. The
enumeration call first releases `adapter` (`&adapter` on a `ComPtr`) and fails
at the end of the enumeration, which leaves `adapter` null; `continue` and the
end of the body both go on to the next index; `break` keeps the adapter. The
two loops of the source differ only in the enumeration and in the feature level
of the dry-run `D3D12CreateDevice`. -/
def GetHardwareAdapter.loop (level : D3D_FEATURE_LEVEL) : List Adapter → Option Adapter
  | [] => none
  | adapter :: later =>
    if adapter.Flags &&& DXGI_ADAPTER_FLAG_SOFTWARE ≠ 0 then
      GetHardwareAdapter.loop level later
    else if SUCCEEDED (adapter.createDevice level) then
      some adapter
    else
      GetHardwareAdapter.loop level later

/-- The value stored through `ppAdapter` by
`GetHardwareAdapter(pFactory, ppAdapter, requestHighPerformanceAdapter)`;
`none` is `nullptr`. -/
def GetHardwareAdapter.result (pFactory : Factory) (requestHighPerformanceAdapter : Bool) :
    Option Adapter :=
  let adapter : Option Adapter :=
    match pFactory.factory6 with
    | some factory6 =>
      GetHardwareAdapter.loop D3D_FEATURE_LEVEL.L12_0
        (if requestHighPerformanceAdapter = true then factory6.highPerformance
         else factory6.unspecified)
    | none => none
  if adapter = none then
    GetHardwareAdapter.loop D3D_FEATURE_LEVEL.L11_0 pFactory.adapters
  else
    adapter

/-- The member function `InterfaceDX12::GetHardwareAdapter`: it has no `throw`
and no `ThrowIfFailed`, and leaves its result in `*ppAdapter`. -/
def GetHardwareAdapter (pFactory : Factory) (requestHighPerformanceAdapter : Bool) :
    DX (Option Adapter) :=
  DX.pure (GetHardwareAdapter.result pFactory requestHighPerformanceAdapter)

/-! ## `InterfaceDX12::WaitForPreviousFrame` -/

/-- The member function `InterfaceDX12::WaitForPreviousFrame`;
`m_fenceValue++` is on a `UINT64`. -/
def WaitForPreviousFrame : DX Unit := do
  let o ← getSelf
  let fence := o.m_fenceValue
  ThrowIfFailed1 (← Signal o.m_fence fence)
  modifySelf fun o => { o with m_fenceValue := (o.m_fenceValue + 1) % 2 ^ 64 }
  let completed ← GetCompletedValue o.m_fence
  (if completed < fence then do
    ThrowIfFailed1 (← SetEventOnCompletion o.m_fence fence o.m_fenceEvent)
    WaitForSingleObject o.m_fenceEvent
  else
    DX.pure ())
  let index ← GetCurrentBackBufferIndex
  modifySelf fun o => { o with m_frameIndex := index }

/-! ## `InterfaceDX12::LoadPipeline` -/

/-- The loop `for (UINT n = 0; n < FRAME_COUNT; n++)` of `LoadPipeline` with
`remaining = FRAME_COUNT - n` passes to go. -/
def LoadPipeline.createRenderTargetViews : Nat → Nat → Nat → DX Unit
  | 0, _, _ => DX.pure ()
  | remaining + 1, n, rtvHandle => do
    let (hr, buffer) ← GetBuffer n
    modifySelf fun o => { o with m_renderTargets := Function.update o.m_renderTargets n buffer }
    ThrowIfFailed hr "Getting swap chain buffer"
    logCall (Call.CreateRenderTargetView buffer rtvHandle)
    let o ← getSelf
    LoadPipeline.createRenderTargetViews remaining (n + 1) (rtvHandle + 1 * o.m_rtvDescriptorSize)

/-- The member function `InterfaceDX12::LoadPipeline` (release build: the
`_DEBUG` block is compiled out). -/
def LoadPipeline : DX Unit := do
  ThrowIfFailed (← callHR "CreateDXGIFactory2") "Error creating DXGI factory"
  let factory := (← getWorld).factory
  let o ← getSelf
  (if o.m_use_warp_device then do
    ThrowIfFailed1 (← callHR "EnumWarpAdapter")
    let (hr, device) ← create fun hr _ => Call.hr "D3D12CreateDevice(warpAdapter)" hr
    modifySelf fun o => { o with m_device := device }
    ThrowIfFailed hr "Creating warp device object"
  else do
    let hardwareAdapter ← GetHardwareAdapter factory false
    let (hr, device) ← D3D12CreateDevice hardwareAdapter D3D_FEATURE_LEVEL.L11_0
    modifySelf fun o => { o with m_device := device }
    ThrowIfFailed hr "Creating device object")
  let (hr, queue) ← CreateCommandQueue
  modifySelf fun o => { o with m_commandQueue := queue }
  ThrowIfFailed hr "Creating command queue"
  let (hr, swapChain) ← create fun hr _ => Call.hr "CreateSwapChainForHwnd" hr
  ThrowIfFailed hr "Creating swapchain"
  ThrowIfFailed (← callHR "MakeWindowAssociation") "Making window association"
  let hr ← callHR "As"
  modifySelf fun o => { o with m_swapChain := if SUCCEEDED hr then swapChain else 0 }
  ThrowIfFailed hr "Assigning member swapchain"
  let index ← GetCurrentBackBufferIndex
  modifySelf fun o => { o with m_frameIndex := index }
  let (hr, rtvHeap) ← create
    (Call.CreateDescriptorHeap D3D12_DESCRIPTOR_HEAP_TYPE.RTV FRAME_COUNT false)
  modifySelf fun o => { o with m_rtvHeap := rtvHeap }
  ThrowIfFailed hr "Creating descriptor heap RTV"
  let w ← getWorld
  modifySelf fun o =>
    { o with m_rtvDescriptorSize := w.incrementSize D3D12_DESCRIPTOR_HEAP_TYPE.RTV }
  let (hr, srvHeap) ← create
    (Call.CreateDescriptorHeap D3D12_DESCRIPTOR_HEAP_TYPE.CBV_SRV_UAV 2 true)
  modifySelf fun o => { o with m_srvHeap := srvHeap }
  ThrowIfFailed hr "Creating descriptor heap SRV"
  modifySelf fun o =>
    { o with m_srvDescriptorSize := w.incrementSize D3D12_DESCRIPTOR_HEAP_TYPE.CBV_SRV_UAV }
  LoadPipeline.createRenderTargetViews FRAME_COUNT 0 (w.cpuStart rtvHeap)
  let (hr, allocator) ← create (Call.CreateCommandAllocator D3D12_COMMAND_LIST_TYPE.DIRECT)
  modifySelf fun o => { o with m_commandAllocator := allocator }
  ThrowIfFailed hr "Creating command allocator"
  let (hr, allocator) ← create (Call.CreateCommandAllocator D3D12_COMMAND_LIST_TYPE.BUNDLE)
  modifySelf fun o => { o with m_bundleCommandAllocator := allocator }
  ThrowIfFailed hr "Creating bundle command allocator"

/-! ## `InterfaceDX12::LoadAssets` -/

/-- Size of `struct Vertex` (a `Float3` and a `Float2`) in bytes. -/
def Vertex.sizeof : Nat := 3 * sizeof_float + 2 * sizeof_float

/-- The floats of the array `triangleVertices` of `LoadAssets`, in memory order. -/
def LoadAssets.triangleVertices (m_aspect_ratio : ℚ) : List ℚ :=
  [0.0, 0.25 * m_aspect_ratio, 0.0, 0.5, 0.0,
   0.25, -0.25 * m_aspect_ratio, 0.0, 1.0, 1.0,
   -0.25, -0.25 * m_aspect_ratio, 0.0, 0.0, 1.0]

/-- The member function `InterfaceDX12::LoadAssets`. The descriptions handed to
the creation calls are kept as far as the log entries show them. -/
def LoadAssets : DX Unit := do
  -- root signature
  let _featureHr ← callHR "CheckFeatureSupport"
  ThrowIfFailed (← callHR "D3DX12SerializeVersionedRootSignature") "Serializing root signature"
  let (hr, rootSignature) ← create fun hr _ => Call.hr "CreateRootSignature" hr
  modifySelf fun o => { o with m_rootSignature := rootSignature }
  ThrowIfFailed hr "Creating root signature"
  -- pipeline state
  ThrowIfFailed (← callHR "D3DCompileFromFile VSMain") "Compiling vertex shader"
  ThrowIfFailed (← callHR "D3DCompileFromFile PSMain") "Compiling pixel shader"
  let (hr, pipelineState) ← create fun hr _ => Call.hr "CreateGraphicsPipelineState" hr
  modifySelf fun o => { o with m_pipelineState := pipelineState }
  ThrowIfFailed hr "Creating PSO"
  -- command list
  let o ← getSelf
  let (hr, commandList) ← CreateCommandList D3D12_COMMAND_LIST_TYPE.DIRECT o.m_commandAllocator 0
  modifySelf fun o => { o with m_commandList := commandList }
  ThrowIfFailed hr "Creating command list in assets"
  -- vertex buffer
  let triangleVertices := LoadAssets.triangleVertices o.m_aspect_ratio
  let vertexBufferSize := 3 * Vertex.sizeof
  let (hr, vertexBuffer) ← create (Call.CreateCommittedResource D3D12_HEAP_TYPE.UPLOAD
    vertexBufferSize D3D12_RESOURCE_STATES.GENERIC_READ)
  modifySelf fun o => { o with m_vertexBuffer := vertexBuffer }
  ThrowIfFailed hr "Creating committed resource for vertex buffer"
  let (hr, pVertexDataBegin) ← Map vertexBuffer
  ThrowIfFailed hr "Mapping the vertex buffer"
  memcpy pVertexDataBegin triangleVertices (3 * Vertex.sizeof)
  let w ← getWorld
  let vertexBufferView : D3D12_VERTEX_BUFFER_VIEW :=
    { BufferLocation := w.gpuVirtualAddress vertexBuffer
      StrideInBytes := Vertex.sizeof
      SizeInBytes := vertexBufferSize }
  modifySelf fun o => { o with m_vertexBufferView := vertexBufferView }
  -- bundle
  let (hr, bundle) ← CreateCommandList D3D12_COMMAND_LIST_TYPE.BUNDLE
    o.m_bundleCommandAllocator pipelineState
  modifySelf fun o => { o with m_bundleCommandList := bundle }
  ThrowIfFailed hr "Creating bundle command list"
  record bundle (Command.SetGraphicsRootSignature rootSignature)
  record bundle Command.IASetPrimitiveTopologyTriangleList
  record bundle (Command.IASetVertexBuffers 0 [vertexBufferView])
  record bundle (Command.DrawInstanced 3 1 0 0)
  ThrowIfFailed (← CommandListClose bundle) "Closing bundle command list"
  -- texture
  let (hr, texture) ← create (Call.CreateCommittedResource D3D12_HEAP_TYPE.DEFAULT
    TextureWidth D3D12_RESOURCE_STATES.COPY_DEST)
  modifySelf fun o => { o with m_texture := texture }
  ThrowIfFailed hr "Creating committed resource for the texture"
  let uploadBufferSize := w.requiredIntermediateSize
  let (hr, textureUploadHeap) ← create (Call.CreateCommittedResource D3D12_HEAP_TYPE.UPLOAD
    uploadBufferSize D3D12_RESOURCE_STATES.GENERIC_READ)
  ThrowIfFailed hr "Creating committed resource for texture"
  let texture_data := GenerateTextureData
  record commandList (Command.UpdateSubresources texture textureUploadHeap texture_data
    LoadAssets.textureRowPitch LoadAssets.textureSlicePitch)
  record commandList (Command.ResourceBarrier texture D3D12_RESOURCE_STATES.COPY_DEST
    D3D12_RESOURCE_STATES.PIXEL_SHADER_RESOURCE)
  logCall (Call.CreateShaderResourceView texture (w.cpuStart o.m_srvHeap))
  -- constant buffer
  let constantBufferSize := SceneConstantBuffer.sizeof
  let (hr, constantBuffer) ← create (Call.CreateCommittedResource D3D12_HEAP_TYPE.UPLOAD
    constantBufferSize D3D12_RESOURCE_STATES.GENERIC_READ)
  modifySelf fun o => { o with m_constantBuffer := constantBuffer }
  ThrowIfFailed1 hr
  logCall (Call.CreateConstantBufferView (w.gpuVirtualAddress constantBuffer) constantBufferSize
    (w.cpuStart o.m_srvHeap + 1 * o.m_srvDescriptorSize))
  let (hr, pCbvDataBegin) ← Map constantBuffer
  modifySelf fun o => { o with m_pCbvDataBegin := pCbvDataBegin }
  ThrowIfFailed1 hr
  memcpy pCbvDataBegin o.m_constantBufferData.floats SceneConstantBuffer.sizeof
  -- close and execute
  ThrowIfFailed (← CommandListClose commandList) "Closing command list in assets after texture"
  ExecuteCommandLists [commandList]
  -- synchronization objects
  let (hr, fence) ← CreateFence 0
  modifySelf fun o => { o with m_fence := fence }
  ThrowIfFailed hr "Creating fence in assets"
  modifySelf fun o => { o with m_fenceValue := 1 }
  let (fenceEvent, lastError) ← CreateEvent
  modifySelf fun o => { o with m_fenceEvent := fenceEvent }
  (if fenceEvent = 0 then ThrowIfFailed1 lastError else DX.pure ())
  WaitForPreviousFrame

/-! ## `InterfaceDX12::PopulateCommandList` -/

/-- The member function `InterfaceDX12::PopulateCommandList`. -/
def PopulateCommandList : DX Unit := do
  let o ← getSelf
  let w ← getWorld
  ThrowIfFailed (← CommandAllocatorReset o.m_commandAllocator) "Resetting command allocator"
  ThrowIfFailed (← CommandListReset o.m_commandList o.m_commandAllocator o.m_pipelineState)
    "Resetting command list"
  record o.m_commandList (Command.SetGraphicsRootSignature o.m_rootSignature)
  let ppHeaps := [o.m_srvHeap]
  record o.m_commandList (Command.SetDescriptorHeaps ppHeaps)
  record o.m_commandList (Command.SetGraphicsRootDescriptorTable 0 (w.gpuStart o.m_srvHeap))
  let hdl := w.gpuStart o.m_srvHeap + o.m_srvDescriptorSize
  record o.m_commandList (Command.SetGraphicsRootDescriptorTable 1 hdl)
  record o.m_commandList (Command.RSSetViewports [o.m_viewport])
  record o.m_commandList (Command.RSSetScissorRects [o.m_scissorRect])
  record o.m_commandList (Command.ResourceBarrier (o.m_renderTargets o.m_frameIndex)
    D3D12_RESOURCE_STATES.PRESENT D3D12_RESOURCE_STATES.RENDER_TARGET)
  let rtvHandle := w.cpuStart o.m_rtvHeap + o.m_frameIndex * o.m_rtvDescriptorSize
  record o.m_commandList (Command.OMSetRenderTargets rtvHandle)
  let clearColor : List ℚ := [0.0, 0.2, 0.4, 1.0]
  record o.m_commandList (Command.ClearRenderTargetView rtvHandle clearColor)
  record o.m_commandList (Command.ExecuteBundle o.m_bundleCommandList)
  record o.m_commandList (Command.ResourceBarrier (o.m_renderTargets o.m_frameIndex)
    D3D12_RESOURCE_STATES.RENDER_TARGET D3D12_RESOURCE_STATES.PRESENT)
  ThrowIfFailed (← CommandListClose o.m_commandList) "Closing command list"

/-! ## `float` arithmetic (IEEE 754 binary32) -/

/-- Round to the nearest integer, ties to the even one. -/
def Float32.roundTiesToEven (r : ℚ) : ℤ :=
  if r - ⌊r⌋ < 1 / 2 then ⌊r⌋
  else if 1 / 2 < r - ⌊r⌋ then ⌊r⌋ + 1
  else if ⌊r⌋ % 2 = 0 then ⌊r⌋
  else ⌊r⌋ + 1

/-- The exponent of the unit in the last place of binary32 at `q`: the binary
exponent of `q`, but at least -126 (below that the values are subnormal), less
the 23 fraction bits. -/
def Float32.ulpExponent (q : ℚ) : ℤ := max (Int.log 2 |q|) (-126) - 23

/-- The binary32 value nearest to `q`, ties to the even significand (the
default rounding): the value of a `float` literal that reads `q`, and the
result of a `float` operation whose exact result is `q`. A result of magnitude
`2 ^ 128` or more stands for an overflow to infinity; none arises from adding
the step of `Update` to a finite binary32 value. -/
def Float32.round (q : ℚ) : ℚ :=
  (Float32.roundTiesToEven (q / 2 ^ Float32.ulpExponent q) : ℚ) * 2 ^ Float32.ulpExponent q

/-- One tick of the offset with the step and the bound taken as the exact
values 0.005 and 1.25, as the specification states its bound. -/
def Spec.exactUpdate (x : ℚ) : ℚ :=
  if x + 0.005 > 1.25 then -1.25 else x + 0.005

/-! ## The interface functions -/

/-- The member function `InterfaceDX12::Init`; the window size is what
`glfwGetWindowSize` reports. -/
def Init (p_window : Handle) (assets_path : String) : DX Unit := do
  modifySelf fun o => { o with mp_window := p_window }
  modifySelf fun o => { o with m_assetsPath := assets_path }
  modifySelf fun o => { o with m_frameIndex := 0 }
  let w ← getWorld
  modifySelf fun o => { o with m_width := w.windowWidth, m_height := w.windowHeight }
  modifySelf fun o => { o with m_aspect_ratio := (o.m_width : ℚ) / (o.m_height : ℚ) }
  modifySelf fun o => { o with
    m_viewport :=
      { TopLeftX := 0, TopLeftY := 0, Width := (o.m_width : ℚ), Height := (o.m_height : ℚ),
        MinDepth := 0, MaxDepth := 0 } }
  modifySelf fun o => { o with
    m_scissorRect := { left := 0, top := 0, right := o.m_width, bottom := o.m_height } }
  modifySelf fun o => { o with m_rtvDescriptorSize := 0 }
  modifySelf fun o => { o with m_constantBufferData := SceneConstantBuffer.zero }
  LoadPipeline
  LoadAssets

/-- The member function `InterfaceDX12::Update`. The constants are the binary32
values of the literals `0.005f` and `1.25f`, and `+=` on the `float` member
stores the binary32 sum. -/
def Update : DX Unit := do
  let translationSpeed : ℚ := Float32.round 0.005
  let offsetBounds : ℚ := Float32.round 1.25
  modifySelf fun o => { o with
    m_constantBufferData := { o.m_constantBufferData with
      offset := { o.m_constantBufferData.offset with
        x := Float32.round (o.m_constantBufferData.offset.x + translationSpeed) } } }
  let o ← getSelf
  (if o.m_constantBufferData.offset.x > offsetBounds then
    modifySelf fun o => { o with
      m_constantBufferData := { o.m_constantBufferData with
        offset := { o.m_constantBufferData.offset with x := -offsetBounds } } }
  else
    DX.pure ())
  let o ← getSelf
  memcpy o.m_pCbvDataBegin o.m_constantBufferData.floats SceneConstantBuffer.sizeof

/-- The member function `InterfaceDX12::Render`. -/
def Render : DX Unit := do
  PopulateCommandList
  let o ← getSelf
  let ppCommandLists := [o.m_commandList]
  ExecuteCommandLists ppCommandLists
  ThrowIfFailed (← Present 1 0) "Presenting swapchain"
  WaitForPreviousFrame

/-- The member function `InterfaceDX12::Destroy`. -/
def Destroy : DX Unit := do
  WaitForPreviousFrame
  let o ← getSelf
  logCall (Call.CloseHandle o.m_fenceEvent)

/-- The end-to-end scenario: `Init`, then one `Update`, then one `Render`. -/
def scenario (p_window : Handle) (assets_path : String) : DX Unit := do
  Init p_window assets_path
  Update
  Render

/-- A call that the host makes between `Init` and `Destroy`. -/
inductive HostCall where
  | update
  | render
  deriving DecidableEq, Repr

/-- The member function behind a host call. -/
def HostCall.run : HostCall → DX Unit
  | HostCall.update => Update
  | HostCall.render => Render

/-- A sequence of host calls, one after the other. -/
def runCalls : List HostCall → DX Unit
  | [] => DX.pure ()
  | c :: rest => do
    c.run
    runCalls rest

/-- The calls of a host loop that runs `k` times: each time `Update`, then
`Render`. -/
def frames : Nat → DX Unit
  | 0 => DX.pure ()
  | k + 1 => do
    frames k
    Update
    Render

/-- A whole session of the host: `Init`, then `k` times `Update` and `Render`,
then `Destroy`. -/
def session (p_window : Handle) (assets_path : String) (k : Nat) : DX Unit := do
  Init p_window assets_path
  frames k
  Destroy

/-! ## What a frame records -/

/-- The commands that `PopulateCommandList` puts into `m_commandList`, in order,
read off the object `o` and the descriptor heap starts of the environment. -/
def PopulateCommandList.commands (o : InterfaceDX12) (w : World) : List Command :=
  [Command.SetGraphicsRootSignature o.m_rootSignature,
   Command.SetDescriptorHeaps [o.m_srvHeap],
   Command.SetGraphicsRootDescriptorTable 0 (w.gpuStart o.m_srvHeap),
   Command.SetGraphicsRootDescriptorTable 1 (w.gpuStart o.m_srvHeap + o.m_srvDescriptorSize),
   Command.RSSetViewports [o.m_viewport],
   Command.RSSetScissorRects [o.m_scissorRect],
   Command.ResourceBarrier (o.m_renderTargets o.m_frameIndex)
     D3D12_RESOURCE_STATES.PRESENT D3D12_RESOURCE_STATES.RENDER_TARGET,
   Command.OMSetRenderTargets (w.cpuStart o.m_rtvHeap + o.m_frameIndex * o.m_rtvDescriptorSize),
   Command.ClearRenderTargetView
     (w.cpuStart o.m_rtvHeap + o.m_frameIndex * o.m_rtvDescriptorSize) [0.0, 0.2, 0.4, 1.0],
   Command.ExecuteBundle o.m_bundleCommandList,
   Command.ResourceBarrier (o.m_renderTargets o.m_frameIndex)
     D3D12_RESOURCE_STATES.RENDER_TARGET D3D12_RESOURCE_STATES.PRESENT]

/-- The resource that a barrier command names. -/
def Command.barrierResource : Command → Option Handle
  | Command.ResourceBarrier resource _ _ => some resource
  | _ => none

/-- A command without the two things that depend on the frame index: the back
buffer that a barrier names and the render-target-view handle. -/
def Command.eraseFrame : Command → Command
  | Command.ResourceBarrier _ before after => Command.ResourceBarrier 0 before after
  | Command.OMSetRenderTargets _ => Command.OMSetRenderTargets 0
  | Command.ClearRenderTargetView _ color => Command.ClearRenderTargetView 0 color
  | c => c

/-- What `PopulateCommandList` would record for each frame index, from the
object and the environment as they are. -/
def Sys.commandsAt (s : Sys) (frameIndex : Nat) : List Command :=
  PopulateCommandList.commands { s.self with m_frameIndex := frameIndex } s.world

/-- The render-target-view handle that a command uses. -/
def Command.renderTargetView : Command → Option Nat
  | Command.OMSetRenderTargets h => some h
  | Command.ClearRenderTargetView h _ => some h
  | _ => none

/-! ## What a call logs -/

/-- The API calls of a `WaitForPreviousFrame` that returns, in order, for the
object `o` on entry, the completed value `c` that `GetCompletedValue` gave and
the back buffer index `index` that the swap chain reported. -/
def WaitForPreviousFrame.calls (o : InterfaceDX12) (c index : Nat) : List Call :=
  [Call.Signal o.m_fence o.m_fenceValue 0, Call.GetCompletedValue o.m_fence c] ++
  (if c < o.m_fenceValue then
    [Call.SetEventOnCompletion o.m_fence o.m_fenceValue o.m_fenceEvent 0,
     Call.WaitForSingleObject o.m_fenceEvent]
   else []) ++
  [Call.GetCurrentBackBufferIndex index]

/-- The API calls of a `Render` that returns, in order, up to and including
`Present`; `pending` is the number of unretired command lists on entry. -/
def Render.calls (o : InterfaceDX12) (pending : Nat) : List Call :=
  [Call.CommandAllocatorReset o.m_commandAllocator 0 pending,
   Call.CommandListReset o.m_commandList o.m_commandAllocator o.m_pipelineState 0,
   Call.CommandListClose o.m_commandList 0,
   Call.ExecuteCommandLists [o.m_commandList] (pending + 1),
   Call.Present 1 0 0]

/-- The call is a submission of command lists. -/
def Call.isExecute : Call → Bool
  | Call.ExecuteCommandLists _ _ => true
  | _ => false

/-- The call is a `Present`. -/
def Call.isPresent : Call → Bool
  | Call.Present _ _ _ => true
  | _ => false

/-- The call acts on the command queue, the swap chain or the per-frame
allocator: a submission, a `Present`, a fence signal or an allocator reset. -/
def Call.isQueueWork : Call → Bool
  | Call.ExecuteCommandLists _ _ => true
  | Call.Present _ _ _ => true
  | Call.Signal _ _ _ => true
  | Call.CommandAllocatorReset _ _ _ => true
  | _ => false

/-- At most one frame in flight, read off a logged call: an allocator reset
happens with no submitted command list unretired, and a submission leaves at
most one command list unretired. -/
def Call.OneInFlight : Call → Prop
  | Call.CommandAllocatorReset _ _ pendingLists => pendingLists = 0
  | Call.ExecuteCommandLists _ pendingLists => pendingLists ≤ 1
  | _ => True

/-- The fence value that a logged `Signal` call asks the queue to signal. -/
def Call.signalValue : Call → Option Nat
  | Call.Signal _ value _ => some value
  | _ => none

/-- The call creates a descriptor heap, a view, a resource or the fence, copies
into mapped memory, or signals the fence. -/
def Call.isSetup : Call → Bool
  | Call.CreateDescriptorHeap _ _ _ _ _ => true
  | Call.CreateRenderTargetView _ _ => true
  | Call.CreateShaderResourceView _ _ => true
  | Call.CreateConstantBufferView _ _ _ => true
  | Call.CreateCommittedResource _ _ _ _ _ => true
  | Call.CreateFence _ _ _ => true
  | Call.memcpy _ _ => true
  | Call.Signal _ _ _ => true
  | _ => false

/-- The call creates a descriptor heap or a view in a descriptor heap. -/
def Call.isDescriptorCall : Call → Bool
  | Call.CreateDescriptorHeap _ _ _ _ _ => true
  | Call.CreateRenderTargetView _ _ => true
  | Call.CreateShaderResourceView _ _ => true
  | Call.CreateConstantBufferView _ _ _ => true
  | _ => false

/-- The descriptor that a view-creating call writes. -/
def Call.destDescriptor : Call → Option Nat
  | Call.CreateRenderTargetView _ destDescriptor => some destDescriptor
  | Call.CreateShaderResourceView _ destDescriptor => some destDescriptor
  | Call.CreateConstantBufferView _ _ destDescriptor => some destDescriptor
  | _ => none

/-- The root parameter index and the descriptor that a command binds to it. -/
def Command.rootDescriptorTable : Command → Option (Nat × Nat)
  | Command.SetGraphicsRootDescriptorTable rootParameterIndex baseDescriptor =>
    some (rootParameterIndex, baseDescriptor)
  | _ => none

/-- The initial value that a logged `CreateFence` call asks for. -/
def Call.fenceInitialValue : Call → Option Nat
  | Call.CreateFence initialValue _ _ => some initialValue
  | _ => none

/-- The batch of command lists that a logged `ExecuteCommandLists` call submits. -/
def Call.executedLists : Call → Option (List Handle)
  | Call.ExecuteCommandLists lists _ => some lists
  | _ => none

/-- The viewports that a command sets. -/
def Command.viewports : Command → Option (List D3D12_VIEWPORT)
  | Command.RSSetViewports viewports => some viewports
  | _ => none

/-! ## The contract of adapter selection, in its own words -/

/-- The enumeration by GPU preference that the call asks for. -/
def Factory6.byGpuPreference (factory6 : Factory6) (requestHighPerformanceAdapter : Bool) :
    List Adapter :=
  if requestHighPerformanceAdapter = true then factory6.highPerformance
  else factory6.unspecified

/-- The words of the contract: a candidate passes when it is not flagged
software and the dry-run device creation at the level succeeds. -/
def Spec.passes (level : D3D_FEATURE_LEVEL) (a : Adapter) : Prop :=
  a.Flags &&& DXGI_ADAPTER_FLAG_SOFTWARE = 0 ∧ SUCCEEDED (a.createDevice level) = true

instance (level : D3D_FEATURE_LEVEL) (a : Adapter) : Decidable (Spec.passes level a) := by
  unfold Spec.passes
  exact inferInstance

/-- The words of the contract: `a` is the first adapter of the enumeration `l`
that passes. -/
def Spec.IsFirstPassing (level : D3D_FEATURE_LEVEL) (l : List Adapter) (a : Adapter) : Prop :=
  ∃ before after, l = before ++ a :: after ∧ Spec.passes level a ∧
    ∀ b ∈ before, ¬ Spec.passes level b

/-! ## Resource states, in the words of the specification -/

/-- The command is a resource barrier. -/
def Command.isBarrier : Command → Bool
  | Command.ResourceBarrier _ _ _ => true
  | _ => false

/-- The command binds, clears or draws to a render target. -/
def Command.usesRenderTarget : Command → Bool
  | Command.OMSetRenderTargets _ => true
  | Command.ClearRenderTargetView _ _ => true
  | Command.ExecuteBundle _ => true
  | Command.DrawInstanced _ _ _ _ => true
  | _ => false

/-- What the invariant "a resource must be in the state its next operation
expects" speaks about while a command list executes: the state of every
resource, and the resource whose view is bound as the render target. -/
structure Spec.Tracked where
  states : Handle → D3D12_RESOURCE_STATES
  bound : Option Handle

/-- One command under the invariant, `none` when the command finds a resource
in a state it does not expect: a barrier expects its resource in `stateBefore`
and leaves it in `stateAfter`; a clear expects the resource of the view in the
render-target state; a draw (directly or from a bundle) expects a bound render
target in the render-target state. `viewOf` says which resource a render-target
view descriptor refers to. -/
def Spec.step (viewOf : Nat → Option Handle) (t : Spec.Tracked) :
    Command → Option Spec.Tracked
  | Command.ResourceBarrier resource stateBefore stateAfter =>
    if t.states resource = stateBefore then
      some { t with states := Function.update t.states resource stateAfter }
    else none
  | Command.OMSetRenderTargets descriptor =>
    match viewOf descriptor with
    | some resource => some { t with bound := some resource }
    | none => none
  | Command.ClearRenderTargetView view _ =>
    match viewOf view with
    | some resource =>
      if t.states resource = D3D12_RESOURCE_STATES.RENDER_TARGET then some t else none
    | none => none
  | Command.ExecuteBundle _ =>
    match t.bound with
    | some resource =>
      if t.states resource = D3D12_RESOURCE_STATES.RENDER_TARGET then some t else none
    | none => none
  | Command.DrawInstanced _ _ _ _ =>
    match t.bound with
    | some resource =>
      if t.states resource = D3D12_RESOURCE_STATES.RENDER_TARGET then some t else none
    | none => none
  | _ => some t

/-- A command list under the invariant. -/
def Spec.run (viewOf : Nat → Option Handle) : Spec.Tracked → List Command → Option Spec.Tracked
  | t, [] => some t
  | t, c :: rest =>
    match Spec.step viewOf t c with
    | some t' => Spec.run viewOf t' rest
    | none => none

/-! ## A concrete machine -/

/-- The object right after `new InterfaceDX12()`: value-initialised, with the
default member initialiser `m_use_warp_device = false`. -/
def InterfaceDX12.fresh : InterfaceDX12 :=
  { m_use_warp_device := false
    m_viewport := { TopLeftX := 0, TopLeftY := 0, Width := 0, Height := 0, MinDepth := 0,
                    MaxDepth := 0 }
    m_scissorRect := { left := 0, top := 0, right := 0, bottom := 0 }
    m_swapChain := 0
    m_device := 0
    m_renderTargets := fun _ => 0
    m_commandAllocator := 0
    m_bundleCommandAllocator := 0
    m_commandQueue := 0
    m_rootSignature := 0
    m_rtvHeap := 0
    m_srvHeap := 0
    m_pipelineState := 0
    m_commandList := 0
    m_bundleCommandList := 0
    m_rtvDescriptorSize := 0
    m_srvDescriptorSize := 0
    m_vertexBuffer := 0
    m_vertexBufferView := { BufferLocation := 0, SizeInBytes := 0, StrideInBytes := 0 }
    m_texture := 0
    m_constantBuffer := 0
    m_constantBufferData := SceneConstantBuffer.zero
    m_pCbvDataBegin := 0
    m_assetsPath := ""
    m_frameIndex := 0
    m_fenceEvent := 0
    m_fence := 0
    m_fenceValue := 0
    m_aspect_ratio := 0
    m_width := 0
    m_height := 0
    mp_window := 0 }

/-- A hardware adapter that supports feature level 12_0. -/
def Adapter.hardware : Adapter :=
  { id := 1, Flags := 0, createDevice_11_0 := 0, createDevice_12_0 := 0 }

/-- A software adapter (the Basic Render Driver): flagged
`DXGI_ADAPTER_FLAG_SOFTWARE`, and able to create a device. -/
def Adapter.software : Adapter :=
  { id := 2, Flags := 2, createDevice_11_0 := 0, createDevice_12_0 := 0 }

/-- A hardware adapter that supports feature level 11_0 and not 12_0
(`E_FAIL` at 12_0). -/
def Adapter.legacy : Adapter :=
  { id := 3, Flags := 0, createDevice_11_0 := 0, createDevice_12_0 := -2147467259 }

/-- A factory whose only adapter is the software adapter, in every enumeration. -/
def Factory.softwareOnly : Factory :=
  { factory6 := some { unspecified := [Adapter.software],
                       highPerformance := [Adapter.software] }
    adapters := [Adapter.software] }

/-- A factory with a software adapter, a hardware adapter without feature level
12_0 and a hardware adapter with it, in this order by GPU preference. -/
def Factory.mixed : Factory :=
  { factory6 := some { unspecified := [Adapter.software, Adapter.legacy, Adapter.hardware],
                       highPerformance := [Adapter.hardware, Adapter.legacy, Adapter.software] }
    adapters := [Adapter.software, Adapter.legacy, Adapter.hardware] }

/-- A machine with a 256x256 window, one hardware adapter and a two-buffer flip
swap chain, on which every call succeeds and the GPU retires work only when
the thread waits for it. -/
def World.sample : World :=
  { windowWidth := 256
    windowHeight := 256
    factory :=
      { factory6 := some { unspecified := [Adapter.hardware],
                           highPerformance := [Adapter.hardware] }
        adapters := [Adapter.hardware] }
    hresults := []
    gpuProgress := []
    nextHandle := 1
    incrementSize := fun _ => 32
    cpuStart := fun heap => 4096 * heap
    gpuStart := fun heap => 65536 * heap
    gpuVirtualAddress := fun resource => 1048576 * resource
    requiredIntermediateSize := 262144
    backBuffers := [101, 102]
    backBufferIndex := 0
    advance := fun i => (i + 1) % 2
    recorded := fun _ => []
    memory := fun _ => []
    gpu := { queue := [], fenceCompleted := 0, eventSignaled := false, eventWaitingFor := none }
    trace := [] }

/-- The fresh object on the sample machine. -/
def Sys.sample : Sys := { self := InterfaceDX12.fresh, world := World.sample }

/-- The fresh object on a machine like the sample machine whose only adapter is
the software adapter. -/
def Sys.softwareOnly : Sys :=
  { self := InterfaceDX12.fresh
    world := { World.sample with factory := Factory.softwareOnly } }

/-- The sample machine with the fence counter at 1 and nothing signalled yet, as
at the first `WaitForPreviousFrame`. -/
def Sys.beforeFirstWait : Sys :=
  { self := { InterfaceDX12.fresh with m_fenceValue := 1 }, world := World.sample }

/-- The failure code `DXGI_ERROR_DEVICE_REMOVED` (0x887A0005). -/
def DXGI_ERROR_DEVICE_REMOVED : HRESULT := -2005270523

/-- The sample machine on which the fourth coming call, the `Present` of a
`Render`, fails with `DXGI_ERROR_DEVICE_REMOVED`. -/
def Sys.presentFails : Sys :=
  { self := InterfaceDX12.fresh
    world := { World.sample with hresults := [0, 0, 0, DXGI_ERROR_DEVICE_REMOVED] } }

/-- The fresh object on a machine like the sample machine with a 512x256 window. -/
def Sys.wideWindow : Sys :=
  { self := InterfaceDX12.fresh
    world := { World.sample with windowWidth := 512 } }

/-! ## States of the fence event -/

/-- The event is not set and waits for nothing: its state when it was created
and after every completed wait. -/
def Gpu.Idle (g : Gpu) : Prop := g.eventSignaled = false ∧ g.eventWaitingFor = none

/-- The event has been registered for the fence value `v` and not waited for
yet: either it still waits for `v`, or it is set and the fence has reached `v`. -/
def Gpu.Armed (v : Nat) (g : Gpu) : Prop :=
  (g.eventSignaled = false ∧ g.eventWaitingFor = some v) ∨
  (g.eventSignaled = true ∧ g.eventWaitingFor = none ∧ v ≤ g.fenceCompleted)

/-- The queue ends with the signal of the fence value `target`, every signal
before it is for a smaller value, and the fence has not reached `target`. -/
def Gpu.Pending (target : Nat) (g : Gpu) : Prop :=
  g.fenceCompleted < target ∧
  ∃ earlier, g.queue = earlier ++ [QueueItem.signal target] ∧
    ∀ v, QueueItem.signal v ∈ earlier → v < target

/-- The GPU state once everything up to the signal of `target` is retired and
the wait, if any, is over. -/
def Gpu.done (target : Nat) : Gpu :=
  { queue := [], fenceCompleted := target, eventSignaled := false, eventWaitingFor := none }

/-- The state in which `WaitForPreviousFrame` is called: the fence event is idle
and neither the fence nor any signal in the queue has reached the counter. -/
def Gpu.Below (counter : Nat) (g : Gpu) : Prop :=
  g.Idle ∧ g.fenceCompleted < counter ∧ ∀ v, QueueItem.signal v ∈ g.queue → v < counter

/-- The CPU is one fence value ahead of a GPU that has nothing left to do: the
queue is empty, the fence has reached the last value signalled
(`m_fenceValue - 1`) and the fence event is idle. -/
def Sys.Synced (s : Sys) : Prop :=
  1 ≤ s.self.m_fenceValue ∧ s.world.gpu = Gpu.done (s.self.m_fenceValue - 1)

/-! ## Reasoning about calls -/

/-- The predicate `Q` holds of how the call `m` ends from `s` and of the state it
leaves. -/
def wp {α : Type} (m : DX α) (Q : Res α → Sys → Prop) (s : Sys) : Prop :=
  Q (m s).1 (m s).2

/-- The continuation of `wp` through a bind: go on when the first part
returned, and otherwise judge the exception or the blocked wait itself. -/
def wpNext {α β : Type} (f : α → DX β) (Q : Res β → Sys → Prop) : Res α → Sys → Prop
  | Res.ok a, t => wp (f a) Q t
  | Res.threw e, t => Q (Res.threw e) t
  | Res.blocked, t => Q Res.blocked t

/-! ## Theorems -/

/-! ### Rules for `wp` -/

theorem wp_bind {α β : Type} (m : DX α) (f : α → DX β) (Q : Res β → Sys → Prop) (s : Sys) :
    wp (m >>= f) Q s = wp m (wpNext f Q) s := by
  show Q (DX.bind m f s).1 (DX.bind m f s).2 = wpNext f Q (m s).1 (m s).2
  unfold DX.bind
  rcases h : m s with ⟨r, t⟩
  cases r <;> rfl

theorem wp_pure {α : Type} (a : α) (Q : Res α → Sys → Prop) (s : Sys) :
    wp (Pure.pure a : DX α) Q s = Q (Res.ok a) s := rfl

theorem wp_dxpure {α : Type} (a : α) (Q : Res α → Sys → Prop) (s : Sys) :
    wp (DX.pure a) Q s = Q (Res.ok a) s := rfl

theorem wp_throw {α : Type} (e : String) (Q : Res α → Sys → Prop) (s : Sys) :
    wp (DX.throw e : DX α) Q s = Q (Res.threw e) s := rfl

theorem wp_ite {α : Type} (c : Prop) [Decidable c] (a b : DX α) (Q : Res α → Sys → Prop)
    (s : Sys) : wp (if c then a else b) Q s = if c then wp a Q s else wp b Q s := by
  split <;> rfl

theorem wpNext_ok {α β : Type} (f : α → DX β) (Q : Res β → Sys → Prop) (a : α) (t : Sys) :
    wpNext f Q (Res.ok a) t = wp (f a) Q t := rfl

theorem wp_getSelf (Q : Res InterfaceDX12 → Sys → Prop) (s : Sys) :
    wp getSelf Q s = Q (Res.ok s.self) s := rfl

theorem wp_getWorld (Q : Res World → Sys → Prop) (s : Sys) :
    wp getWorld Q s = Q (Res.ok s.world) s := rfl

theorem wp_modifySelf (f : InterfaceDX12 → InterfaceDX12) (Q : Res Unit → Sys → Prop)
    (s : Sys) : wp (modifySelf f) Q s = Q (Res.ok ()) { s with self := f s.self } := rfl

theorem wp_ThrowIfFailed (value : HRESULT) (msg : String) (Q : Res Unit → Sys → Prop)
    (s : Sys) :
    wp (ThrowIfFailed value msg) Q s =
      ((value = 0 → Q (Res.ok ()) s) ∧
       (value ≠ 0 → Q (Res.threw (msg ++ " " ++ toString value)) s)) := by
  unfold ThrowIfFailed S_OK
  by_cases h : value = 0 <;> simp [h, wp, DX.pure, DX.throw]

theorem wp_memcpy (dest : Nat) (src : List ℚ) (size : Nat) (Q : Res Unit → Sys → Prop)
    (s : Sys) : wp (memcpy dest src size) Q s = Q (memcpy dest src size s).1
      (memcpy dest src size s).2 := rfl

/-! ### `wp` of the API calls -/

theorem wp_callHR (name : String) (Q : Res HRESULT → Sys → Prop) (s : Sys) :
    wp (callHR name) Q s = Q (Res.ok s.world.nextResult)
      { s with world := { s.world with
          hresults := s.world.hresults.tail
          trace := s.world.trace ++ [Call.hr name s.world.nextResult] } } := rfl

theorem wp_create (entry : HRESULT → Handle → Call) (Q : Res (HRESULT × Handle) → Sys → Prop)
    (s : Sys) :
    wp (create entry) Q s =
      Q (Res.ok (s.world.nextResult,
          if SUCCEEDED s.world.nextResult then s.world.nextHandle else 0))
        { s with world := { s.world with
            hresults := s.world.hresults.tail
            nextHandle := s.world.nextHandle + 1
            trace := s.world.trace ++ [entry s.world.nextResult
              (if SUCCEEDED s.world.nextResult then s.world.nextHandle else 0)] } } := rfl

theorem wp_D3D12CreateDevice (adapter : Option Adapter) (level : D3D_FEATURE_LEVEL)
    (Q : Res (HRESULT × Handle) → Sys → Prop) (s : Sys) :
    wp (D3D12CreateDevice adapter level) Q s =
      Q (Res.ok (s.world.factory.createDeviceResult adapter level,
          if SUCCEEDED (s.world.factory.createDeviceResult adapter level) then s.world.nextHandle
          else 0))
        { s with world := { s.world with
            nextHandle := s.world.nextHandle + 1
            trace := s.world.trace ++ [Call.D3D12CreateDevice adapter level
              (s.world.factory.createDeviceResult adapter level)] } } := rfl

theorem wp_CreateCommandQueue (Q : Res (HRESULT × Handle) → Sys → Prop) (s : Sys) :
    wp CreateCommandQueue Q s =
      Q (Res.ok (s.world.nextResult,
          if SUCCEEDED s.world.nextResult then s.world.nextHandle else 0))
        { s with world := { s.world with
            hresults := s.world.hresults.tail
            nextHandle := s.world.nextHandle + 1
            gpu := if SUCCEEDED s.world.nextResult then s.world.gpu.newQueue else s.world.gpu
            trace := s.world.trace ++ [Call.hr "CreateCommandQueue" s.world.nextResult] } } :=
  rfl

theorem wp_CreateCommandList (type : D3D12_COMMAND_LIST_TYPE) (allocator initialState : Handle)
    (Q : Res (HRESULT × Handle) → Sys → Prop) (s : Sys) :
    wp (CreateCommandList type allocator initialState) Q s =
      Q (Res.ok (s.world.nextResult,
          if SUCCEEDED s.world.nextResult then s.world.nextHandle else 0))
        { s with world := { s.world with
            hresults := s.world.hresults.tail
            nextHandle := s.world.nextHandle + 1
            recorded := if SUCCEEDED s.world.nextResult then
                clearAt s.world.recorded
                  (if SUCCEEDED s.world.nextResult then s.world.nextHandle else 0)
              else s.world.recorded
            trace := s.world.trace ++ [Call.CreateCommandList type allocator initialState
              s.world.nextResult
              (if SUCCEEDED s.world.nextResult then s.world.nextHandle else 0)] } } := rfl

theorem wp_CreateFence (initialValue : Nat) (Q : Res (HRESULT × Handle) → Sys → Prop)
    (s : Sys) :
    wp (CreateFence initialValue) Q s =
      Q (Res.ok (s.world.nextResult,
          if SUCCEEDED s.world.nextResult then s.world.nextHandle else 0))
        { s with world := { s.world with
            hresults := s.world.hresults.tail
            nextHandle := s.world.nextHandle + 1
            gpu := if SUCCEEDED s.world.nextResult then s.world.gpu.newFence initialValue
              else s.world.gpu
            trace := s.world.trace ++ [Call.CreateFence initialValue s.world.nextResult
              (if SUCCEEDED s.world.nextResult then s.world.nextHandle else 0)] } } := rfl

theorem wp_CreateEvent (Q : Res (Handle × HRESULT) → Sys → Prop) (s : Sys) :
    wp CreateEvent Q s =
      Q (Res.ok ((if s.world.nextResult = S_OK then s.world.nextHandle else 0),
          s.world.nextResult))
        { s with world := { s.world with
            hresults := s.world.hresults.tail
            nextHandle := s.world.nextHandle + 1
            gpu := if s.world.nextResult = S_OK then s.world.gpu.newEvent else s.world.gpu
            trace := s.world.trace ++ [Call.CreateEvent
              (if s.world.nextResult = S_OK then s.world.nextHandle else 0)] } } := rfl

theorem wp_GetBuffer (n : Nat) (Q : Res (HRESULT × Handle) → Sys → Prop) (s : Sys) :
    wp (GetBuffer n) Q s =
      Q (Res.ok (s.world.nextResult,
          if SUCCEEDED s.world.nextResult then s.world.backBuffers.getD n 0 else 0))
        { s with world := { s.world with
            hresults := s.world.hresults.tail
            trace := s.world.trace ++ [Call.hr "GetBuffer" s.world.nextResult] } } := rfl

theorem wp_Map (resource : Handle) (Q : Res (HRESULT × Nat) → Sys → Prop) (s : Sys) :
    wp (Map resource) Q s =
      Q (Res.ok (s.world.nextResult, if SUCCEEDED s.world.nextResult then resource else 0))
        { s with world := { s.world with
            hresults := s.world.hresults.tail
            trace := s.world.trace ++ [Call.hr "Map" s.world.nextResult] } } := rfl

theorem wp_memcpy' (dest : Nat) (src : List ℚ) (size : Nat) (Q : Res Unit → Sys → Prop)
    (s : Sys) :
    wp (memcpy dest src size) Q s =
      Q (Res.ok ())
        { s with world := { s.world with
            memory := writeAt s.world.memory dest (src.take (size / sizeof_float))
            trace := s.world.trace ++ [Call.memcpy dest size] } } := rfl

theorem wp_logCall (c : Call) (Q : Res Unit → Sys → Prop) (s : Sys) :
    wp (logCall c) Q s =
      Q (Res.ok ()) { s with world := { s.world with trace := s.world.trace ++ [c] } } := rfl

theorem wp_record (list : Handle) (c : Command) (Q : Res Unit → Sys → Prop) (s : Sys) :
    wp (record list c) Q s =
      Q (Res.ok ())
        { s with world := { s.world with
            recorded := appendAt s.world.recorded list c } } :=
  rfl

theorem wp_CommandAllocatorReset (allocator : Handle) (Q : Res HRESULT → Sys → Prop)
    (s : Sys) :
    wp (CommandAllocatorReset allocator) Q s =
      Q (Res.ok s.world.nextResult)
        { s with world := { s.world with
            hresults := s.world.hresults.tail
            trace := s.world.trace ++
              [Call.CommandAllocatorReset allocator s.world.nextResult
                s.world.gpu.pendingLists] } } :=
  rfl

theorem wp_CommandListReset (list allocator initialState : Handle)
    (Q : Res HRESULT → Sys → Prop) (s : Sys) :
    wp (CommandListReset list allocator initialState) Q s =
      Q (Res.ok s.world.nextResult)
        { s with world := { s.world with
            hresults := s.world.hresults.tail
            recorded := if SUCCEEDED s.world.nextResult then clearAt s.world.recorded list
              else s.world.recorded
            trace := s.world.trace ++
              [Call.CommandListReset list allocator initialState s.world.nextResult] } } := rfl

theorem wp_CommandListClose (list : Handle) (Q : Res HRESULT → Sys → Prop) (s : Sys) :
    wp (CommandListClose list) Q s =
      Q (Res.ok s.world.nextResult)
        { s with world := { s.world with
            hresults := s.world.hresults.tail
            trace := s.world.trace ++ [Call.CommandListClose list s.world.nextResult] } } := rfl

theorem Gpu.pendingLists_push (g : Gpu) (item : QueueItem) :
    (g.push item).pendingLists = g.pendingLists + item.numLists := by
  simp [Gpu.pendingLists, Gpu.push]

theorem wp_ExecuteCommandLists (lists : List Handle) (Q : Res Unit → Sys → Prop) (s : Sys) :
    wp (ExecuteCommandLists lists) Q s =
      Q (Res.ok ())
        { s with world := { s.world with
            gpu := s.world.gpu.push (QueueItem.commandLists (lists.map s.world.recorded))
            trace := s.world.trace ++ [Call.ExecuteCommandLists lists
              (s.world.gpu.pendingLists + lists.length)] } } := by
  unfold wp ExecuteCommandLists
  simp only [Gpu.pendingLists_push, QueueItem.numLists, List.length_map]

theorem wp_Present (syncInterval flags : Nat) (Q : Res HRESULT → Sys → Prop) (s : Sys) :
    wp (Present syncInterval flags) Q s =
      Q (Res.ok s.world.nextResult)
        { s with world := { s.world with
            hresults := s.world.hresults.tail
            backBufferIndex := if SUCCEEDED s.world.nextResult then
                s.world.advance s.world.backBufferIndex
              else s.world.backBufferIndex
            trace := s.world.trace ++ [Call.Present syncInterval flags s.world.nextResult] } } :=
  rfl

theorem wp_GetCurrentBackBufferIndex (Q : Res Nat → Sys → Prop) (s : Sys) :
    wp GetCurrentBackBufferIndex Q s =
      Q (Res.ok s.world.backBufferIndex)
        { s with world := { s.world with
            trace := s.world.trace ++
              [Call.GetCurrentBackBufferIndex s.world.backBufferIndex] } } := rfl

theorem wp_Signal (fence : Handle) (value : Nat) (Q : Res HRESULT → Sys → Prop) (s : Sys) :
    wp (Signal fence value) Q s =
      Q (Res.ok s.world.nextResult)
        { s with world := { s.world with
            hresults := s.world.hresults.tail
            gpu := if SUCCEEDED s.world.nextResult then
                s.world.gpu.push (QueueItem.signal value)
              else s.world.gpu
            trace := s.world.trace ++ [Call.Signal fence value s.world.nextResult] } } := rfl

theorem wp_GetCompletedValue (fence : Handle) (Q : Res Nat → Sys → Prop) (s : Sys) :
    wp (GetCompletedValue fence) Q s =
      Q (Res.ok (Gpu.run (s.world.gpuProgress.headD 0) s.world.gpu).fenceCompleted)
        { s with world := { s.world with
            gpuProgress := s.world.gpuProgress.tail
            gpu := Gpu.run (s.world.gpuProgress.headD 0) s.world.gpu
            trace := s.world.trace ++ [Call.GetCompletedValue fence
              (Gpu.run (s.world.gpuProgress.headD 0) s.world.gpu).fenceCompleted] } } := rfl

theorem wp_SetEventOnCompletion (fence : Handle) (value : Nat) (event : Handle)
    (Q : Res HRESULT → Sys → Prop) (s : Sys) :
    wp (SetEventOnCompletion fence value event) Q s =
      Q (Res.ok s.world.nextResult)
        { s with world := { s.world with
            hresults := s.world.hresults.tail
            gpu := if SUCCEEDED s.world.nextResult then
                s.world.gpu.setEventOnCompletion value
              else s.world.gpu
            trace := s.world.trace ++
              [Call.SetEventOnCompletion fence value event s.world.nextResult] } } := rfl

theorem wp_GetHardwareAdapter (pFactory : Factory) (hp : Bool)
    (Q : Res (Option Adapter) → Sys → Prop) (s : Sys) :
    wp (GetHardwareAdapter pFactory hp) Q s =
      Q (Res.ok (GetHardwareAdapter.result pFactory hp)) s := rfl

theorem wp_WaitForSingleObject (event : Handle) (Q : Res Unit → Sys → Prop) (s : Sys) :
    wp (WaitForSingleObject event) Q s =
      match s.world.gpu.waitForEvent with
      | some g => Q (Res.ok ())
          { s with world := { s.world with
              gpu := g
              trace := s.world.trace ++ [Call.WaitForSingleObject event] } }
      | none => Q Res.blocked
          { s with world := { s.world with
              trace := s.world.trace ++ [Call.WaitForSingleObject event] } } := by
  unfold wp WaitForSingleObject
  split <;> rfl

theorem wp_ThrowIfFailed1 (value : HRESULT) (Q : Res Unit → Sys → Prop) (s : Sys) :
    wp (ThrowIfFailed1 value) Q s =
      ((value = 0 → Q (Res.ok ()) s) ∧
       (value ≠ 0 → Q (Res.threw ("Unspecified failure" ++ " " ++ toString value)) s)) :=
  wp_ThrowIfFailed value "Unspecified failure" Q s

theorem SUCCEEDED_zero : SUCCEEDED 0 = true := rfl

theorem S_OK_eq : S_OK = 0 := rfl

theorem createRenderTargetViews_zero (n h : Nat) :
    LoadPipeline.createRenderTargetViews 0 n h = DX.pure () := rfl

theorem createRenderTargetViews_succ (k n rtvHandle : Nat) :
    LoadPipeline.createRenderTargetViews (k + 1) n rtvHandle = (do
    let (hr, buffer) ← GetBuffer n
    modifySelf fun o => { o with m_renderTargets := Function.update o.m_renderTargets n buffer }
    ThrowIfFailed hr "Getting swap chain buffer"
    logCall (Call.CreateRenderTargetView buffer rtvHandle)
    let o ← getSelf
    LoadPipeline.createRenderTargetViews k (n + 1) (rtvHandle + 1 * o.m_rtvDescriptorSize)) := rfl

theorem appendAt_eq_update (recorded : Handle → List Command) (list : Handle) (c : Command) :
    appendAt recorded list c = Function.update recorded list (recorded list ++ [c]) := by
  funext h
  unfold appendAt Function.update
  by_cases hh : h = list
  · subst hh; simp
  · simp [hh]

theorem clearAt_eq_update (recorded : Handle → List Command) (list : Handle) :
    clearAt recorded list = Function.update recorded list [] := by
  funext h
  unfold clearAt Function.update
  by_cases hh : h = list
  · subst hh; simp
  · simp [hh]

theorem Call.not_isExecute_of_not_isQueueWork (c : Call) (h : c.isQueueWork = false) :
    c.isExecute = false := by
  cases c <;> first | rfl | exact Bool.noConfusion h

theorem Call.not_isPresent_of_not_isQueueWork (c : Call) (h : c.isQueueWork = false) :
    c.isPresent = false := by
  cases c <;> first | rfl | exact Bool.noConfusion h

theorem Call.oneInFlight_of_not_isQueueWork (c : Call) (h : c.isQueueWork = false) :
    c.OneInFlight := by
  cases c <;> trivial

theorem WaitForPreviousFrame.calls_countP_isExecute (o : InterfaceDX12) (c i : Nat) :
    (WaitForPreviousFrame.calls o c i).countP Call.isExecute = 0 := by
  unfold WaitForPreviousFrame.calls
  split <;> rfl

theorem WaitForPreviousFrame.calls_countP_isPresent (o : InterfaceDX12) (c i : Nat) :
    (WaitForPreviousFrame.calls o c i).countP Call.isPresent = 0 := by
  unfold WaitForPreviousFrame.calls
  split <;> rfl

theorem WaitForPreviousFrame.calls_oneInFlight (o : InterfaceDX12) (c i : Nat) :
    ∀ e ∈ WaitForPreviousFrame.calls o c i, e.OneInFlight := by
  intro e he
  unfold WaitForPreviousFrame.calls at he
  split at he
  · simp only [List.cons_append, List.nil_append, List.mem_cons, List.mem_singleton,
      List.not_mem_nil, or_false, List.append_nil] at he
    rcases he with h | h | h | h | h <;> subst h <;> trivial
  · simp only [List.cons_append, List.nil_append, List.mem_cons, List.mem_singleton,
      List.not_mem_nil, or_false, List.append_nil] at he
    rcases he with h | h | h <;> subst h <;> trivial

theorem wp_mono {α : Type} (m : DX α) (P Q : Res α → Sys → Prop) (s : Sys)
    (h : wp m P s) (hPQ : ∀ r t, P r t → Q r t) : wp m Q s := hPQ _ _ h

/-! ### binary32 rounding -/

theorem Float32.floor_le_roundTiesToEven (r : ℚ) : ⌊r⌋ ≤ Float32.roundTiesToEven r := by
  unfold Float32.roundTiesToEven
  split
  · exact le_refl _
  · split
    · omega
    · split
      · exact le_refl _
      · omega

theorem Float32.roundTiesToEven_eq (r : ℚ) (n : ℤ) (h : |r - n| < 1 / 2) :
    Float32.roundTiesToEven r = n := by
  rw [abs_lt] at h
  obtain ⟨h1, h2⟩ := h
  unfold Float32.roundTiesToEven
  by_cases hn : (n : ℚ) ≤ r
  · have hf : ⌊r⌋ = n := Int.floor_eq_iff.mpr ⟨hn, by linarith⟩
    rw [hf, if_pos (by linarith)]
  · have hn' : r < n := lt_of_not_le hn
    have hf : ⌊r⌋ = n - 1 := Int.floor_eq_iff.mpr ⟨by push_cast; linarith, by push_cast; linarith⟩
    rw [hf]
    have hlt : ¬ (r - ((n - 1 : ℤ) : ℚ) < 1 / 2) := by push_cast; linarith
    rw [if_neg hlt, if_pos (by push_cast; linarith)]
    omega

theorem Float32.ulpExponent_eq (q : ℚ) (k : ℤ) (hk : -126 ≤ k) (h1 : (2 : ℚ) ^ k ≤ |q|)
    (h2 : |q| < (2 : ℚ) ^ (k + 1)) : Float32.ulpExponent q = k - 23 := by
  have hpos : 0 < |q| := lt_of_lt_of_le (zpow_pos (by norm_num) k) h1
  have hlog : Int.log 2 |q| = k := by
    apply le_antisymm
    · have := (Int.lt_zpow_iff_log_lt (b := 2) (by norm_num) hpos).mp (by exact_mod_cast h2)
      omega
    · exact (Int.zpow_le_iff_le_log (b := 2) (by norm_num) hpos).mp (by exact_mod_cast h1)
  unfold Float32.ulpExponent
  rw [hlog, max_eq_left hk]

theorem Float32.round_eq (q : ℚ) (k n : ℤ) (hk : -126 ≤ k) (h1 : (2 : ℚ) ^ k ≤ |q|)
    (h2 : |q| < (2 : ℚ) ^ (k + 1)) (hn : |q / 2 ^ (k - 23) - n| < 1 / 2) :
    Float32.round q = n * 2 ^ (k - 23) := by
  unfold Float32.round
  rw [Float32.ulpExponent_eq q k hk h1 h2, Float32.roundTiesToEven_eq _ n hn]

theorem Float32.round_eq_of_pos (q : ℚ) (k n : ℤ) (hk : -126 ≤ k) (h1 : (2 : ℚ) ^ k ≤ q)
    (h2 : q < (2 : ℚ) ^ (k + 1)) (hn : |q / 2 ^ (k - 23) - n| < 1 / 2) :
    Float32.round q = n * 2 ^ (k - 23) := by
  have hq : 0 < q := lt_of_lt_of_le (zpow_pos (by norm_num) k) h1
  exact Float32.round_eq q k n hk (by rw [abs_of_pos hq]; exact h1)
    (by rw [abs_of_pos hq]; exact h2) hn

theorem Float32.round_step : Float32.round 0.005 = 5368709 / 1073741824 := by
  rw [Float32.round_eq_of_pos 0.005 (-8) 10737418 (by norm_num) (by norm_num) (by norm_num)
    (by norm_num [abs_lt])]
  norm_num

theorem Float32.round_bound : Float32.round 1.25 = 1.25 := by
  rw [Float32.round_eq_of_pos 1.25 0 10485760 (by norm_num) (by norm_num) (by norm_num)
    (by norm_num [abs_lt])]
  norm_num

theorem Float32.round_zero_add_step :
    Float32.round (0 + 5368709 / 1073741824) = 5368709 / 1073741824 := by
  rw [Float32.round_eq_of_pos _ (-8) 10737418 (by norm_num) (by norm_num) (by norm_num)
    (by norm_num [abs_lt])]
  norm_num

theorem Float32.round_ties_to_bound :
    Float32.round (10443817 / 8388608 + 5368709 / 1073741824) = 1.25 := by
  rw [Float32.round_eq_of_pos _ 0 10485760 (by norm_num) (by norm_num) (by norm_num)
    (by norm_num [abs_lt])]
  norm_num

theorem Float32.round_nonneg (q : ℚ) (h : 0 ≤ q) : 0 ≤ Float32.round q := by
  unfold Float32.round
  have hp : (0 : ℚ) < 2 ^ Float32.ulpExponent q := zpow_pos (by norm_num) _
  have hf : (0 : ℤ) ≤ ⌊q / 2 ^ Float32.ulpExponent q⌋ :=
    Int.floor_nonneg.mpr (div_nonneg h (le_of_lt hp))
  have hr := Float32.floor_le_roundTiesToEven (q / 2 ^ Float32.ulpExponent q)
  have : (0 : ℚ) ≤ (Float32.roundTiesToEven (q / 2 ^ Float32.ulpExponent q) : ℚ) := by
    exact_mod_cast le_trans hf hr
  exact mul_nonneg this (le_of_lt hp)

/-- Rounding does not go below a binary32 value of the same or a coarser grid:
`k * 2 ^ e` with `e` at least the exponent of the unit in the last place at `q`. -/
theorem Float32.le_round_of_grid (q : ℚ) (k e : ℤ) (he : Float32.ulpExponent q ≤ e)
    (h : (k : ℚ) * 2 ^ e ≤ q) : (k : ℚ) * 2 ^ e ≤ Float32.round q := by
  unfold Float32.round
  have hp : (0 : ℚ) < 2 ^ Float32.ulpExponent q := zpow_pos (by norm_num) _
  obtain ⟨d, hd⟩ : ∃ d : ℕ, e = Float32.ulpExponent q + d :=
    ⟨(e - Float32.ulpExponent q).toNat, by omega⟩
  have hsplit : (2 : ℚ) ^ e = 2 ^ d * 2 ^ Float32.ulpExponent q := by
    rw [hd, zpow_add₀ (by norm_num), zpow_natCast, mul_comm]
  have hgrid : (k : ℚ) * 2 ^ e = ((k * 2 ^ d : ℤ) : ℚ) * 2 ^ Float32.ulpExponent q := by
    rw [hsplit]
    push_cast
    ring
  rw [hgrid] at h ⊢
  have hle : ((k * 2 ^ d : ℤ) : ℚ) ≤ q / 2 ^ Float32.ulpExponent q := by
    rw [le_div_iff₀ hp]
    exact h
  have hfloor : k * 2 ^ d ≤ ⌊q / 2 ^ Float32.ulpExponent q⌋ := Int.le_floor.mpr hle
  have hr := Float32.floor_le_roundTiesToEven (q / 2 ^ Float32.ulpExponent q)
  have : ((k * 2 ^ d : ℤ) : ℚ) ≤ (Float32.roundTiesToEven (q / 2 ^ Float32.ulpExponent q) : ℚ) := by
    exact_mod_cast le_trans hfloor hr
  exact mul_le_mul_of_nonneg_right this (le_of_lt hp)

theorem Float32.ulpExponent_le_of_lt (q : ℚ) (k : ℤ) (hk : -126 ≤ k) (hq : q ≠ 0)
    (h : |q| < (2 : ℚ) ^ (k + 1)) : Float32.ulpExponent q ≤ k - 23 := by
  unfold Float32.ulpExponent
  have hpos : 0 < |q| := abs_pos.mpr hq
  have := (Int.lt_zpow_iff_log_lt (b := 2) (by norm_num) hpos).mp (by exact_mod_cast h)
  have hm : max (Int.log 2 |q|) (-126) ≤ k := max_le (by omega) hk
  omega

/-- Rounding a value that is at least -1.25 gives at least -1.25. -/
theorem Float32.neg_bound_le_round (q : ℚ) (h : -1.25 ≤ q) : -1.25 ≤ Float32.round q := by
  by_cases h0 : 0 ≤ q
  · exact le_trans (by norm_num) (Float32.round_nonneg q h0)
  · have hq : q < 0 := lt_of_not_le h0
    have habs : |q| < (2 : ℚ) ^ ((0 : ℤ) + 1) := by
      rw [abs_of_neg hq]
      norm_num
      linarith
    have he : Float32.ulpExponent q ≤ -2 := by
      have := Float32.ulpExponent_le_of_lt q 0 (by norm_num) (ne_of_lt hq) habs
      omega
    have hg := Float32.le_round_of_grid q (-5) (-2) he (by norm_num; linarith)
    have e : ((-5 : ℤ) : ℚ) * 2 ^ (-2 : ℤ) = -1.25 := by norm_num
    rw [e] at hg
    exact hg

/-! ### `Update` -/

theorem Update_returns (s : Sys) : (Update s).1 = Res.ok () := by
  show wp Update (fun r _ => r = Res.ok ()) s
  unfold Update
  simp only [wp_bind, wpNext_ok, wp_modifySelf, wp_getSelf, wp_ite, wp_dxpure, wp_memcpy]
  split <;> rfl

theorem Update_offset_x (s : Sys) :
    (Update s).2.self.m_constantBufferData.offset.x =
      if Float32.round (s.self.m_constantBufferData.offset.x + 5368709 / 1073741824) > 1.25
      then -1.25
      else Float32.round (s.self.m_constantBufferData.offset.x + 5368709 / 1073741824) := by
  show wp Update (fun _ t => t.self.m_constantBufferData.offset.x = _) s
  unfold Update
  simp only [wp_bind, wpNext_ok, wp_modifySelf, wp_getSelf, wp_ite, wp_dxpure, wp_memcpy,
    Float32.round_step, Float32.round_bound]
  split <;> rfl


/-! ### The checkerboard generator -/

theorem GenerateTextureData.body_length (rp cp ch : Nat) (d : List Nat) (n : Nat) :
    (GenerateTextureData.body rp cp ch d n).length = d.length := by
  unfold GenerateTextureData.body
  simp only []
  split <;> simp

theorem GenerateTextureData.loop_length (ts rp cp ch : Nat) (n : Nat) (d : List Nat) :
    (GenerateTextureData.loop ts rp cp ch n d).length = d.length := by
  induction n, d using GenerateTextureData.loop.induct ts rp cp ch with
  | case1 n d h ih =>
    rw [GenerateTextureData.loop, if_pos h, ih, GenerateTextureData.body_length]
  | case2 n d h =>
    rw [GenerateTextureData.loop, if_neg h]

theorem GenerateTextureData.body_get_inside (rp cp ch : Nat) (d : List Nat) (n c : Nat)
    (hc : c < 4) (hlen : n + c < d.length) :
    (GenerateTextureData.body rp cp ch d n)[n + c]?
      = some (GenerateTextureData.byteAt rp cp ch n c) := by
  unfold GenerateTextureData.body GenerateTextureData.byteAt
  simp only []
  have h4 : c = 0 ∨ c = 1 ∨ c = 2 ∨ c = 3 := by omega
  split <;> rcases h4 with h | h | h | h <;> subst h <;>
    simp [List.getElem?_set] <;> omega

theorem GenerateTextureData.body_get_outside (rp cp ch : Nat) (d : List Nat) (n k : Nat)
    (hk : k < n ∨ n + 4 ≤ k) :
    (GenerateTextureData.body rp cp ch d n)[k]? = d[k]? := by
  unfold GenerateTextureData.body
  simp only []
  split <;>
    (repeat rw [List.getElem?_set_ne (by omega)])

theorem GenerateTextureData.loop_get_below (ts rp cp ch : Nat) (n : Nat) (d : List Nat)
    (k : Nat) (hk : k < n) :
    (GenerateTextureData.loop ts rp cp ch n d)[k]? = d[k]? := by
  induction n, d using GenerateTextureData.loop.induct ts rp cp ch with
  | case1 n d h ih =>
    rw [GenerateTextureData.loop, if_pos h, ih (by simp only [TexturePixelSize]; omega),
      GenerateTextureData.body_get_outside _ _ _ _ _ _ (Or.inl hk)]
  | case2 n d h =>
    rw [GenerateTextureData.loop, if_neg h]

theorem GenerateTextureData.loop_get_pixel (ts rp cp ch : Nat) (n : Nat) (d : List Nat)
    (q c : Nat) (hc : c < 4) (hq : n + 4 * q < ts) (hlen : n + 4 * q + c < d.length) :
    (GenerateTextureData.loop ts rp cp ch n d)[n + 4 * q + c]?
      = some (GenerateTextureData.byteAt rp cp ch (n + 4 * q) c) := by
  induction n, d using GenerateTextureData.loop.induct ts rp cp ch generalizing q with
  | case1 n d h ih =>
    rw [GenerateTextureData.loop, if_pos h]
    rcases Nat.eq_zero_or_pos q with hq0 | hqpos
    · subst hq0
      rw [GenerateTextureData.loop_get_below _ _ _ _ _ _ _
        (by simp only [TexturePixelSize]; omega)]
      simpa using GenerateTextureData.body_get_inside rp cp ch d n c hc (by simpa using hlen)
    · obtain ⟨q', rfl⟩ : ∃ q', q = q' + 1 := ⟨q - 1, by omega⟩
      have e : n + 4 * (q' + 1) = n + TexturePixelSize + 4 * q' := by
        simp only [TexturePixelSize]; omega
      rw [e]
      apply ih
      · rw [← e]; exact hq
      · rw [← e, GenerateTextureData.body_length]; exact hlen
  | case2 n d h =>
    exfalso; omega

theorem GenerateTextureData.length_eq : GenerateTextureData.length = 262144 := by
  unfold GenerateTextureData
  simp only [GenerateTextureData.loop_length, List.length_replicate, TextureWidth,
    TexturePixelSize, TextureHeight]

theorem GenerateTextureData.get_byte (px py c : Nat) (hx : px < 256) (hy : py < 256)
    (hc : c < 4) :
    GenerateTextureData[(py * 256 + px) * 4 + c]?
      = some (if (px / 32) % 2 = (py / 32) % 2 then (if c = 3 then 0xff else 0x00)
              else 0xff) := by
  have key := GenerateTextureData.loop_get_pixel (1024 * 256) 1024 128 32 0
    (List.replicate (1024 * 256) 0) (py * 256 + px) c hc (by omega)
    (by rw [List.length_replicate]; omega)
  have e : (0 + 4 * (py * 256 + px)) = (py * 256 + px) * 4 := by omega
  rw [e] at key
  have hi : ((py * 256 + px) * 4) % 1024 / 128 % 2 = px / 32 % 2 := by omega
  have hj : ((py * 256 + px) * 4) / 1024 / 32 % 2 = py / 32 % 2 := by omega
  unfold GenerateTextureData
  simp only [TextureWidth, TexturePixelSize, TextureHeight]
  have s1 : (256 * 4) >>> 3 = 128 := by decide
  have s2 : 256 >>> 3 = 32 := by decide
  have s3 : 256 * 4 = 1024 := by decide
  rw [s1, s2, s3, key]
  unfold GenerateTextureData.byteAt
  rw [hi, hj]

/-- C1: `GenerateTextureData` returns exactly 256*256*4 = 262144 bytes, which is
the `SlicePitch` (`RowPitch * TextureHeight`) declared for the upload, and for
every pixel `(px, py)` of the 256x256 texture the four bytes at offset
`(py*256 + px)*4` are `00 00 00 ff` when `(px/32) % 2 = (py/32) % 2` and
`ff ff ff ff` otherwise: an 8x8 checkerboard of 32x32-pixel cells with
cell (0,0) black and alpha always `ff`. -/
theorem C1_GenerateTextureData_checkerboard (px py : Nat) (hx : px < 256) (hy : py < 256) :
    GenerateTextureData.length = 262144 ∧
    GenerateTextureData.length = LoadAssets.textureSlicePitch ∧
    (GenerateTextureData.drop ((py * 256 + px) * 4)).take 4
      = (if (px / 32) % 2 = (py / 32) % 2 then [0x00, 0x00, 0x00, 0xff]
         else [0xff, 0xff, 0xff, 0xff]) := by
  refine ⟨GenerateTextureData.length_eq, ?_, ?_⟩
  · rw [GenerateTextureData.length_eq]; decide
  · apply List.ext_getElem?
    intro c
    rw [List.getElem?_take, List.getElem?_drop]
    by_cases hc : c < 4
    · rw [if_pos hc, GenerateTextureData.get_byte px py c hx hy hc]
      have h4 : c = 0 ∨ c = 1 ∨ c = 2 ∨ c = 3 := by omega
      split <;> rcases h4 with h | h | h | h <;> subst h <;> simp
    · rw [if_neg hc]
      split <;> simp <;> omega

/-- C1 at the pixel (0, 0): the first four bytes are black with full alpha. -/
theorem C1_GenerateTextureData_checkerboard_witness :
    GenerateTextureData.length = 262144 ∧
    GenerateTextureData.length = LoadAssets.textureSlicePitch ∧
    (GenerateTextureData.drop ((0 * 256 + 0) * 4)).take 4
      = (if (0 / 32) % 2 = (0 / 32) % 2 then [0x00, 0x00, 0x00, 0xff]
         else [0xff, 0xff, 0xff, 0xff]) :=
  C1_GenerateTextureData_checkerboard 0 0 (by decide) (by decide)

/-! ### The constant buffer data through `Init` -/

theorem WaitForPreviousFrame_constantBufferData (s : Sys) :
    (WaitForPreviousFrame s).2.self.m_constantBufferData = s.self.m_constantBufferData := by
  show wp WaitForPreviousFrame (fun _ t => t.self.m_constantBufferData = _) s
  unfold WaitForPreviousFrame
  simp only [wp_bind, wpNext_ok, wp_modifySelf, wp_getSelf, wp_getWorld, wp_ite, wp_dxpure,
    wp_ThrowIfFailed1, wp_ThrowIfFailed, wpNext, wp_callHR, wp_create, wp_D3D12CreateDevice,
    wp_CreateCommandQueue, wp_CreateCommandList, wp_CreateFence, wp_CreateEvent, wp_GetBuffer,
    wp_Map, wp_memcpy', wp_logCall, wp_record, wp_CommandAllocatorReset, wp_CommandListReset,
    wp_CommandListClose, wp_ExecuteCommandLists, wp_Present, wp_GetCurrentBackBufferIndex,
    wp_Signal, wp_GetCompletedValue, wp_SetEventOnCompletion, wp_WaitForSingleObject,
    wp_GetHardwareAdapter, World.nextResult, S_OK_eq, implies_true, and_self, ite_self]
  repeat' first | trivial | intro _ | constructor | split

theorem LoadPipeline_constantBufferData (s : Sys) :
    (LoadPipeline s).2.self.m_constantBufferData = s.self.m_constantBufferData := by
  show wp LoadPipeline (fun _ t => t.self.m_constantBufferData = _) s
  unfold LoadPipeline
  simp only [wp_bind, wpNext_ok, wp_modifySelf, wp_getSelf, wp_getWorld, wp_ite, wp_dxpure,
    wp_ThrowIfFailed1, wp_ThrowIfFailed, wpNext, wp_callHR, wp_create, wp_D3D12CreateDevice,
    wp_CreateCommandQueue, wp_CreateCommandList, wp_CreateFence, wp_CreateEvent, wp_GetBuffer,
    wp_Map, wp_memcpy', wp_logCall, wp_record, wp_CommandAllocatorReset, wp_CommandListReset,
    wp_CommandListClose, wp_ExecuteCommandLists, wp_Present, wp_GetCurrentBackBufferIndex,
    wp_Signal, wp_GetCompletedValue, wp_SetEventOnCompletion, wp_WaitForSingleObject,
    wp_GetHardwareAdapter, World.nextResult, S_OK_eq, FRAME_COUNT, createRenderTargetViews_zero,
    createRenderTargetViews_succ, implies_true, and_self, ite_self]

theorem LoadAssets_constantBufferData (s : Sys) :
    (LoadAssets s).2.self.m_constantBufferData = s.self.m_constantBufferData := by
  show wp LoadAssets (fun _ t => t.self.m_constantBufferData = _) s
  unfold LoadAssets
  simp only [wp_bind, wpNext_ok, wp_modifySelf, wp_getSelf, wp_getWorld, wp_ite, wp_dxpure,
    wp_ThrowIfFailed1, wp_ThrowIfFailed, wpNext, wp_callHR, wp_create, wp_D3D12CreateDevice,
    wp_CreateCommandQueue, wp_CreateCommandList, wp_CreateFence, wp_CreateEvent, wp_GetBuffer,
    wp_Map, wp_memcpy', wp_logCall, wp_record, wp_CommandAllocatorReset, wp_CommandListReset,
    wp_CommandListClose, wp_ExecuteCommandLists, wp_Present, wp_GetCurrentBackBufferIndex,
    wp_Signal, wp_GetCompletedValue, wp_SetEventOnCompletion, wp_WaitForSingleObject,
    wp_GetHardwareAdapter, World.nextResult, S_OK_eq, implies_true, and_self, ite_self, and_true]
  repeat' first
    | trivial | intro _ | constructor | exact WaitForPreviousFrame_constantBufferData _ | split

theorem Init_constantBufferData (p_window : Handle) (assets_path : String) (s : Sys) :
    (Init p_window assets_path s).2.self.m_constantBufferData = SceneConstantBuffer.zero := by
  show wp (Init p_window assets_path) (fun _ t => t.self.m_constantBufferData = _) s
  unfold Init
  simp only [wp_bind, wpNext_ok, wp_modifySelf, wp_getWorld]
  generalize hs1 : ({ self := _, world := s.world } : Sys) = s1
  have h1 : s1.self.m_constantBufferData = SceneConstantBuffer.zero := by rw [← hs1]
  have h2 := LoadPipeline_constantBufferData s1
  have h3 := LoadAssets_constantBufferData (LoadPipeline s1).2
  unfold wp
  rcases hr : (LoadPipeline s1).1 with _ | _ | _
  · show (LoadAssets (LoadPipeline s1).2).2.self.m_constantBufferData = _
    rw [h3, h2, h1]
  · show (LoadPipeline s1).2.self.m_constantBufferData = _
    rw [h2, h1]
  · show (LoadPipeline s1).2.self.m_constantBufferData = _
    rw [h2, h1]

/-! ### The offset of the constant buffer -/

theorem Update_offset_x_bounds (s : Sys)
    (h : -1.25 ≤ s.self.m_constantBufferData.offset.x ∧
      s.self.m_constantBufferData.offset.x ≤ 1.25) :
    -1.25 ≤ (Update s).2.self.m_constantBufferData.offset.x ∧
      (Update s).2.self.m_constantBufferData.offset.x ≤ 1.25 := by
  rw [Update_offset_x]
  obtain ⟨h1, h2⟩ := h
  split
  · norm_num
  · rename_i hn
    constructor
    · exact Float32.neg_bound_le_round _ (by linarith)
    · exact not_lt.mp hn

theorem Spec.exactUpdate_bounds (x : ℚ) (h : -1.25 ≤ x ∧ x ≤ 1.25) :
    -1.25 ≤ Spec.exactUpdate x ∧ Spec.exactUpdate x ≤ 1.25 := by
  unfold Spec.exactUpdate
  obtain ⟨h1, h2⟩ := h
  split
  · norm_num
  · constructor
    · linarith
    · linarith

/-- C2: starting from the constant buffer that `Init` sets up (however `Init`
ends), the value of `offset.x` after any number `n` of calls of `Update` lies
between -1.25 and 1.25. This holds of the code, which computes in binary32, and
it holds with the step 0.005 and the bound 1.25 taken as exact values, starting
from 0. -/
theorem C2_offset_x_bounded (p_window : Handle) (assets_path : String) (s₀ : Sys) (n : Nat) :
    (-1.25 ≤ ((DX.exec Update)^[n]
        (DX.exec (Init p_window assets_path) s₀)).self.m_constantBufferData.offset.x ∧
      ((DX.exec Update)^[n]
        (DX.exec (Init p_window assets_path) s₀)).self.m_constantBufferData.offset.x ≤ 1.25) ∧
    (DX.exec (Init p_window assets_path) s₀).self.m_constantBufferData.offset.x = 0 ∧
    (-1.25 ≤ Spec.exactUpdate^[n] 0 ∧ Spec.exactUpdate^[n] 0 ≤ 1.25) := by
  refine ⟨?_, ?_, ?_⟩
  · induction n with
    | zero =>
      simp only [Function.iterate_zero, id_eq, DX.exec, Init_constantBufferData]
      simp only [SceneConstantBuffer.zero]
      norm_num
    | succ k ih =>
      rw [Function.iterate_succ_apply']
      exact Update_offset_x_bounds _ ih
  · simp only [DX.exec, Init_constantBufferData]
    rfl
  · induction n with
    | zero =>
      simp only [Function.iterate_zero, id_eq]
      norm_num
    | succ k ih =>
      rw [Function.iterate_succ_apply']
      exact Spec.exactUpdate_bounds _ ih

/-! ### The fence and its event -/

theorem QueueItem.le_completes (item : QueueItem) (c : Nat) : c ≤ item.completes c := by
  cases item with
  | commandLists l => exact Nat.le_refl _
  | signal v => exact Nat.le_max_left _ _

theorem Gpu.retire_fence_le (g : Gpu) : g.fenceCompleted ≤ g.retire.fenceCompleted := by
  unfold Gpu.retire
  split
  · exact Nat.le_refl _
  · exact QueueItem.le_completes _ _

theorem Gpu.run_fence_le (k : Nat) (g : Gpu) : g.fenceCompleted ≤ (Gpu.run k g).fenceCompleted := by
  induction k generalizing g with
  | zero => exact Nat.le_refl _
  | succ k ih => exact Nat.le_trans (Gpu.retire_fence_le g) (ih g.retire)

theorem Gpu.retire_idle (g : Gpu) (h : g.Idle) : g.retire.Idle := by
  obtain ⟨h1, h2⟩ := h
  unfold Gpu.retire
  split
  · exact ⟨h1, h2⟩
  · simp [Gpu.Idle, h1, h2]

theorem Gpu.run_idle (k : Nat) (g : Gpu) (h : g.Idle) : (Gpu.run k g).Idle := by
  induction k generalizing g with
  | zero => exact h
  | succ k ih => exact ih g.retire (Gpu.retire_idle g h)

theorem Gpu.push_idle (g : Gpu) (item : QueueItem) (h : g.Idle) : (g.push item).Idle := h

theorem Gpu.retire_armed (v : Nat) (g : Gpu) (h : g.Armed v) : g.retire.Armed v := by
  unfold Gpu.retire
  split
  · exact h
  · rename_i item rest _
    rcases h with ⟨h1, h2⟩ | ⟨h1, h2, h3⟩
    · by_cases hv : v ≤ item.completes g.fenceCompleted
      · right; simp [h1, h2, hv]
      · left; simp [h1, h2, hv]
    · right
      exact ⟨by simp [h1, h2], by simp [h2], Nat.le_trans h3 (QueueItem.le_completes _ _)⟩

theorem Gpu.waitLoop_armed (v : Nat) (n : Nat) (g g' : Gpu) (h : g.Armed v)
    (hw : Gpu.waitLoop n g = some g') : v ≤ g'.fenceCompleted ∧ g'.Idle := by
  induction n generalizing g with
  | zero =>
    unfold Gpu.waitLoop at hw
    rcases h with ⟨h1, _⟩ | ⟨h1, h2, h3⟩
    · simp [h1] at hw
    · simp only [h1, if_true, Option.some.injEq] at hw
      subst hw
      exact ⟨h3, rfl, h2⟩
  | succ n ih =>
    unfold Gpu.waitLoop at hw
    rcases h with ⟨h1, h2⟩ | ⟨h1, h2, h3⟩
    · simp only [h1, Bool.false_eq_true, if_false] at hw
      exact ih g.retire (Gpu.retire_armed v g (Or.inl ⟨h1, h2⟩)) hw
    · simp only [h1, if_true, Option.some.injEq] at hw
      subst hw
      exact ⟨h3, rfl, h2⟩

theorem Gpu.setEventOnCompletion_armed (v : Nat) (g : Gpu) (h : g.Idle) :
    (g.setEventOnCompletion v).Armed v := by
  obtain ⟨h1, h2⟩ := h
  unfold Gpu.setEventOnCompletion
  split
  · right; exact ⟨rfl, h2, by assumption⟩
  · left; exact ⟨h1, rfl⟩

theorem WaitForPreviousFrame_fence (s : Sys) (hidle : s.world.gpu.Idle) :
    wp WaitForPreviousFrame (fun r t => r = Res.ok () →
      s.self.m_fenceValue ≤ t.world.gpu.fenceCompleted ∧ t.world.gpu.Idle ∧
      ((∃ c, s.self.m_fenceValue ≤ c ∧
          t.world.trace = s.world.trace ++
            [Call.Signal s.self.m_fence s.self.m_fenceValue 0,
             Call.GetCompletedValue s.self.m_fence c,
             Call.GetCurrentBackBufferIndex s.world.backBufferIndex]) ∨
       (∃ c, c < s.self.m_fenceValue ∧
          t.world.trace = s.world.trace ++
            [Call.Signal s.self.m_fence s.self.m_fenceValue 0,
             Call.GetCompletedValue s.self.m_fence c,
             Call.SetEventOnCompletion s.self.m_fence s.self.m_fenceValue s.self.m_fenceEvent 0,
             Call.WaitForSingleObject s.self.m_fenceEvent,
             Call.GetCurrentBackBufferIndex s.world.backBufferIndex]))) s := by
  unfold WaitForPreviousFrame
  simp only [wp_bind, wpNext_ok, wp_modifySelf, wp_getSelf, wp_getWorld, wp_ite, wp_dxpure,
    wp_ThrowIfFailed1, wp_ThrowIfFailed, wpNext, wp_callHR, wp_create, wp_D3D12CreateDevice,
    wp_CreateCommandQueue, wp_CreateCommandList, wp_CreateFence, wp_CreateEvent, wp_GetBuffer,
    wp_Map, wp_memcpy', wp_logCall, wp_record, wp_CommandAllocatorReset, wp_CommandListReset,
    wp_CommandListClose, wp_ExecuteCommandLists, wp_Present, wp_GetCurrentBackBufferIndex,
    wp_Signal, wp_GetCompletedValue, wp_SetEventOnCompletion, wp_WaitForSingleObject,
    wp_GetHardwareAdapter, World.nextResult, S_OK_eq, reduceCtorEq, false_implies, implies_true, and_true, true_implies]
  intro h1
  simp only [h1, SUCCEEDED_zero, if_true]
  have hrun := Gpu.run_idle (s.world.gpuProgress.headD 0)
    (s.world.gpu.push (QueueItem.signal s.self.m_fenceValue))
    (Gpu.push_idle _ _ hidle)
  split
  · rename_i hlt
    intro h2
    simp only [h2, SUCCEEDED_zero, if_true]
    split
    · rename_i g hg
      have hw := Gpu.waitLoop_armed s.self.m_fenceValue _ _ g
        (Gpu.setEventOnCompletion_armed s.self.m_fenceValue _ hrun) hg
      refine ⟨hw.1, hw.2, Or.inr ⟨_, hlt, ?_⟩⟩
      simp
    · trivial
  · rename_i hge
    refine ⟨Nat.le_of_not_lt hge, hrun, Or.inl ⟨_, Nat.le_of_not_lt hge, ?_⟩⟩
    simp

/-- C4: whenever `WaitForPreviousFrame`, called with the fence event idle (not
set, waiting for nothing: its state after creation and after every wait),
returns, the completed value of the fence is at least the value `m_fenceValue`
had on entry and the event is idle again. Either `GetCompletedValue` already
gave at least that value and nothing else was called, or the call registered the
event for exactly that value and waited for it. -/
theorem C4_WaitForPreviousFrame_reaches_target (s : Sys) (hidle : s.world.gpu.Idle)
    (hret : (WaitForPreviousFrame s).1 = Res.ok ()) :
    s.self.m_fenceValue ≤ (WaitForPreviousFrame s).2.world.gpu.fenceCompleted ∧
    (WaitForPreviousFrame s).2.world.gpu.Idle ∧
    ((∃ c, s.self.m_fenceValue ≤ c ∧
        (WaitForPreviousFrame s).2.world.trace = s.world.trace ++
          [Call.Signal s.self.m_fence s.self.m_fenceValue 0,
           Call.GetCompletedValue s.self.m_fence c,
           Call.GetCurrentBackBufferIndex s.world.backBufferIndex]) ∨
     (∃ c, c < s.self.m_fenceValue ∧
        (WaitForPreviousFrame s).2.world.trace = s.world.trace ++
          [Call.Signal s.self.m_fence s.self.m_fenceValue 0,
           Call.GetCompletedValue s.self.m_fence c,
           Call.SetEventOnCompletion s.self.m_fence s.self.m_fenceValue s.self.m_fenceEvent 0,
           Call.WaitForSingleObject s.self.m_fenceEvent,
           Call.GetCurrentBackBufferIndex s.world.backBufferIndex])) :=
  WaitForPreviousFrame_fence s hidle hret

/-- C4 on the sample machine before its first wait (target 1, fence at 0). -/
theorem C4_WaitForPreviousFrame_reaches_target_witness :
    Sys.beforeFirstWait.world.gpu.Idle ∧
    (WaitForPreviousFrame Sys.beforeFirstWait).1 = Res.ok () ∧
    Sys.beforeFirstWait.self.m_fenceValue ≤
      (WaitForPreviousFrame Sys.beforeFirstWait).2.world.gpu.fenceCompleted :=
  ⟨⟨rfl, rfl⟩, by decide,
    (C4_WaitForPreviousFrame_reaches_target Sys.beforeFirstWait ⟨rfl, rfl⟩ (by decide)).1⟩

/-! ### `PopulateCommandList` -/

theorem PopulateCommandList_spec (s : Sys) :
    wp PopulateCommandList (fun r t => r = Res.ok () →
      t = { self := s.self
            world := { s.world with
              hresults := s.world.hresults.tail.tail.tail
              recorded := Function.update s.world.recorded s.self.m_commandList
                (PopulateCommandList.commands s.self s.world)
              trace := s.world.trace ++
                [Call.CommandAllocatorReset s.self.m_commandAllocator 0 s.world.gpu.pendingLists,
                 Call.CommandListReset s.self.m_commandList s.self.m_commandAllocator
                   s.self.m_pipelineState 0,
                 Call.CommandListClose s.self.m_commandList 0] } }) s := by
  unfold PopulateCommandList
  simp only [wp_bind, wpNext_ok, wp_modifySelf, wp_getSelf, wp_getWorld, wp_ite, wp_dxpure,
    wp_ThrowIfFailed1, wp_ThrowIfFailed, wpNext, wp_callHR, wp_create, wp_D3D12CreateDevice,
    wp_CreateCommandQueue, wp_CreateCommandList, wp_CreateFence, wp_CreateEvent, wp_GetBuffer,
    wp_Map, wp_memcpy', wp_logCall, wp_record, wp_CommandAllocatorReset, wp_CommandListReset,
    wp_CommandListClose, wp_ExecuteCommandLists, wp_Present, wp_GetCurrentBackBufferIndex,
    wp_Signal, wp_GetCompletedValue, wp_SetEventOnCompletion, wp_WaitForSingleObject,
    wp_GetHardwareAdapter, World.nextResult, S_OK_eq, reduceCtorEq, false_implies, implies_true, and_true, true_implies]
  intro h1 h2 h3
  simp only [h1, h2, h3, SUCCEEDED_zero, if_true, appendAt_eq_update, clearAt_eq_update,
    Function.update_idem, Function.update_same,
    List.nil_append, List.cons_append, List.append_assoc, PopulateCommandList.commands]

/-! ### Draining the queue -/

theorem Gpu.push_pending (F : Nat) (g : Gpu) (h : g.Below F) :
    (g.push (QueueItem.signal F)).Idle ∧ (g.push (QueueItem.signal F)).Pending F :=
  ⟨h.1, h.2.1, g.queue, rfl, h.2.2⟩

theorem Gpu.retire_done (F : Nat) : (Gpu.done F).retire = Gpu.done F := rfl

theorem Gpu.run_done (F k : Nat) : Gpu.run k (Gpu.done F) = Gpu.done F := by
  induction k with
  | zero => rfl
  | succ k ih => exact ih

theorem Gpu.retire_pending (F : Nat) (g : Gpu) (hi : g.Idle) (h : g.Pending F) :
    (g.retire.Idle ∧ g.retire.Pending F) ∨ g.retire = Gpu.done F := by
  obtain ⟨hs, hw⟩ := hi
  obtain ⟨hc, earlier, hq, hsig⟩ := h
  cases earlier with
  | nil =>
    right
    unfold Gpu.retire
    rw [hq]
    simp only [List.nil_append, hw, hs, QueueItem.completes, Gpu.done, Bool.or_false,
      Bool.false_eq_true, if_false]
    congr 1
    exact Nat.max_eq_right (Nat.le_of_lt hc)
  | cons item rest =>
    left
    have hlt : item.completes g.fenceCompleted < F := by
      cases item with
      | commandLists l => exact hc
      | signal v =>
        have := hsig v (List.mem_cons_self _ _)
        exact Nat.max_lt.mpr ⟨hc, this⟩
    unfold Gpu.retire
    rw [hq]
    simp only [List.cons_append, hw, hs, Bool.or_false, Bool.false_eq_true, if_false]
    exact ⟨⟨rfl, rfl⟩, hlt, rest, rfl, fun v hv => hsig v (List.mem_cons_of_mem _ hv)⟩

theorem Gpu.run_pending (F k : Nat) (g : Gpu) (hi : g.Idle) (h : g.Pending F) :
    ((Gpu.run k g).Idle ∧ (Gpu.run k g).Pending F) ∨ Gpu.run k g = Gpu.done F := by
  induction k generalizing g with
  | zero => exact Or.inl ⟨hi, h⟩
  | succ k ih =>
    rcases Gpu.retire_pending F g hi h with ⟨hi', h'⟩ | hd
    · exact ih g.retire hi' h'
    · right
      show Gpu.run k g.retire = Gpu.done F
      rw [hd, Gpu.run_done]

theorem Gpu.waitLoop_pending (F : Nat) (earlier : List QueueItem) (g : Gpu) (n : Nat)
    (hs : g.eventSignaled = false) (hw : g.eventWaitingFor = some F)
    (hc : g.fenceCompleted < F) (hq : g.queue = earlier ++ [QueueItem.signal F])
    (hsig : ∀ v, QueueItem.signal v ∈ earlier → v < F) (hn : earlier.length + 1 ≤ n) :
    Gpu.waitLoop n g = some (Gpu.done F) := by
  induction earlier generalizing g n with
  | nil =>
    obtain ⟨m, rfl⟩ : ∃ m, n = m + 1 := ⟨n - 1, by simp at hn; omega⟩
    have hret : g.retire = (⟨[], F, true, none⟩ : Gpu) := by
      unfold Gpu.retire
      rw [hq]
      have hmax : max g.fenceCompleted F = F := Nat.max_eq_right (Nat.le_of_lt hc)
      simp [hw, hs, QueueItem.completes, hmax]
    unfold Gpu.waitLoop
    simp only [hs, Bool.false_eq_true, if_false, hret]
    cases m <;> simp [Gpu.waitLoop, Gpu.done]
  | cons item rest ih =>
    obtain ⟨m, rfl⟩ : ∃ m, n = m + 1 := ⟨n - 1, by simp at hn; omega⟩
    have hlt : item.completes g.fenceCompleted < F := by
      cases item with
      | commandLists l => exact hc
      | signal v =>
        have := hsig v (List.mem_cons_self _ _)
        exact Nat.max_lt.mpr ⟨hc, this⟩
    have hret : g.retire =
        (⟨rest ++ [QueueItem.signal F], item.completes g.fenceCompleted, false, some F⟩ : Gpu) := by
      unfold Gpu.retire
      rw [hq]
      simp [hw, hs, Nat.not_le.mpr hlt]
    unfold Gpu.waitLoop
    simp only [hs, Bool.false_eq_true, if_false, hret]
    exact ih _ m rfl rfl hlt rfl (fun v hv => hsig v (List.mem_cons_of_mem _ hv))
      (by simp at hn ⊢; omega)

theorem Gpu.waitForEvent_pending (F : Nat) (g : Gpu) (hi : g.Idle) (h : g.Pending F) :
    (g.setEventOnCompletion F).waitForEvent = some (Gpu.done F) := by
  obtain ⟨hs, hw⟩ := hi
  obtain ⟨hc, earlier, hq, hsig⟩ := h
  have hset : g.setEventOnCompletion F = { g with eventWaitingFor := some F } := by
    unfold Gpu.setEventOnCompletion
    rw [if_neg (Nat.not_le.mpr hc)]
  rw [hset]
  unfold Gpu.waitForEvent
  exact Gpu.waitLoop_pending F earlier _ _ hs rfl hc hq hsig (by simp [hq])

/-! ### `WaitForPreviousFrame`: what it leaves -/

theorem WaitForPreviousFrame_state (s : Sys) :
    wp WaitForPreviousFrame (fun r t => r = Res.ok () →
      t.self = { s.self with
        m_fenceValue := (s.self.m_fenceValue + 1) % 2 ^ 64
        m_frameIndex := s.world.backBufferIndex } ∧
      t.world = { s.world with
        hresults := t.world.hresults
        gpuProgress := s.world.gpuProgress.tail
        gpu := t.world.gpu
        trace := t.world.trace }) s := by
  unfold WaitForPreviousFrame
  simp only [wp_bind, wpNext_ok, wp_modifySelf, wp_getSelf, wp_getWorld, wp_ite, wp_dxpure,
    wp_ThrowIfFailed1, wp_ThrowIfFailed, wpNext, wp_callHR, wp_create, wp_D3D12CreateDevice,
    wp_CreateCommandQueue, wp_CreateCommandList, wp_CreateFence, wp_CreateEvent, wp_GetBuffer,
    wp_Map, wp_memcpy', wp_logCall, wp_record, wp_CommandAllocatorReset, wp_CommandListReset,
    wp_CommandListClose, wp_ExecuteCommandLists, wp_Present, wp_GetCurrentBackBufferIndex,
    wp_Signal, wp_GetCompletedValue, wp_SetEventOnCompletion, wp_WaitForSingleObject,
    wp_GetHardwareAdapter, World.nextResult, S_OK_eq, reduceCtorEq, false_implies, implies_true, and_true, true_implies]
  repeat' first | trivial | intro _ | constructor | split

theorem WaitForPreviousFrame_drain (s : Sys) (h : s.world.gpu.Below s.self.m_fenceValue) :
    wp WaitForPreviousFrame (fun r t => r = Res.ok () →
      t.world.gpu = Gpu.done s.self.m_fenceValue) s := by
  unfold WaitForPreviousFrame
  simp only [wp_bind, wpNext_ok, wp_modifySelf, wp_getSelf, wp_getWorld, wp_ite, wp_dxpure,
    wp_ThrowIfFailed1, wp_ThrowIfFailed, wpNext, wp_callHR, wp_create, wp_D3D12CreateDevice,
    wp_CreateCommandQueue, wp_CreateCommandList, wp_CreateFence, wp_CreateEvent, wp_GetBuffer,
    wp_Map, wp_memcpy', wp_logCall, wp_record, wp_CommandAllocatorReset, wp_CommandListReset,
    wp_CommandListClose, wp_ExecuteCommandLists, wp_Present, wp_GetCurrentBackBufferIndex,
    wp_Signal, wp_GetCompletedValue, wp_SetEventOnCompletion, wp_WaitForSingleObject,
    wp_GetHardwareAdapter, World.nextResult, S_OK_eq, reduceCtorEq, false_implies, implies_true, and_true, true_implies]
  intro h1
  simp only [h1, SUCCEEDED_zero, if_true]
  obtain ⟨hi, hp⟩ := Gpu.push_pending s.self.m_fenceValue s.world.gpu h
  rcases Gpu.run_pending s.self.m_fenceValue (s.world.gpuProgress.headD 0) _ hi hp with
    ⟨hi', hp'⟩ | hd
  · rw [if_pos hp'.1]
    intro h2
    simp only [h2, SUCCEEDED_zero, if_true]
    rw [Gpu.waitForEvent_pending _ _ hi' hp']
  · rw [hd]
    rw [if_neg (by simp [Gpu.done])]

theorem WaitForPreviousFrame_trace (s : Sys) :
    wp WaitForPreviousFrame (fun r t => r = Res.ok () →
      ∃ c, t.world.trace = s.world.trace ++
        WaitForPreviousFrame.calls s.self c s.world.backBufferIndex) s := by
  unfold WaitForPreviousFrame
  simp only [wp_bind, wpNext_ok, wp_modifySelf, wp_getSelf, wp_getWorld, wp_ite, wp_dxpure,
    wp_ThrowIfFailed1, wp_ThrowIfFailed, wpNext, wp_callHR, wp_create, wp_D3D12CreateDevice,
    wp_CreateCommandQueue, wp_CreateCommandList, wp_CreateFence, wp_CreateEvent, wp_GetBuffer,
    wp_Map, wp_memcpy', wp_logCall, wp_record, wp_CommandAllocatorReset, wp_CommandListReset,
    wp_CommandListClose, wp_ExecuteCommandLists, wp_Present, wp_GetCurrentBackBufferIndex,
    wp_Signal, wp_GetCompletedValue, wp_SetEventOnCompletion, wp_WaitForSingleObject,
    wp_GetHardwareAdapter, World.nextResult, S_OK_eq, reduceCtorEq, false_implies, implies_true, and_true, true_implies]
  intro h1
  simp only [h1, SUCCEEDED_zero, if_true]
  split
  · rename_i hlt
    intro h2
    simp only [h2, SUCCEEDED_zero, if_true]
    split
    · refine ⟨(Gpu.run (s.world.gpuProgress.headD 0)
        (s.world.gpu.push (QueueItem.signal s.self.m_fenceValue))).fenceCompleted, ?_⟩
      simp only [WaitForPreviousFrame.calls, if_pos hlt, List.append_assoc, List.cons_append,
        List.nil_append]
    · trivial
  · rename_i hge
    refine ⟨(Gpu.run (s.world.gpuProgress.headD 0)
      (s.world.gpu.push (QueueItem.signal s.self.m_fenceValue))).fenceCompleted, ?_⟩
    simp only [WaitForPreviousFrame.calls, if_neg hge, List.append_assoc, List.cons_append,
      List.nil_append]

/-! ### `Render` -/

theorem Render_spec (s : Sys) :
    wp Render (fun r t => r = Res.ok () →
      t.self = { s.self with
        m_fenceValue := (s.self.m_fenceValue + 1) % 2 ^ 64
        m_frameIndex := s.world.advance s.world.backBufferIndex } ∧
      t.world = { s.world with
        hresults := t.world.hresults
        gpuProgress := s.world.gpuProgress.tail
        backBufferIndex := s.world.advance s.world.backBufferIndex
        recorded := Function.update s.world.recorded s.self.m_commandList
          (PopulateCommandList.commands s.self s.world)
        gpu := t.world.gpu
        trace := t.world.trace } ∧
      ∃ c, t.world.trace = s.world.trace ++ Render.calls s.self s.world.gpu.pendingLists ++
        WaitForPreviousFrame.calls s.self c (s.world.advance s.world.backBufferIndex)) s := by
  unfold Render
  rw [wp_bind]
  refine wp_mono _ _ _ _ (PopulateCommandList_spec s) ?_
  intro r t hpost
  cases r with
  | threw e => simp only [wp_bind, wpNext_ok, wp_modifySelf, wp_getSelf, wp_getWorld, wp_ite, wp_dxpure,
    wp_ThrowIfFailed1, wp_ThrowIfFailed, wpNext, wp_callHR, wp_create, wp_D3D12CreateDevice,
    wp_CreateCommandQueue, wp_CreateCommandList, wp_CreateFence, wp_CreateEvent, wp_GetBuffer,
    wp_Map, wp_memcpy', wp_logCall, wp_record, wp_CommandAllocatorReset, wp_CommandListReset,
    wp_CommandListClose, wp_ExecuteCommandLists, wp_Present, wp_GetCurrentBackBufferIndex,
    wp_Signal, wp_GetCompletedValue, wp_SetEventOnCompletion, wp_WaitForSingleObject,
    wp_GetHardwareAdapter, World.nextResult, S_OK_eq, reduceCtorEq, false_implies]
  | blocked => simp only [wp_bind, wpNext_ok, wp_modifySelf, wp_getSelf, wp_getWorld, wp_ite, wp_dxpure,
    wp_ThrowIfFailed1, wp_ThrowIfFailed, wpNext, wp_callHR, wp_create, wp_D3D12CreateDevice,
    wp_CreateCommandQueue, wp_CreateCommandList, wp_CreateFence, wp_CreateEvent, wp_GetBuffer,
    wp_Map, wp_memcpy', wp_logCall, wp_record, wp_CommandAllocatorReset, wp_CommandListReset,
    wp_CommandListClose, wp_ExecuteCommandLists, wp_Present, wp_GetCurrentBackBufferIndex,
    wp_Signal, wp_GetCompletedValue, wp_SetEventOnCompletion, wp_WaitForSingleObject,
    wp_GetHardwareAdapter, World.nextResult, S_OK_eq, reduceCtorEq, false_implies]
  | ok u =>
    rw [hpost rfl]
    simp only [wp_bind, wpNext_ok, wp_modifySelf, wp_getSelf, wp_getWorld, wp_ite, wp_dxpure,
    wp_ThrowIfFailed1, wp_ThrowIfFailed, wpNext, wp_callHR, wp_create, wp_D3D12CreateDevice,
    wp_CreateCommandQueue, wp_CreateCommandList, wp_CreateFence, wp_CreateEvent, wp_GetBuffer,
    wp_Map, wp_memcpy', wp_logCall, wp_record, wp_CommandAllocatorReset, wp_CommandListReset,
    wp_CommandListClose, wp_ExecuteCommandLists, wp_Present, wp_GetCurrentBackBufferIndex,
    wp_Signal, wp_GetCompletedValue, wp_SetEventOnCompletion, wp_WaitForSingleObject,
    wp_GetHardwareAdapter, World.nextResult, S_OK_eq, reduceCtorEq, false_implies, implies_true, and_true, true_implies]
    intro hp
    simp only [hp, SUCCEEDED_zero, if_true]
    generalize ht2 : ({ self := s.self, world := _ } : Sys) = t2
    show (WaitForPreviousFrame t2).1 = Res.ok () → _
    intro hok
    obtain ⟨hself, hworld⟩ := WaitForPreviousFrame_state t2 hok
    obtain ⟨c, htrace⟩ := WaitForPreviousFrame_trace t2 hok
    subst ht2
    refine ⟨hself, ?_, c, ?_⟩
    · conv_lhs => rw [hworld]
    · rw [htrace]
      simp only [Render.calls, List.append_assoc, List.cons_append, List.nil_append,
        List.length_singleton]

/-! ### `LoadPipeline` and `LoadAssets` -/

theorem LoadPipeline_spec (s : Sys) :
    wp LoadPipeline (fun r t => r = Res.ok () →
      t.world.gpu = s.world.gpu.newQueue ∧
      t.world.backBufferIndex = s.world.backBufferIndex ∧
      t.world.advance = s.world.advance ∧
      ∃ calls, t.world.trace = s.world.trace ++ calls ∧
        ∀ c ∈ calls, c.isQueueWork = false) s := by
  unfold LoadPipeline
  simp only [wp_bind, wpNext_ok, wp_modifySelf, wp_getSelf, wp_getWorld, wp_ite, wp_dxpure,
    wp_ThrowIfFailed1, wp_ThrowIfFailed, wpNext, wp_callHR, wp_create, wp_D3D12CreateDevice,
    wp_CreateCommandQueue, wp_CreateCommandList, wp_CreateFence, wp_CreateEvent, wp_GetBuffer,
    wp_Map, wp_memcpy', wp_logCall, wp_record, wp_CommandAllocatorReset, wp_CommandListReset,
    wp_CommandListClose, wp_ExecuteCommandLists, wp_Present, wp_GetCurrentBackBufferIndex,
    wp_Signal, wp_GetCompletedValue, wp_SetEventOnCompletion, wp_WaitForSingleObject,
    wp_GetHardwareAdapter, World.nextResult, S_OK_eq, FRAME_COUNT, createRenderTargetViews_zero, createRenderTargetViews_succ,
    reduceCtorEq, false_implies, implies_true, and_true, true_implies, List.append_assoc,
    List.append_cancel_left_eq, exists_eq_left', List.cons_append, List.nil_append]
  intro h0
  split <;>
  · intros
    simp only [*, SUCCEEDED_zero, if_true, true_and, and_true, List.mem_cons,
      List.mem_singleton, forall_eq_or_imp, forall_eq, Call.isQueueWork, and_self,
      List.not_mem_nil, false_implies, implies_true]

theorem LoadAssets_spec (s : Sys) :
    wp LoadAssets (fun r t => r = Res.ok () →
      t.self.m_frameIndex = s.world.backBufferIndex ∧
      t.self.m_fenceValue = 2 ∧
      t.world.backBufferIndex = s.world.backBufferIndex ∧
      t.world.advance = s.world.advance ∧
      (s.world.gpu.queue = [] → t.world.gpu = Gpu.done 1) ∧
      ∃ calls, t.world.trace = s.world.trace ++ calls ∧
        calls.countP Call.isExecute = 1 ∧ calls.countP Call.isPresent = 0 ∧
        (s.world.gpu.pendingLists = 0 → ∀ c ∈ calls, c.OneInFlight)) s := by
  unfold LoadAssets
  simp only [wp_bind, wpNext_ok, wp_modifySelf, wp_getSelf, wp_getWorld, wp_ite, wp_dxpure,
    wp_ThrowIfFailed1, wp_ThrowIfFailed, wpNext, wp_callHR, wp_create, wp_D3D12CreateDevice,
    wp_CreateCommandQueue, wp_CreateCommandList, wp_CreateFence, wp_CreateEvent, wp_GetBuffer,
    wp_Map, wp_memcpy', wp_logCall, wp_record, wp_CommandAllocatorReset, wp_CommandListReset,
    wp_CommandListClose, wp_ExecuteCommandLists, wp_Present, wp_GetCurrentBackBufferIndex,
    wp_Signal, wp_GetCompletedValue, wp_SetEventOnCompletion, wp_WaitForSingleObject,
    wp_GetHardwareAdapter, World.nextResult, S_OK_eq, reduceCtorEq, false_implies, implies_true, and_true, true_implies]
  intros
  simp only [*, SUCCEEDED_zero, if_true]
  by_cases he : s.world.hresults.tail.tail.tail.tail.tail.tail.tail.tail.tail.tail.tail.tail.tail.tail.tail.tail.tail.headD 0 = 0
  · simp only [he, if_true, Nat.add_one_ne_zero, if_false]
    show (WaitForPreviousFrame _).1 = Res.ok () → _
    intro hok
    obtain ⟨hself, hworld⟩ := WaitForPreviousFrame_state _ hok
    obtain ⟨c, htrace⟩ := WaitForPreviousFrame_trace _ hok
    have hdrain := fun h => WaitForPreviousFrame_drain _ h hok
    simp only at hself hworld htrace hdrain
    refine ⟨?_, ?_, ?_, ?_, ?_, ?_⟩
    · rw [hself]
    · rw [hself]
      rfl
    · rw [hworld]
    · rw [hworld]
    · intro hq
      apply hdrain
      refine ⟨⟨rfl, rfl⟩, Nat.zero_lt_one, ?_⟩
      intro v hv
      simp [Gpu.newEvent, Gpu.newFence, Gpu.push, hq] at hv
    · rw [htrace]
      simp only [List.append_assoc, List.append_cancel_left_eq, exists_eq_left',
        List.cons_append, List.nil_append, List.length_singleton]
      refine ⟨?_, ?_, ?_⟩
      · simp only [List.countP_cons, List.countP_append, Call.isExecute,
          WaitForPreviousFrame.calls_countP_isExecute, Bool.false_eq_true, if_false, if_true]
      · simp only [List.countP_cons, List.countP_append, Call.isPresent,
          WaitForPreviousFrame.calls_countP_isPresent, Bool.false_eq_true, if_false, if_true]
      · intro hp
        simp only [List.forall_mem_cons, Call.OneInFlight, hp, true_and, Nat.zero_add,
          Nat.le_refl]
        exact WaitForPreviousFrame.calls_oneInFlight _ _ _
  · simp only [he, if_false, if_true, false_implies]

/-! ### `Init` -/

theorem Init_spec (p_window : Handle) (assets_path : String) (s : Sys) :
    wp (Init p_window assets_path) (fun r t => r = Res.ok () →
      t.self.m_frameIndex = s.world.backBufferIndex ∧
      t.self.m_fenceValue = 2 ∧
      t.world.backBufferIndex = s.world.backBufferIndex ∧
      t.world.advance = s.world.advance ∧
      t.world.gpu = Gpu.done 1 ∧
      ∃ calls, t.world.trace = s.world.trace ++ calls ∧
        calls.countP Call.isExecute = 1 ∧ calls.countP Call.isPresent = 0 ∧
        ∀ c ∈ calls, c.OneInFlight) s := by
  unfold Init
  simp only [wp_bind, wpNext_ok, wp_modifySelf, wp_getWorld]
  refine wp_mono _ _ _ _ (LoadPipeline_spec _) ?_
  intro r t1 h1
  cases r with
  | threw e => simp only [wpNext, reduceCtorEq, false_implies]
  | blocked => simp only [wpNext, reduceCtorEq, false_implies]
  | ok u =>
    obtain ⟨hg1, hb1, ha1, calls1, htr1, hq1⟩ := h1 rfl
    simp only at hg1 hb1 ha1 htr1
    simp only [wpNext]
    refine wp_mono _ _ _ _ (LoadAssets_spec t1) ?_
    intro r2 t h2 hok
    obtain ⟨hf, hv, hb, ha, hg, calls2, htr2, he2, hp2, ho2⟩ := h2 hok
    have hqueue : t1.world.gpu.queue = [] := by rw [hg1]; rfl
    have hpending : t1.world.gpu.pendingLists = 0 := by
      simp [Gpu.pendingLists, hqueue]
    refine ⟨by rw [hf, hb1], hv, by rw [hb, hb1], by rw [ha, ha1], hg hqueue,
      calls1 ++ calls2, by rw [htr2, htr1, List.append_assoc], ?_, ?_, ?_⟩
    · rw [List.countP_append, he2, List.countP_eq_zero.mpr]
      intro c hc
      simp [Call.not_isExecute_of_not_isQueueWork c (hq1 c hc)]
    · rw [List.countP_append, hp2, List.countP_eq_zero.mpr]
      intro c hc
      simp [Call.not_isPresent_of_not_isQueueWork c (hq1 c hc)]
    · intro c hc
      rcases List.mem_append.mp hc with h | h
      · exact Call.oneInFlight_of_not_isQueueWork c (hq1 c h)
      · exact ho2 hpending c h

/-! ### Calls that return -/

theorem Gpu.waitLoop_returns (F : Nat) (n : Nat) (g : Gpu) (h : g.Armed F)
    (hq : g.eventSignaled = true ∨ QueueItem.signal F ∈ g.queue) (hn : g.queue.length ≤ n) :
    ∃ g', Gpu.waitLoop n g = some g' := by
  induction n generalizing g with
  | zero =>
    unfold Gpu.waitLoop
    rcases hq with hs | hm
    · exact ⟨_, by rw [if_pos hs]⟩
    · have : g.queue = [] := List.length_eq_zero.mp (Nat.le_zero.mp hn)
      rw [this] at hm
      exact absurd hm (List.not_mem_nil _)
  | succ n ih =>
    unfold Gpu.waitLoop
    by_cases hs : g.eventSignaled = true
    · exact ⟨_, by rw [if_pos hs]⟩
    · rw [if_neg hs]
      have hm : QueueItem.signal F ∈ g.queue := by
        rcases hq with h' | h'
        · exact absurd h' hs
        · exact h'
      have hw : g.eventWaitingFor = some F := by
        rcases h with ⟨_, h2⟩ | ⟨h1, _, _⟩
        · exact h2
        · exact absurd h1 hs
      apply ih g.retire (Gpu.retire_armed F g h)
      · cases hqq : g.queue with
        | nil => rw [hqq] at hm; exact absurd hm (List.not_mem_nil _)
        | cons item rest =>
          rw [hqq] at hm
          unfold Gpu.retire
          rw [hqq]
          simp only [hw]
          rcases List.mem_cons.mp hm with h' | h'
          · left
            subst h'
            simp [QueueItem.completes]
          · right
            exact h'
      · cases hqq : g.queue with
        | nil =>
          unfold Gpu.retire
          rw [hqq]
          simp [hqq]
        | cons item rest =>
          unfold Gpu.retire
          rw [hqq]
          simp only [hqq, List.length_cons] at hn ⊢
          omega

theorem Gpu.mem_queue_run (F : Nat) (k : Nat) (g : Gpu) (hm : QueueItem.signal F ∈ g.queue) :
    F ≤ (Gpu.run k g).fenceCompleted ∨ QueueItem.signal F ∈ (Gpu.run k g).queue := by
  induction k generalizing g with
  | zero => exact Or.inr hm
  | succ k ih =>
    show F ≤ (Gpu.run k g.retire).fenceCompleted ∨ _ ∈ (Gpu.run k g.retire).queue
    cases hqq : g.queue with
    | nil => rw [hqq] at hm; exact absurd hm (List.not_mem_nil _)
    | cons item rest =>
      rw [hqq] at hm
      have hret : g.retire.queue = rest ∧
          g.retire.fenceCompleted = item.completes g.fenceCompleted := by
        unfold Gpu.retire
        rw [hqq]
        exact ⟨rfl, rfl⟩
      rcases List.mem_cons.mp hm with h' | h'
      · left
        subst h'
        refine Nat.le_trans ?_ (Gpu.run_fence_le k g.retire)
        rw [hret.2]
        exact Nat.le_max_right _ _
      · exact ih g.retire (by rw [hret.1]; exact h')

theorem WaitForPreviousFrame_returns (s : Sys) (h : s.world.hresults = [])
    (hidle : s.world.gpu.Idle) :
    (WaitForPreviousFrame s).1 = Res.ok () ∧ (WaitForPreviousFrame s).2.world.hresults = [] := by
  show wp WaitForPreviousFrame (fun r t => r = Res.ok () ∧ t.world.hresults = []) s
  unfold WaitForPreviousFrame
  simp only [wp_bind, wpNext_ok, wp_modifySelf, wp_getSelf, wp_getWorld, wp_ite, wp_dxpure,
    wp_ThrowIfFailed1, wp_ThrowIfFailed, wpNext, wp_callHR, wp_create, wp_D3D12CreateDevice,
    wp_CreateCommandQueue, wp_CreateCommandList, wp_CreateFence, wp_CreateEvent, wp_GetBuffer,
    wp_Map, wp_memcpy', wp_logCall, wp_record, wp_CommandAllocatorReset, wp_CommandListReset,
    wp_CommandListClose, wp_ExecuteCommandLists, wp_Present, wp_GetCurrentBackBufferIndex,
    wp_Signal, wp_GetCompletedValue, wp_SetEventOnCompletion, wp_WaitForSingleObject,
    wp_GetHardwareAdapter, World.nextResult, S_OK_eq, h, List.tail_nil, List.headD_nil, SUCCEEDED_zero, if_true, true_implies,
    ne_eq, not_true_eq_false, false_implies, and_true, and_self]
  have hrun := Gpu.run_idle (s.world.gpuProgress.headD 0)
    (s.world.gpu.push (QueueItem.signal s.self.m_fenceValue))
    (Gpu.push_idle _ _ hidle)
  split
  · rename_i hlt
    have hmem := Gpu.mem_queue_run s.self.m_fenceValue (s.world.gpuProgress.headD 0)
      (s.world.gpu.push (QueueItem.signal s.self.m_fenceValue))
      (by simp [Gpu.push])
    have hmem' : QueueItem.signal s.self.m_fenceValue ∈
        (Gpu.run (s.world.gpuProgress.headD 0)
          (s.world.gpu.push (QueueItem.signal s.self.m_fenceValue))).queue := by
      rcases hmem with h' | h'
      · exact absurd hlt (Nat.not_lt.mpr h')
      · exact h'
    have hset : (Gpu.setEventOnCompletion (Gpu.run (s.world.gpuProgress.headD 0)
          (s.world.gpu.push (QueueItem.signal s.self.m_fenceValue))) s.self.m_fenceValue).queue
        = (Gpu.run (s.world.gpuProgress.headD 0)
          (s.world.gpu.push (QueueItem.signal s.self.m_fenceValue))).queue := by
      unfold Gpu.setEventOnCompletion
      split <;> rfl
    obtain ⟨g', hg'⟩ := Gpu.waitLoop_returns s.self.m_fenceValue _ _
      (Gpu.setEventOnCompletion_armed s.self.m_fenceValue _ hrun)
      (Or.inr (by rw [hset]; exact hmem')) (Nat.le_refl _)
    unfold Gpu.waitForEvent
    rw [hg']
    trivial
  · trivial

/-! ### Sequencing -/

theorem DX.bind_ok {α β : Type} (m : DX α) (f : α → DX β) (s : Sys) (b : β)
    (h : ((m >>= f) s).1 = Res.ok b) :
    ∃ a, (m s).1 = Res.ok a ∧ (m >>= f) s = f a (m s).2 := by
  have hb : (m >>= f) s = DX.bind m f s := rfl
  rw [hb] at h ⊢
  unfold DX.bind at h ⊢
  rcases hm : m s with ⟨r, t⟩
  rw [hm] at h
  cases r with
  | ok a => exact ⟨a, rfl, rfl⟩
  | threw e => simp at h
  | blocked => simp at h

theorem DX.bind_of_ok {α β : Type} (m : DX α) (f : α → DX β) (s : Sys) (a : α)
    (h : (m s).1 = Res.ok a) : (m >>= f) s = f a (m s).2 := by
  show DX.bind m f s = _
  unfold DX.bind
  rcases hm : m s with ⟨r, t⟩
  rw [hm] at h
  simp only at h
  subst h
  rfl

/-! ### `Update` and `Render` between synchronised states -/

theorem Update_spec (s : Sys) :
    (Update s).1 = Res.ok () ∧
    (Update s).2.self = { s.self with
      m_constantBufferData := (Update s).2.self.m_constantBufferData } ∧
    (Update s).2.world = { s.world with
      memory := (Update s).2.world.memory
      trace := s.world.trace ++
        [Call.memcpy s.self.m_pCbvDataBegin SceneConstantBuffer.sizeof] } := by
  show wp Update (fun r t => r = Res.ok () ∧
    t.self = { s.self with m_constantBufferData := t.self.m_constantBufferData } ∧
    t.world = { s.world with
      memory := t.world.memory
      trace := s.world.trace ++
        [Call.memcpy s.self.m_pCbvDataBegin SceneConstantBuffer.sizeof] }) s
  unfold Update
  simp only [wp_bind, wpNext_ok, wp_modifySelf, wp_getSelf, wp_ite, wp_dxpure, wp_memcpy']
  repeat' first | trivial | constructor | split

theorem Render_synced (s : Sys) (hs : s.Synced) :
    wp Render (fun r t => r = Res.ok () → t.world.gpu = Gpu.done s.self.m_fenceValue) s := by
  unfold Render
  rw [wp_bind]
  refine wp_mono _ _ _ _ (PopulateCommandList_spec s) ?_
  intro r t hpost
  cases r with
  | threw e => simp only [wp_bind, wpNext_ok, wp_modifySelf, wp_getSelf, wp_getWorld, wp_ite, wp_dxpure,
    wp_ThrowIfFailed1, wp_ThrowIfFailed, wpNext, wp_callHR, wp_create, wp_D3D12CreateDevice,
    wp_CreateCommandQueue, wp_CreateCommandList, wp_CreateFence, wp_CreateEvent, wp_GetBuffer,
    wp_Map, wp_memcpy', wp_logCall, wp_record, wp_CommandAllocatorReset, wp_CommandListReset,
    wp_CommandListClose, wp_ExecuteCommandLists, wp_Present, wp_GetCurrentBackBufferIndex,
    wp_Signal, wp_GetCompletedValue, wp_SetEventOnCompletion, wp_WaitForSingleObject,
    wp_GetHardwareAdapter, World.nextResult, S_OK_eq, reduceCtorEq, false_implies]
  | blocked => simp only [wp_bind, wpNext_ok, wp_modifySelf, wp_getSelf, wp_getWorld, wp_ite, wp_dxpure,
    wp_ThrowIfFailed1, wp_ThrowIfFailed, wpNext, wp_callHR, wp_create, wp_D3D12CreateDevice,
    wp_CreateCommandQueue, wp_CreateCommandList, wp_CreateFence, wp_CreateEvent, wp_GetBuffer,
    wp_Map, wp_memcpy', wp_logCall, wp_record, wp_CommandAllocatorReset, wp_CommandListReset,
    wp_CommandListClose, wp_ExecuteCommandLists, wp_Present, wp_GetCurrentBackBufferIndex,
    wp_Signal, wp_GetCompletedValue, wp_SetEventOnCompletion, wp_WaitForSingleObject,
    wp_GetHardwareAdapter, World.nextResult, S_OK_eq, reduceCtorEq, false_implies]
  | ok u =>
    rw [hpost rfl]
    simp only [wp_bind, wpNext_ok, wp_modifySelf, wp_getSelf, wp_getWorld, wp_ite, wp_dxpure,
    wp_ThrowIfFailed1, wp_ThrowIfFailed, wpNext, wp_callHR, wp_create, wp_D3D12CreateDevice,
    wp_CreateCommandQueue, wp_CreateCommandList, wp_CreateFence, wp_CreateEvent, wp_GetBuffer,
    wp_Map, wp_memcpy', wp_logCall, wp_record, wp_CommandAllocatorReset, wp_CommandListReset,
    wp_CommandListClose, wp_ExecuteCommandLists, wp_Present, wp_GetCurrentBackBufferIndex,
    wp_Signal, wp_GetCompletedValue, wp_SetEventOnCompletion, wp_WaitForSingleObject,
    wp_GetHardwareAdapter, World.nextResult, S_OK_eq, reduceCtorEq, false_implies, implies_true, and_true, true_implies]
    intro hp
    simp only [hp, SUCCEEDED_zero, if_true]
    refine WaitForPreviousFrame_drain _ ?_
    obtain ⟨h1, hg⟩ := hs
    simp only [hg]
    refine ⟨⟨rfl, rfl⟩, ?_, ?_⟩
    · show s.self.m_fenceValue - 1 < s.self.m_fenceValue
      omega
    · intro v hv
      simp [Gpu.push, Gpu.done] at hv

theorem Render_returns (s : Sys) (h : s.world.hresults = []) (hidle : s.world.gpu.Idle) :
    (Render s).1 = Res.ok () ∧ (Render s).2.world.hresults = [] := by
  show wp Render (fun r t => r = Res.ok () ∧ t.world.hresults = []) s
  unfold Render PopulateCommandList
  simp only [wp_bind, wpNext_ok, wp_modifySelf, wp_getSelf, wp_getWorld, wp_ite, wp_dxpure,
    wp_ThrowIfFailed1, wp_ThrowIfFailed, wpNext, wp_callHR, wp_create, wp_D3D12CreateDevice,
    wp_CreateCommandQueue, wp_CreateCommandList, wp_CreateFence, wp_CreateEvent, wp_GetBuffer,
    wp_Map, wp_memcpy', wp_logCall, wp_record, wp_CommandAllocatorReset, wp_CommandListReset,
    wp_CommandListClose, wp_ExecuteCommandLists, wp_Present, wp_GetCurrentBackBufferIndex,
    wp_Signal, wp_GetCompletedValue, wp_SetEventOnCompletion, wp_WaitForSingleObject,
    wp_GetHardwareAdapter, World.nextResult, S_OK_eq, h, List.tail_nil, List.headD_nil, SUCCEEDED_zero, if_true, true_implies,
    ne_eq, not_true_eq_false, false_implies, and_true, and_self]
  exact WaitForPreviousFrame_returns _ rfl (Gpu.push_idle _ _ hidle)

theorem LoadPipeline_returns (s : Sys) (h : s.world.hresults = [])
    (hw : s.self.m_use_warp_device = false)
    (hd : s.world.factory.createDeviceResult
      (GetHardwareAdapter.result s.world.factory false) D3D_FEATURE_LEVEL.L11_0 = 0) :
    (LoadPipeline s).1 = Res.ok () ∧ (LoadPipeline s).2.world.hresults = [] := by
  show wp LoadPipeline (fun r t => r = Res.ok () ∧ t.world.hresults = []) s
  unfold LoadPipeline
  simp only [wp_bind, wpNext_ok, wp_modifySelf, wp_getSelf, wp_getWorld, wp_ite, wp_dxpure,
    wp_ThrowIfFailed1, wp_ThrowIfFailed, wpNext, wp_callHR, wp_create, wp_D3D12CreateDevice,
    wp_CreateCommandQueue, wp_CreateCommandList, wp_CreateFence, wp_CreateEvent, wp_GetBuffer,
    wp_Map, wp_memcpy', wp_logCall, wp_record, wp_CommandAllocatorReset, wp_CommandListReset,
    wp_CommandListClose, wp_ExecuteCommandLists, wp_Present, wp_GetCurrentBackBufferIndex,
    wp_Signal, wp_GetCompletedValue, wp_SetEventOnCompletion, wp_WaitForSingleObject,
    wp_GetHardwareAdapter, World.nextResult, S_OK_eq, FRAME_COUNT, createRenderTargetViews_zero, createRenderTargetViews_succ,
    h, hw, hd, List.tail_nil, List.headD_nil, SUCCEEDED_zero, if_true, true_implies,
    ne_eq, not_true_eq_false, false_implies, and_true, and_self, Bool.false_eq_true, if_false]

theorem LoadAssets_returns (s : Sys) (h : s.world.hresults = []) :
    (LoadAssets s).1 = Res.ok () ∧ (LoadAssets s).2.world.hresults = [] := by
  show wp LoadAssets (fun r t => r = Res.ok () ∧ t.world.hresults = []) s
  unfold LoadAssets
  simp only [wp_bind, wpNext_ok, wp_modifySelf, wp_getSelf, wp_getWorld, wp_ite, wp_dxpure,
    wp_ThrowIfFailed1, wp_ThrowIfFailed, wpNext, wp_callHR, wp_create, wp_D3D12CreateDevice,
    wp_CreateCommandQueue, wp_CreateCommandList, wp_CreateFence, wp_CreateEvent, wp_GetBuffer,
    wp_Map, wp_memcpy', wp_logCall, wp_record, wp_CommandAllocatorReset, wp_CommandListReset,
    wp_CommandListClose, wp_ExecuteCommandLists, wp_Present, wp_GetCurrentBackBufferIndex,
    wp_Signal, wp_GetCompletedValue, wp_SetEventOnCompletion, wp_WaitForSingleObject,
    wp_GetHardwareAdapter, World.nextResult, S_OK_eq, h, List.tail_nil, List.headD_nil, SUCCEEDED_zero, if_true, true_implies,
    ne_eq, not_true_eq_false, false_implies, and_true, and_self, Nat.add_one_ne_zero, if_false]
  exact WaitForPreviousFrame_returns _ rfl ⟨rfl, rfl⟩

theorem Init_returns (p_window : Handle) (assets_path : String) (s : Sys)
    (h : s.world.hresults = []) (hw : s.self.m_use_warp_device = false)
    (hd : s.world.factory.createDeviceResult
      (GetHardwareAdapter.result s.world.factory false) D3D_FEATURE_LEVEL.L11_0 = 0) :
    (Init p_window assets_path s).1 = Res.ok () ∧
      (Init p_window assets_path s).2.world.hresults = [] := by
  show wp (Init p_window assets_path) (fun r t => r = Res.ok () ∧ t.world.hresults = []) s
  unfold Init
  simp only [wp_bind, wpNext_ok, wp_modifySelf, wp_getWorld]
  generalize hs1 : ({ self := _, world := s.world } : Sys) = s1
  have h1 : s1.world.hresults = [] := by rw [← hs1]; exact h
  have hw1 : s1.self.m_use_warp_device = false := by rw [← hs1]; exact hw
  have hd1 : s1.world.factory.createDeviceResult
      (GetHardwareAdapter.result s1.world.factory false) D3D_FEATURE_LEVEL.L11_0 = 0 := by
    rw [← hs1]; exact hd
  obtain ⟨hp1, hp2⟩ := LoadPipeline_returns s1 h1 hw1 hd1
  obtain ⟨ha1, ha2⟩ := LoadAssets_returns (LoadPipeline s1).2 hp2
  show wpNext (fun _ => LoadAssets) _ (LoadPipeline s1).1 (LoadPipeline s1).2
  rw [hp1]
  exact ⟨ha1, ha2⟩

theorem PopulateCommandList_returns (s : Sys) (h : s.world.hresults = []) :
    (PopulateCommandList s).1 = Res.ok () := by
  show wp PopulateCommandList (fun r _ => r = Res.ok ()) s
  unfold PopulateCommandList
  simp only [wp_bind, wpNext_ok, wp_modifySelf, wp_getSelf, wp_getWorld, wp_ite, wp_dxpure,
    wp_ThrowIfFailed1, wp_ThrowIfFailed, wpNext, wp_callHR, wp_create, wp_D3D12CreateDevice,
    wp_CreateCommandQueue, wp_CreateCommandList, wp_CreateFence, wp_CreateEvent, wp_GetBuffer,
    wp_Map, wp_memcpy', wp_logCall, wp_record, wp_CommandAllocatorReset, wp_CommandListReset,
    wp_CommandListClose, wp_ExecuteCommandLists, wp_Present, wp_GetCurrentBackBufferIndex,
    wp_Signal, wp_GetCompletedValue, wp_SetEventOnCompletion, wp_WaitForSingleObject,
    wp_GetHardwareAdapter, World.nextResult, S_OK_eq, h, List.tail_nil, List.headD_nil, SUCCEEDED_zero, if_true, true_implies,
    ne_eq, not_true_eq_false, false_implies, and_true, and_self]

theorem PopulateCommandList_recorded (s : Sys) (hok : (PopulateCommandList s).1 = Res.ok ()) :
    (PopulateCommandList s).2.world.recorded s.self.m_commandList =
      PopulateCommandList.commands s.self s.world := by
  have h := PopulateCommandList_spec s hok
  rw [h]
  simp only [Function.update_same]

/-! ### The frame index follows the swap chain -/

/-- C5: the frame index is what the swap chain reports. After an `Init` that
returns, `m_frameIndex` is the swap chain's current back buffer index (no
`Present` has moved it yet); after every `Render` that returns, `m_frameIndex`
is the index the swap chain moved to at that `Present`, whatever the swap chain
does at a `Present` (`advance` is arbitrary, so nothing like `(i+1) mod 2` is
computed); and the command list that `PopulateCommandList` records names, in
both barriers and in both uses of the render-target-view handle, the back
buffer at the `m_frameIndex` it was called with. -/
theorem C5_frame_index_chain_authoritative (p_window : Handle) (assets_path : String)
    (s : Sys) :
    ((Init p_window assets_path s).1 = Res.ok () →
      (Init p_window assets_path s).2.self.m_frameIndex =
        (Init p_window assets_path s).2.world.backBufferIndex ∧
      (Init p_window assets_path s).2.world.backBufferIndex = s.world.backBufferIndex) ∧
    ((Render s).1 = Res.ok () →
      (Render s).2.self.m_frameIndex = (Render s).2.world.backBufferIndex ∧
      (Render s).2.world.backBufferIndex = s.world.advance s.world.backBufferIndex) ∧
    ((PopulateCommandList s).1 = Res.ok () →
      ((PopulateCommandList s).2.world.recorded s.self.m_commandList).filterMap
          Command.barrierResource =
        [s.self.m_renderTargets s.self.m_frameIndex,
         s.self.m_renderTargets s.self.m_frameIndex] ∧
      ((PopulateCommandList s).2.world.recorded s.self.m_commandList).filterMap
          Command.renderTargetView =
        [s.world.cpuStart s.self.m_rtvHeap + s.self.m_frameIndex * s.self.m_rtvDescriptorSize,
         s.world.cpuStart s.self.m_rtvHeap + s.self.m_frameIndex * s.self.m_rtvDescriptorSize]) := by
  refine ⟨?_, ?_, ?_⟩
  · intro hok
    obtain ⟨hf, _, hb, _⟩ := Init_spec p_window assets_path s hok
    exact ⟨by rw [hf, hb], hb⟩
  · intro hok
    obtain ⟨hself, hworld, _⟩ := Render_spec s hok
    constructor
    · rw [hself, hworld]
    · rw [hworld]
  · intro hok
    rw [PopulateCommandList_recorded s hok]
    exact ⟨rfl, rfl⟩

/-- C5 on the sample machine, where `Init`, `Render` and `PopulateCommandList`
all return. -/
theorem C5_frame_index_chain_authoritative_witness :
    (Init 1 "assets" Sys.sample).1 = Res.ok () ∧
    (Render Sys.sample).1 = Res.ok () ∧
    (PopulateCommandList Sys.sample).1 = Res.ok () ∧
    (Init 1 "assets" Sys.sample).2.self.m_frameIndex =
      (Init 1 "assets" Sys.sample).2.world.backBufferIndex ∧
    (Render Sys.sample).2.self.m_frameIndex = (Render Sys.sample).2.world.backBufferIndex :=
  ⟨(Init_returns 1 "assets" Sys.sample rfl rfl (by decide)).1,
   (Render_returns Sys.sample rfl ⟨rfl, rfl⟩).1,
   PopulateCommandList_returns Sys.sample rfl,
   ((C5_frame_index_chain_authoritative 1 "assets" Sys.sample).1
      (Init_returns 1 "assets" Sys.sample rfl rfl (by decide)).1).1,
   ((C5_frame_index_chain_authoritative 1 "assets" Sys.sample).2.1
      (Render_returns Sys.sample rfl ⟨rfl, rfl⟩).1).1⟩

/-! ### The end-to-end scenario -/

theorem Render_calls_countP_isExecute (o : InterfaceDX12) (pending : Nat) :
    (Render.calls o pending).countP Call.isExecute = 1 := rfl

theorem Render_calls_countP_isPresent (o : InterfaceDX12) (pending : Nat) :
    (Render.calls o pending).countP Call.isPresent = 1 := rfl

theorem scenario_spec (p_window : Handle) (assets_path : String) (s : Sys)
    (hok : (scenario p_window assets_path s).1 = Res.ok ()) :
    (Init p_window assets_path s).1 = Res.ok () ∧
    (scenario p_window assets_path s).2 =
      (Render (Update (Init p_window assets_path s).2).2).2 ∧
    (Update (Init p_window assets_path s).2).2.self.m_frameIndex = s.world.backBufferIndex ∧
    (scenario p_window assets_path s).2.self.m_frameIndex =
      s.world.advance s.world.backBufferIndex ∧
    ∃ initCalls frameCalls,
      (Init p_window assets_path s).2.world.trace = s.world.trace ++ initCalls ∧
      (scenario p_window assets_path s).2.world.trace =
        s.world.trace ++ initCalls ++ frameCalls ∧
      initCalls.countP Call.isExecute = 1 ∧ initCalls.countP Call.isPresent = 0 ∧
      frameCalls.countP Call.isExecute = 1 ∧ frameCalls.countP Call.isPresent = 1 := by
  unfold scenario at hok ⊢
  obtain ⟨u, hinit, e1⟩ := DX.bind_ok _ _ s () hok
  cases u
  rw [e1] at hok ⊢
  have hupd := Update_spec (Init p_window assets_path s).2
  have e2 := DX.bind_of_ok Update (fun _ => Render) (Init p_window assets_path s).2 () hupd.1
  rw [e2] at hok ⊢
  obtain ⟨hf, _, hb, ha, _, initCalls, htr, he, hp, _⟩ := Init_spec p_window assets_path s hinit
  obtain ⟨hself, hworld, c, htrace⟩ := Render_spec _ hok
  obtain ⟨_, huself, huworld⟩ := hupd
  have hfu : (Update (Init p_window assets_path s).2).2.self.m_frameIndex =
      s.world.backBufferIndex := by rw [huself]; exact hf
  have hbu : (Update (Init p_window assets_path s).2).2.world.backBufferIndex =
      s.world.backBufferIndex := by rw [huworld]; exact hb
  have hau : (Update (Init p_window assets_path s).2).2.world.advance = s.world.advance := by
    rw [huworld]; exact ha
  have htu : (Update (Init p_window assets_path s).2).2.world.trace = s.world.trace ++
      initCalls ++ [Call.memcpy (Init p_window assets_path s).2.self.m_pCbvDataBegin
        SceneConstantBuffer.sizeof] := by
    rw [huworld]; simp only; rw [htr]
  refine ⟨hinit, rfl, hfu, ?_, initCalls,
    Call.memcpy (Init p_window assets_path s).2.self.m_pCbvDataBegin SceneConstantBuffer.sizeof ::
      (Render.calls (Update (Init p_window assets_path s).2).2.self
          (Update (Init p_window assets_path s).2).2.world.gpu.pendingLists ++
        WaitForPreviousFrame.calls (Update (Init p_window assets_path s).2).2.self c
          ((Update (Init p_window assets_path s).2).2.world.advance
            (Update (Init p_window assets_path s).2).2.world.backBufferIndex)),
    htr, ?_, he, hp, ?_, ?_⟩
  · rw [hself]
    show (Update (Init p_window assets_path s).2).2.world.advance _ = _
    rw [hau, hbu]
  · show (Render (Update (Init p_window assets_path s).2).2).2.world.trace = _
    rw [htrace, htu]
    simp only [List.append_assoc, List.cons_append, List.nil_append]
  · simp only [List.countP_append, List.countP_cons, List.countP_nil, Call.isExecute,
      Render_calls_countP_isExecute, WaitForPreviousFrame.calls_countP_isExecute,
      Bool.false_eq_true, if_false]
  · simp only [List.countP_append, List.countP_cons, List.countP_nil, Call.isPresent,
      Render_calls_countP_isPresent, WaitForPreviousFrame.calls_countP_isPresent,
      Bool.false_eq_true, if_false]

theorem scenario_returns (p_window : Handle) (assets_path : String) (s : Sys)
    (h : s.world.hresults = []) (hw : s.self.m_use_warp_device = false)
    (hd : s.world.factory.createDeviceResult
      (GetHardwareAdapter.result s.world.factory false) D3D_FEATURE_LEVEL.L11_0 = 0) :
    (scenario p_window assets_path s).1 = Res.ok () := by
  obtain ⟨hinit, hres⟩ := Init_returns p_window assets_path s h hw hd
  obtain ⟨_, _, _, _, hg, _⟩ := Init_spec p_window assets_path s hinit
  obtain ⟨hupd, _, huworld⟩ := Update_spec (Init p_window assets_path s).2
  unfold scenario
  rw [DX.bind_of_ok _ _ s () hinit, DX.bind_of_ok _ _ _ () hupd]
  refine (Render_returns _ ?_ ?_).1
  · rw [huworld]; exact hres
  · rw [huworld]
    show (Init p_window assets_path s).2.world.gpu.Idle
    rw [hg]
    exact ⟨rfl, rfl⟩

/-! ### What a frame records depends on the frame index only -/

theorem Update_commandsAt (s : Sys) :
    (Update s).2.commandsAt = s.commandsAt ∧
      (Update s).2.self.m_commandList = s.self.m_commandList := by
  obtain ⟨_, hself, hworld⟩ := Update_spec s
  unfold Sys.commandsAt
  rw [hself, hworld]
  exact ⟨rfl, rfl⟩

theorem Render_commandsAt (s : Sys) :
    (Render s).2.commandsAt = s.commandsAt ∧
      (Render s).2.self.m_commandList = s.self.m_commandList := by
  show wp Render (fun _ t => t.commandsAt = s.commandsAt ∧
    t.self.m_commandList = s.self.m_commandList) s
  unfold Render PopulateCommandList WaitForPreviousFrame
  simp only [wp_bind, wpNext_ok, wp_modifySelf, wp_getSelf, wp_getWorld, wp_ite, wp_dxpure,
    wp_ThrowIfFailed1, wp_ThrowIfFailed, wpNext, wp_callHR, wp_create, wp_D3D12CreateDevice,
    wp_CreateCommandQueue, wp_CreateCommandList, wp_CreateFence, wp_CreateEvent, wp_GetBuffer,
    wp_Map, wp_memcpy', wp_logCall, wp_record, wp_CommandAllocatorReset, wp_CommandListReset,
    wp_CommandListClose, wp_ExecuteCommandLists, wp_Present, wp_GetCurrentBackBufferIndex,
    wp_Signal, wp_GetCompletedValue, wp_SetEventOnCompletion, wp_WaitForSingleObject,
    wp_GetHardwareAdapter, World.nextResult, S_OK_eq, Sys.commandsAt, PopulateCommandList.commands, implies_true, and_self, ite_self]
  repeat' first | trivial | intro _ | constructor | split

theorem runCalls_commandsAt (l : List HostCall) (s : Sys) :
    (runCalls l s).2.commandsAt = s.commandsAt ∧
      (runCalls l s).2.self.m_commandList = s.self.m_commandList := by
  induction l generalizing s with
  | nil => exact ⟨rfl, rfl⟩
  | cons c rest ih =>
    have hc : (c.run s).2.commandsAt = s.commandsAt ∧
        (c.run s).2.self.m_commandList = s.self.m_commandList := by
      cases c
      · exact Update_commandsAt s
      · exact Render_commandsAt s
    show (DX.bind c.run (fun _ => runCalls rest) s).2.commandsAt = _ ∧
      (DX.bind c.run (fun _ => runCalls rest) s).2.self.m_commandList = _
    unfold DX.bind
    rcases hm : c.run s with ⟨r, t⟩
    rw [hm] at hc
    cases r with
    | ok u =>
      obtain ⟨h1, h2⟩ := ih t
      exact ⟨h1.trans hc.1, h2.trans hc.2⟩
    | threw e => exact hc
    | blocked => exact hc

theorem PopulateCommandList_commandsAt (s : Sys) (hok : (PopulateCommandList s).1 = Res.ok ()) :
    (PopulateCommandList s).2.world.recorded s.self.m_commandList =
      s.commandsAt s.self.m_frameIndex :=
  PopulateCommandList_recorded s hok

theorem Sys.commandsAt_eraseFrame (s : Sys) (i j : Nat) :
    (s.commandsAt i).map Command.eraseFrame = (s.commandsAt j).map Command.eraseFrame := rfl

theorem runCalls_render_returns (s : Sys) (h : s.world.hresults = [])
    (hidle : s.world.gpu.Idle) :
    (runCalls [HostCall.render] s).2.world.hresults = [] := by
  obtain ⟨hok, hres⟩ := Render_returns s h hidle
  show (DX.bind Render (fun _ => DX.pure ()) s).2.world.hresults = []
  have e := DX.bind_of_ok Render (fun _ => DX.pure ()) s () hok
  have e' : DX.bind Render (fun _ => DX.pure ()) s = (Render >>= fun _ => DX.pure ()) s := rfl
  rw [e', e]
  exact hres

/-! ### At most one frame in flight -/

theorem Gpu.done_pendingLists (F : Nat) : (Gpu.done F).pendingLists = 0 := rfl

theorem frame_spec (s : Sys) (hs : s.Synced) (hF : s.self.m_fenceValue + 1 < 2 ^ 64)
    (hok : ((Update >>= fun _ => Render) s).1 = Res.ok ()) :
    ((Update >>= fun _ => Render) s).2.Synced ∧
    ((Update >>= fun _ => Render) s).2.self.m_fenceValue = s.self.m_fenceValue + 1 ∧
    ∃ calls, ((Update >>= fun _ => Render) s).2.world.trace = s.world.trace ++ calls ∧
      ∀ c ∈ calls, c.OneInFlight := by
  obtain ⟨hupd, huself, huworld⟩ := Update_spec s
  have e := DX.bind_of_ok Update (fun _ => Render) s () hupd
  rw [e] at hok ⊢
  have hs1 : (Update s).2.Synced := by
    unfold Sys.Synced
    rw [huself, huworld]
    exact hs
  have hfv : (Update s).2.self.m_fenceValue = s.self.m_fenceValue := by rw [huself]
  obtain ⟨hself, _, c, htrace⟩ := Render_spec _ hok
  have hgpu := Render_synced _ hs1 hok
  have hval : (Render (Update s).2).2.self.m_fenceValue = s.self.m_fenceValue + 1 := by
    rw [hself]
    show ((Update s).2.self.m_fenceValue + 1) % 2 ^ 64 = _
    rw [hfv]
    exact Nat.mod_eq_of_lt hF
  refine ⟨⟨by show 1 ≤ (Render (Update s).2).2.self.m_fenceValue; rw [hval]; omega, ?_⟩,
    hval, ?_⟩
  · show (Render (Update s).2).2.world.gpu = Gpu.done ((Render (Update s).2).2.self.m_fenceValue - 1)
    rw [hgpu, hval, hfv]
    rfl
  · refine ⟨Call.memcpy s.self.m_pCbvDataBegin SceneConstantBuffer.sizeof ::
      (Render.calls (Update s).2.self (Update s).2.world.gpu.pendingLists ++
        WaitForPreviousFrame.calls (Update s).2.self c
          ((Update s).2.world.advance (Update s).2.world.backBufferIndex)), ?_, ?_⟩
    · show (Render (Update s).2).2.world.trace = _
      rw [htrace, huworld]
      simp only [List.append_assoc, List.cons_append, List.nil_append]
    · have hp : (Update s).2.world.gpu.pendingLists = 0 := by
        rw [hs1.2]; rfl
      intro c' hc'
      rcases List.mem_cons.mp hc' with h | h
      · subst h; trivial
      · rcases List.mem_append.mp h with h | h
        · rw [hp] at h
          simp only [Render.calls, List.mem_cons, List.mem_singleton, List.not_mem_nil,
            or_false] at h
          rcases h with h | h | h | h | h <;> subst h <;> simp [Call.OneInFlight]
        · exact WaitForPreviousFrame.calls_oneInFlight _ _ _ c' h

theorem frames_succ (k : Nat) :
    frames (k + 1) = (frames k >>= fun _ => Update >>= fun _ => Render) := rfl

theorem frames_spec (k : Nat) (s : Sys) (hs : s.Synced) (hF : s.self.m_fenceValue + k < 2 ^ 64)
    (hok : (frames k s).1 = Res.ok ()) :
    (frames k s).2.Synced ∧
    (frames k s).2.self.m_fenceValue = s.self.m_fenceValue + k ∧
    ∃ calls, (frames k s).2.world.trace = s.world.trace ++ calls ∧
      ∀ c ∈ calls, c.OneInFlight := by
  induction k with
  | zero => exact ⟨hs, rfl, [], (List.append_nil _).symm, fun c hc => absurd hc (List.not_mem_nil _)⟩
  | succ k ih =>
    rw [frames_succ] at hok ⊢
    obtain ⟨u, hk, e⟩ := DX.bind_ok _ _ s () hok
    cases u
    rw [e] at hok ⊢
    obtain ⟨hsk, hvk, calls1, htr1, ho1⟩ := ih (by omega) hk
    obtain ⟨hs', hv', calls2, htr2, ho2⟩ := frame_spec _ hsk (by rw [hvk]; omega) hok
    refine ⟨hs', by rw [hv', hvk]; omega, calls1 ++ calls2,
      by rw [htr2, htr1, List.append_assoc], ?_⟩
    intro c hc
    rcases List.mem_append.mp hc with h | h
    · exact ho1 c h
    · exact ho2 c h

theorem frames_prefix_ok (k j : Nat) (s : Sys) (hj : j ≤ k) (hok : (frames k s).1 = Res.ok ()) :
    (frames j s).1 = Res.ok () := by
  induction k with
  | zero =>
    have : j = 0 := by omega
    subst this
    exact hok
  | succ k ih =>
    rcases Nat.eq_or_lt_of_le hj with h | h
    · subst h; exact hok
    · rw [frames_succ] at hok
      obtain ⟨u, hk, _⟩ := DX.bind_ok _ _ s () hok
      cases u
      exact ih (by omega) hk

theorem Destroy_spec (s : Sys) (hok : (Destroy s).1 = Res.ok ()) :
    ∃ calls, (Destroy s).2.world.trace = s.world.trace ++ calls ∧
      ∀ c ∈ calls, c.OneInFlight := by
  unfold Destroy at hok ⊢
  obtain ⟨u, hw, e⟩ := DX.bind_ok _ _ s () hok
  cases u
  rw [e]
  obtain ⟨c, htrace⟩ := WaitForPreviousFrame_trace s hw
  refine ⟨WaitForPreviousFrame.calls s.self c s.world.backBufferIndex ++
    [Call.CloseHandle (WaitForPreviousFrame s).2.self.m_fenceEvent], ?_, ?_⟩
  · show ((WaitForPreviousFrame s).2.world.trace ++ _) = _
    rw [htrace, List.append_assoc]
  · intro c' hc'
    rcases List.mem_append.mp hc' with h | h
    · exact WaitForPreviousFrame.calls_oneInFlight _ _ _ c' h
    · rw [List.mem_singleton] at h
      subst h
      trivial

theorem Init_synced (p_window : Handle) (assets_path : String) (s : Sys)
    (hok : (Init p_window assets_path s).1 = Res.ok ()) :
    (Init p_window assets_path s).2.Synced ∧
    (Init p_window assets_path s).2.self.m_fenceValue = 2 := by
  obtain ⟨_, hv, _, _, hg, _⟩ := Init_spec p_window assets_path s hok
  refine ⟨⟨?_, ?_⟩, hv⟩
  · rw [hv]; decide
  · rw [hg, hv]

theorem Sys.Synced.idle {s : Sys} (hs : s.Synced) : s.world.gpu.Idle := by
  rw [hs.2]
  exact ⟨rfl, rfl⟩

theorem frames_returns (k : Nat) (s : Sys) (hs : s.Synced)
    (hF : s.self.m_fenceValue + k < 2 ^ 64) (h : s.world.hresults = []) :
    (frames k s).1 = Res.ok () ∧ (frames k s).2.world.hresults = [] := by
  induction k with
  | zero => exact ⟨rfl, h⟩
  | succ k ih =>
    obtain ⟨hk, hres⟩ := ih (by omega)
    obtain ⟨hsk, _, _⟩ := frames_spec k s hs (by omega) hk
    obtain ⟨hupd, huself, huworld⟩ := Update_spec (frames k s).2
    rw [frames_succ, DX.bind_of_ok _ _ s () hk, DX.bind_of_ok _ _ _ () hupd]
    refine Render_returns _ ?_ ?_
    · rw [huworld]; exact hres
    · rw [huworld]; exact hsk.idle

theorem session_returns (p_window : Handle) (assets_path : String) (k : Nat) (s : Sys)
    (hk : k + 2 < 2 ^ 64)
    (h : s.world.hresults = []) (hw : s.self.m_use_warp_device = false)
    (hd : s.world.factory.createDeviceResult
      (GetHardwareAdapter.result s.world.factory false) D3D_FEATURE_LEVEL.L11_0 = 0) :
    (session p_window assets_path k s).1 = Res.ok () := by
  obtain ⟨hinit, hres⟩ := Init_returns p_window assets_path s h hw hd
  obtain ⟨hsync, hv⟩ := Init_synced p_window assets_path s hinit
  obtain ⟨hfr, hres2⟩ := frames_returns k _ hsync (by rw [hv]; omega) hres
  obtain ⟨hsk, _, _⟩ := frames_spec k _ hsync (by rw [hv]; omega) hfr
  unfold session
  rw [DX.bind_of_ok _ _ s () hinit, DX.bind_of_ok _ _ _ () hfr]
  unfold Destroy
  obtain ⟨hwait, _⟩ := WaitForPreviousFrame_returns _ hres2 hsk.idle
  rw [DX.bind_of_ok _ _ _ () hwait]
  rfl

/-- C10: in a session `Init`, `k` times (`Update`, `Render`), `Destroy` in which
every call returns (and the 64-bit fence counter does not wrap, `k + 2 < 2 ^ 64`),
every reset of the command allocator is made with no submitted command list
outstanding and every submission leaves at most one command list in flight; and
before each frame (after `Init` and `j ≤ k` frames) the GPU queue is empty, the
fence event is idle and the fence has reached the last value signalled,
`m_fenceValue - 1`, so the wait issued after the latest submission has returned. -/
theorem C10_at_most_one_frame_in_flight (p_window : Handle) (assets_path : String)
    (k : Nat) (s : Sys) (hk : k + 2 < 2 ^ 64)
    (hok : (session p_window assets_path k s).1 = Res.ok ()) :
    (∃ calls, (session p_window assets_path k s).2.world.trace = s.world.trace ++ calls ∧
      ∀ c ∈ calls, c.OneInFlight) ∧
    ∀ j, j ≤ k →
      ((Init p_window assets_path >>= fun _ => frames j) s).1 = Res.ok () ∧
      ((Init p_window assets_path >>= fun _ => frames j) s).2.Synced ∧
      ((Init p_window assets_path >>= fun _ => frames j) s).2.world.gpu.pendingLists = 0 ∧
      ((Init p_window assets_path >>= fun _ => frames j) s).2.world.gpu.fenceCompleted + 1 =
        ((Init p_window assets_path >>= fun _ => frames j) s).2.self.m_fenceValue := by
  unfold session at hok ⊢
  obtain ⟨u, hinit, e⟩ := DX.bind_ok _ _ s () hok
  cases u
  rw [e] at hok ⊢
  obtain ⟨u, hfr, e2⟩ := DX.bind_ok _ _ _ () hok
  cases u
  rw [e2] at hok ⊢
  obtain ⟨hsync, hv⟩ := Init_synced p_window assets_path s hinit
  obtain ⟨_, _, _, _, _, calls0, htr0, _, _, ho0⟩ := Init_spec p_window assets_path s hinit
  obtain ⟨_, _, calls1, htr1, ho1⟩ := frames_spec k _ hsync (by rw [hv]; omega) hfr
  obtain ⟨calls2, htr2, ho2⟩ := Destroy_spec _ hok
  refine ⟨⟨calls0 ++ (calls1 ++ calls2), ?_, ?_⟩, ?_⟩
  · rw [htr2, htr1, htr0]
    simp only [List.append_assoc]
  · intro c hc
    rcases List.mem_append.mp hc with h | h
    · exact ho0 c h
    · rcases List.mem_append.mp h with h | h
      · exact ho1 c h
      · exact ho2 c h
  · intro j hj
    have hj_ok := frames_prefix_ok k j _ hj hfr
    obtain ⟨hsj, hvj, _⟩ := frames_spec j _ hsync (by rw [hv]; omega) hj_ok
    rw [DX.bind_of_ok _ _ s () hinit]
    refine ⟨hj_ok, hsj, ?_, ?_⟩
    · rw [hsj.2]; rfl
    · rw [hsj.2]
      show _ - 1 + 1 = _
      have := hsj.1
      omega

/-- C10 on the sample machine, with one frame. -/
theorem C10_at_most_one_frame_in_flight_witness :
    (session 1 "assets" 1 Sys.sample).1 = Res.ok () ∧
    ((∃ calls, (session 1 "assets" 1 Sys.sample).2.world.trace =
        Sys.sample.world.trace ++ calls ∧ ∀ c ∈ calls, c.OneInFlight) ∧
    ∀ j, j ≤ 1 →
      ((Init 1 "assets" >>= fun _ => frames j) Sys.sample).1 = Res.ok () ∧
      ((Init 1 "assets" >>= fun _ => frames j) Sys.sample).2.Synced ∧
      ((Init 1 "assets" >>= fun _ => frames j) Sys.sample).2.world.gpu.pendingLists = 0 ∧
      ((Init 1 "assets" >>= fun _ => frames j) Sys.sample).2.world.gpu.fenceCompleted + 1 =
        ((Init 1 "assets" >>= fun _ => frames j) Sys.sample).2.self.m_fenceValue) :=
  ⟨session_returns 1 "assets" 1 Sys.sample (by norm_num) rfl rfl (by decide),
   C10_at_most_one_frame_in_flight 1 "assets" 1 Sys.sample (by norm_num)
     (session_returns 1 "assets" 1 Sys.sample (by norm_num) rfl rfl (by decide))⟩

/-! ### Adapter selection -/

theorem GetHardwareAdapter.loop_cons_passes (level : D3D_FEATURE_LEVEL) (x : Adapter)
    (xs : List Adapter) (h : Spec.passes level x) :
    GetHardwareAdapter.loop level (x :: xs) = some x := by
  unfold GetHardwareAdapter.loop
  rw [if_neg (not_not.mpr h.1), if_pos h.2]

theorem GetHardwareAdapter.loop_cons_fails (level : D3D_FEATURE_LEVEL) (x : Adapter)
    (xs : List Adapter) (h : ¬ Spec.passes level x) :
    GetHardwareAdapter.loop level (x :: xs) = GetHardwareAdapter.loop level xs := by
  rw [GetHardwareAdapter.loop]
  by_cases hf : x.Flags &&& DXGI_ADAPTER_FLAG_SOFTWARE = 0
  · rw [if_neg (not_not.mpr hf), if_neg (fun hs => h ⟨hf, hs⟩)]
  · rw [if_pos hf]

theorem GetHardwareAdapter.loop_none (level : D3D_FEATURE_LEVEL) (l : List Adapter) :
    GetHardwareAdapter.loop level l = none ↔ ∀ b ∈ l, ¬ Spec.passes level b := by
  induction l with
  | nil => exact ⟨fun _ b hb => absurd hb (List.not_mem_nil b), fun _ => rfl⟩
  | cons x xs ih =>
    by_cases h : Spec.passes level x
    · rw [GetHardwareAdapter.loop_cons_passes level x xs h]
      exact ⟨fun e => Option.noConfusion e, fun hall => absurd h (hall x (List.mem_cons_self x xs))⟩
    · rw [GetHardwareAdapter.loop_cons_fails level x xs h, ih]
      exact ⟨fun hall b hb => by
          rcases List.mem_cons.mp hb with e | e
          · rw [e]; exact h
          · exact hall b e,
        fun hall b hb => hall b (List.mem_cons_of_mem x hb)⟩

theorem GetHardwareAdapter.loop_some (level : D3D_FEATURE_LEVEL) (l : List Adapter)
    (a : Adapter) :
    GetHardwareAdapter.loop level l = some a ↔ Spec.IsFirstPassing level l a := by
  induction l with
  | nil =>
    refine ⟨fun e => Option.noConfusion e, ?_⟩
    rintro ⟨before, after, e, _⟩
    exact absurd e (by simp)
  | cons x xs ih =>
    by_cases h : Spec.passes level x
    · rw [GetHardwareAdapter.loop_cons_passes level x xs h]
      constructor
      · intro e
        have e' : x = a := Option.some.inj e
        subst e'
        exact ⟨[], xs, rfl, h, fun b hb => absurd hb (List.not_mem_nil b)⟩
      · rintro ⟨before, after, e, _, hb⟩
        cases before with
        | nil =>
          have := (List.cons.inj e).1
          rw [this]
        | cons y ys =>
          have := (List.cons.inj e).1
          exact absurd h (this ▸ hb y (List.mem_cons_self y ys))
    · rw [GetHardwareAdapter.loop_cons_fails level x xs h, ih]
      constructor
      · rintro ⟨before, after, e, ha, hb⟩
        refine ⟨x :: before, after, by rw [e]; rfl, ha, ?_⟩
        intro b hmem
        rcases List.mem_cons.mp hmem with e' | e'
        · rw [e']; exact h
        · exact hb b e'
      · rintro ⟨before, after, e, ha, hb⟩
        cases before with
        | nil =>
          have := (List.cons.inj e).1
          exact absurd (this ▸ ha) h
        | cons y ys =>
          exact ⟨ys, after, (List.cons.inj e).2, ha,
            fun b hmem => hb b (List.mem_cons_of_mem y hmem)⟩

theorem GetHardwareAdapter.result_some (f : Factory) (hp : Bool) (a : Adapter)
    (h : GetHardwareAdapter.result f hp = some a) :
    (∃ f6, f.factory6 = some f6 ∧
        Spec.IsFirstPassing D3D_FEATURE_LEVEL.L12_0 (f6.byGpuPreference hp) a) ∨
    ((∀ f6, f.factory6 = some f6 →
        ∀ b ∈ f6.byGpuPreference hp, ¬ Spec.passes D3D_FEATURE_LEVEL.L12_0 b) ∧
      Spec.IsFirstPassing D3D_FEATURE_LEVEL.L11_0 f.adapters a) := by
  unfold GetHardwareAdapter.result at h
  cases h6 : f.factory6 with
  | none =>
    rw [h6] at h
    simp only [if_true] at h
    exact Or.inr ⟨fun f6 e => Option.noConfusion e,
      (GetHardwareAdapter.loop_some _ _ _).mp h⟩
  | some f6 =>
    rw [h6] at h
    simp only at h
    by_cases hn : GetHardwareAdapter.loop D3D_FEATURE_LEVEL.L12_0
        (if hp = true then f6.highPerformance else f6.unspecified) = none
    · rw [if_pos hn] at h
      refine Or.inr ⟨fun f6' e => ?_, (GetHardwareAdapter.loop_some _ _ _).mp h⟩
      have : f6 = f6' := Option.some.inj e
      subst this
      exact (GetHardwareAdapter.loop_none _ _).mp hn
    · rw [if_neg hn] at h
      exact Or.inl ⟨f6, rfl, (GetHardwareAdapter.loop_some _ _ _).mp h⟩

theorem GetHardwareAdapter.result_none (f : Factory) (hp : Bool) :
    GetHardwareAdapter.result f hp = none ↔
    ((∀ f6, f.factory6 = some f6 →
        ∀ b ∈ f6.byGpuPreference hp, ¬ Spec.passes D3D_FEATURE_LEVEL.L12_0 b) ∧
      ∀ b ∈ f.adapters, ¬ Spec.passes D3D_FEATURE_LEVEL.L11_0 b) := by
  unfold GetHardwareAdapter.result
  cases h6 : f.factory6 with
  | none =>
    simp only [if_true, GetHardwareAdapter.loop_none]
    exact ⟨fun h => ⟨fun f6 e => Option.noConfusion e, h⟩, fun h => h.2⟩
  | some f6 =>
    simp only
    by_cases hn : GetHardwareAdapter.loop D3D_FEATURE_LEVEL.L12_0
        (if hp = true then f6.highPerformance else f6.unspecified) = none
    · rw [if_pos hn, GetHardwareAdapter.loop_none]
      refine ⟨fun h => ⟨fun f6' e => ?_, h⟩, fun h => h.2⟩
      have : f6 = f6' := Option.some.inj e
      subst this
      exact (GetHardwareAdapter.loop_none _ _).mp hn
    · rw [if_neg hn]
      refine ⟨fun h => absurd h hn, fun h => ?_⟩
      exact absurd ((GetHardwareAdapter.loop_none _ _).mpr (h.1 f6 rfl)) hn
theorem GetHardwareAdapter.result_some_iff (f : Factory) (hp : Bool) (a : Adapter) :
    GetHardwareAdapter.result f hp = some a ↔
    ((∃ f6, f.factory6 = some f6 ∧
        Spec.IsFirstPassing D3D_FEATURE_LEVEL.L12_0 (f6.byGpuPreference hp) a) ∨
    ((∀ f6, f.factory6 = some f6 →
        ∀ b ∈ f6.byGpuPreference hp, ¬ Spec.passes D3D_FEATURE_LEVEL.L12_0 b) ∧
      Spec.IsFirstPassing D3D_FEATURE_LEVEL.L11_0 f.adapters a)) := by
  refine ⟨GetHardwareAdapter.result_some f hp a, ?_⟩
  unfold GetHardwareAdapter.result
  rintro (⟨f6, h6, h⟩ | ⟨hnone, h⟩)
  · rw [h6]
    have hs := (GetHardwareAdapter.loop_some _ _ _).mpr h
    have hs' : GetHardwareAdapter.loop D3D_FEATURE_LEVEL.L12_0
        (if hp = true then f6.highPerformance else f6.unspecified) = some a := hs
    simp only [hs', reduceCtorEq, if_false]
  · have hs := (GetHardwareAdapter.loop_some _ _ _).mpr h
    cases h6 : f.factory6 with
    | none => simp only [if_true, hs]
    | some f6 =>
      have hn : GetHardwareAdapter.loop D3D_FEATURE_LEVEL.L12_0
          (if hp = true then f6.highPerformance else f6.unspecified) = none :=
        (GetHardwareAdapter.loop_none _ _).mpr (hnone f6 h6)
      simp only [hn, if_true, hs]


theorem LoadPipeline_device_fails (s : Sys) (h : s.world.hresults = [])
    (hw : s.self.m_use_warp_device = false)
    (hd : s.world.factory.createDeviceResult
      (GetHardwareAdapter.result s.world.factory false) D3D_FEATURE_LEVEL.L11_0 ≠ 0) :
    (LoadPipeline s).1 = Res.threw ("Creating device object" ++ " " ++
      toString (s.world.factory.createDeviceResult
        (GetHardwareAdapter.result s.world.factory false) D3D_FEATURE_LEVEL.L11_0)) := by
  show wp LoadPipeline (fun r _ => r = Res.threw ("Creating device object" ++ " " ++
      toString (s.world.factory.createDeviceResult
        (GetHardwareAdapter.result s.world.factory false) D3D_FEATURE_LEVEL.L11_0))) s
  unfold LoadPipeline
  simp only [wp_bind, wpNext_ok, wp_modifySelf, wp_getSelf, wp_getWorld, wp_ite, wp_dxpure,
    wp_ThrowIfFailed1, wp_ThrowIfFailed, wpNext, wp_callHR, wp_create, wp_D3D12CreateDevice,
    wp_CreateCommandQueue, wp_CreateCommandList, wp_CreateFence, wp_CreateEvent, wp_GetBuffer,
    wp_Map, wp_memcpy', wp_logCall, wp_record, wp_CommandAllocatorReset, wp_CommandListReset,
    wp_CommandListClose, wp_ExecuteCommandLists, wp_Present, wp_GetCurrentBackBufferIndex,
    wp_Signal, wp_GetCompletedValue, wp_SetEventOnCompletion, wp_WaitForSingleObject,
    wp_GetHardwareAdapter, World.nextResult, S_OK_eq, FRAME_COUNT, createRenderTargetViews_zero, createRenderTargetViews_succ,
    h, hw, hd, List.tail_nil, List.headD_nil, SUCCEEDED_zero, if_true, true_implies,
    ne_eq, not_true_eq_false, false_implies, and_true, and_self, Bool.false_eq_true, if_false,
    not_false_eq_true, true_and]

/-- C8 as written does not hold: on a machine whose only adapter is the software
adapter, every adapter of every enumeration is software-flagged, and yet
`GetHardwareAdapter` returns normally, with a null adapter, and `LoadPipeline`
returns normally too. -/
theorem C8_counterexample :
    (∀ b ∈ Factory.softwareOnly.adapters, b.Flags &&& DXGI_ADAPTER_FLAG_SOFTWARE ≠ 0) ∧
    (∀ f6, Factory.softwareOnly.factory6 = some f6 →
      ∀ b ∈ f6.byGpuPreference false, b.Flags &&& DXGI_ADAPTER_FLAG_SOFTWARE ≠ 0) ∧
    GetHardwareAdapter Factory.softwareOnly false Sys.softwareOnly =
      (Res.ok none, Sys.softwareOnly) ∧
    (LoadPipeline Sys.softwareOnly).1 = Res.ok () :=
  ⟨by decide,
   fun f6 e => by
    have e' : f6 = { unspecified := [Adapter.software], highPerformance := [Adapter.software] } :=
      (Option.some.inj e).symm
    subst e'
    decide,
   rfl,
   (LoadPipeline_returns Sys.softwareOnly rfl rfl (by decide)).1⟩

/-- C8, amended: when every adapter of the enumerations is software-flagged or
fails the dry-run device creation (at 12_0 by GPU preference, at 11_0 in plain
order), `GetHardwareAdapter` raises no error: it returns normally with a null
adapter and changes nothing. `LoadPipeline` then creates the device on the null
adapter at feature level 11_0: with every other call succeeding it returns
normally when that creation answers `S_OK`, and otherwise throws the runtime
error "Creating device object" followed by the result code. -/
theorem C8_no_match_yields_null_adapter (f : Factory) (hp : Bool) (s : Sys)
    (h12 : ∀ f6, f.factory6 = some f6 → ∀ b ∈ f6.byGpuPreference hp,
      b.Flags &&& DXGI_ADAPTER_FLAG_SOFTWARE ≠ 0 ∨
        SUCCEEDED (b.createDevice D3D_FEATURE_LEVEL.L12_0) = false)
    (h11 : ∀ b ∈ f.adapters,
      b.Flags &&& DXGI_ADAPTER_FLAG_SOFTWARE ≠ 0 ∨
        SUCCEEDED (b.createDevice D3D_FEATURE_LEVEL.L11_0) = false) :
    GetHardwareAdapter f hp s = (Res.ok none, s) ∧
    (hp = false → s.world.factory = f → s.self.m_use_warp_device = false →
      s.world.hresults = [] →
      (f.createDeviceResult none D3D_FEATURE_LEVEL.L11_0 = 0 →
        (LoadPipeline s).1 = Res.ok ()) ∧
      (f.createDeviceResult none D3D_FEATURE_LEVEL.L11_0 ≠ 0 →
        (LoadPipeline s).1 = Res.threw ("Creating device object" ++ " " ++
          toString (f.createDeviceResult none D3D_FEATURE_LEVEL.L11_0)))) := by
  have hfail : ∀ (level : D3D_FEATURE_LEVEL) (b : Adapter),
      (b.Flags &&& DXGI_ADAPTER_FLAG_SOFTWARE ≠ 0 ∨ SUCCEEDED (b.createDevice level) = false) →
      ¬ Spec.passes level b := by
    intro level b hb hp'
    rcases hb with hb | hb
    · exact hb hp'.1
    · rw [hp'.2] at hb
      exact Bool.noConfusion hb
  have hnone : GetHardwareAdapter.result f hp = none :=
    (GetHardwareAdapter.result_none f hp).mpr
      ⟨fun f6 e b hb => hfail _ b (h12 f6 e b hb), fun b hb => hfail _ b (h11 b hb)⟩
  refine ⟨?_, ?_⟩
  · show (Res.ok (GetHardwareAdapter.result f hp), s) = _
    rw [hnone]
  · intro hhp hf hw hres
    subst hhp
    subst hf
    refine ⟨fun hd => ?_, fun hd => ?_⟩
    · exact (LoadPipeline_returns s hres hw (by rw [hnone]; exact hd)).1
    · have := LoadPipeline_device_fails s hres hw (by rw [hnone]; exact hd)
      rw [hnone] at this
      exact this

/-- C8, amended, on the machine whose only adapter is the software adapter. -/
theorem C8_no_match_yields_null_adapter_witness :
    GetHardwareAdapter Factory.softwareOnly false Sys.softwareOnly =
      (Res.ok none, Sys.softwareOnly) ∧
    (LoadPipeline Sys.softwareOnly).1 = Res.ok () :=
  have h := C8_no_match_yields_null_adapter Factory.softwareOnly false Sys.softwareOnly
    (fun f6 e => by
      have e' : f6 =
          { unspecified := [Adapter.software], highPerformance := [Adapter.software] } :=
        (Option.some.inj e).symm
      subst e'
      decide)
    (by decide)
  ⟨h.1, (h.2 rfl rfl rfl rfl).1 (by decide)⟩

/-- C9: `GetHardwareAdapter` always returns, changes nothing, and the adapter it
yields is never software-flagged; it yields the adapter `a` exactly when either
the enumeration by GPU preference is available and `a` is the first adapter in
preference order that is not software-flagged and passes the dry-run device
creation at feature level 12_0, or no adapter of that enumeration passes (or the
enumeration is not available) and `a` is the first adapter in plain index order
that is not software-flagged and passes the dry run at feature level 11_0. -/
theorem C9_GetHardwareAdapter_first_passing_candidate (f : Factory) (hp : Bool) (s : Sys) :
    ∃ r, GetHardwareAdapter f hp s = (Res.ok r, s) ∧
      (∀ a, r = some a → a.Flags &&& DXGI_ADAPTER_FLAG_SOFTWARE = 0) ∧
      ∀ a, r = some a ↔
        ((∃ f6, f.factory6 = some f6 ∧
            Spec.IsFirstPassing D3D_FEATURE_LEVEL.L12_0 (f6.byGpuPreference hp) a) ∨
         ((∀ f6, f.factory6 = some f6 →
            ∀ b ∈ f6.byGpuPreference hp, ¬ Spec.passes D3D_FEATURE_LEVEL.L12_0 b) ∧
          Spec.IsFirstPassing D3D_FEATURE_LEVEL.L11_0 f.adapters a)) := by
  refine ⟨GetHardwareAdapter.result f hp, rfl, ?_, GetHardwareAdapter.result_some_iff f hp⟩
  intro a ha
  rcases GetHardwareAdapter.result_some f hp a ha with ⟨_, _, _, _, _, hpass, _⟩ |
    ⟨_, _, _, _, hpass, _⟩
  · exact hpass.1
  · exact hpass.1

/-- C9 on a factory that enumerates a software adapter, a hardware adapter
without feature level 12_0 and a hardware adapter with it. -/
theorem C9_GetHardwareAdapter_first_passing_candidate_witness :
    ∃ r, GetHardwareAdapter Factory.mixed false Sys.sample = (Res.ok r, Sys.sample) ∧
      (∀ a, r = some a → a.Flags &&& DXGI_ADAPTER_FLAG_SOFTWARE = 0) ∧
      ∀ a, r = some a ↔
        ((∃ f6, Factory.mixed.factory6 = some f6 ∧
            Spec.IsFirstPassing D3D_FEATURE_LEVEL.L12_0 (f6.byGpuPreference false) a) ∨
         ((∀ f6, Factory.mixed.factory6 = some f6 →
            ∀ b ∈ f6.byGpuPreference false, ¬ Spec.passes D3D_FEATURE_LEVEL.L12_0 b) ∧
          Spec.IsFirstPassing D3D_FEATURE_LEVEL.L11_0 Factory.mixed.adapters a)) :=
  C9_GetHardwareAdapter_first_passing_candidate Factory.mixed false Sys.sample

theorem GetHardwareAdapter_mixed :
    GetHardwareAdapter.result Factory.mixed false = some Adapter.hardware ∧
    GetHardwareAdapter.result { Factory.mixed with factory6 := none } false =
      some Adapter.legacy := by
  decide

/-! ### A failed step of `Render` -/

theorem Render_fails_allocator_reset (s : Sys) (hr : HRESULT) (rest : List HRESULT)
    (h : s.world.hresults = hr :: rest) (hne : hr ≠ 0) :
    (Render s).1 = Res.threw ("Resetting command allocator" ++ " " ++ toString hr) ∧
    (Render s).2.self = s.self ∧
    (Render s).2.world.gpu = s.world.gpu ∧
    (Render s).2.world.backBufferIndex = s.world.backBufferIndex ∧
    (Render s).2.world.recorded = s.world.recorded ∧
    (Render s).2.world.trace = s.world.trace ++
      [Call.CommandAllocatorReset s.self.m_commandAllocator hr s.world.gpu.pendingLists] := by
  show wp Render (fun r t =>
    r = Res.threw ("Resetting command allocator" ++ " " ++ toString hr) ∧
    t.self = s.self ∧ t.world.gpu = s.world.gpu ∧
    t.world.backBufferIndex = s.world.backBufferIndex ∧
    t.world.recorded = s.world.recorded ∧
    t.world.trace = s.world.trace ++
      [Call.CommandAllocatorReset s.self.m_commandAllocator hr s.world.gpu.pendingLists]) s
  unfold Render PopulateCommandList
  simp only [wp_bind, wpNext_ok, wp_modifySelf, wp_getSelf, wp_getWorld, wp_ite, wp_dxpure,
    wp_ThrowIfFailed1, wp_ThrowIfFailed, wpNext, wp_callHR, wp_create, wp_D3D12CreateDevice,
    wp_CreateCommandQueue, wp_CreateCommandList, wp_CreateFence, wp_CreateEvent, wp_GetBuffer,
    wp_Map, wp_memcpy', wp_logCall, wp_record, wp_CommandAllocatorReset, wp_CommandListReset,
    wp_CommandListClose, wp_ExecuteCommandLists, wp_Present, wp_GetCurrentBackBufferIndex,
    wp_Signal, wp_GetCompletedValue, wp_SetEventOnCompletion, wp_WaitForSingleObject,
    wp_GetHardwareAdapter, World.nextResult, S_OK_eq, h, hne, List.headD_cons, List.tail_cons, false_implies, true_and, and_self,
    ne_eq, not_false_eq_true, true_implies]

theorem Render_fails_list_reset (s : Sys) (hr : HRESULT) (rest : List HRESULT)
    (h : s.world.hresults = 0 :: hr :: rest) (hne : hr ≠ 0) :
    (Render s).1 = Res.threw ("Resetting command list" ++ " " ++ toString hr) ∧
    (Render s).2.self = s.self ∧
    (Render s).2.world.gpu = s.world.gpu ∧
    (Render s).2.world.backBufferIndex = s.world.backBufferIndex ∧
    (Render s).2.world.trace = s.world.trace ++
      [Call.CommandAllocatorReset s.self.m_commandAllocator 0 s.world.gpu.pendingLists,
       Call.CommandListReset s.self.m_commandList s.self.m_commandAllocator
         s.self.m_pipelineState hr] := by
  show wp Render (fun r t =>
    r = Res.threw ("Resetting command list" ++ " " ++ toString hr) ∧
    t.self = s.self ∧ t.world.gpu = s.world.gpu ∧
    t.world.backBufferIndex = s.world.backBufferIndex ∧
    t.world.trace = s.world.trace ++
      [Call.CommandAllocatorReset s.self.m_commandAllocator 0 s.world.gpu.pendingLists,
       Call.CommandListReset s.self.m_commandList s.self.m_commandAllocator
         s.self.m_pipelineState hr]) s
  unfold Render PopulateCommandList
  simp only [wp_bind, wpNext_ok, wp_modifySelf, wp_getSelf, wp_getWorld, wp_ite, wp_dxpure,
    wp_ThrowIfFailed1, wp_ThrowIfFailed, wpNext, wp_callHR, wp_create, wp_D3D12CreateDevice,
    wp_CreateCommandQueue, wp_CreateCommandList, wp_CreateFence, wp_CreateEvent, wp_GetBuffer,
    wp_Map, wp_memcpy', wp_logCall, wp_record, wp_CommandAllocatorReset, wp_CommandListReset,
    wp_CommandListClose, wp_ExecuteCommandLists, wp_Present, wp_GetCurrentBackBufferIndex,
    wp_Signal, wp_GetCompletedValue, wp_SetEventOnCompletion, wp_WaitForSingleObject,
    wp_GetHardwareAdapter, World.nextResult, S_OK_eq, h, hne, List.headD_cons, List.tail_cons, false_implies, true_and, and_self,
    ne_eq, not_false_eq_true, true_implies, not_true_eq_false, and_true,
    List.append_assoc, List.cons_append, List.nil_append]

theorem Render_fails_close (s : Sys) (hr : HRESULT) (rest : List HRESULT)
    (h : s.world.hresults = 0 :: 0 :: hr :: rest) (hne : hr ≠ 0) :
    (Render s).1 = Res.threw ("Closing command list" ++ " " ++ toString hr) ∧
    (Render s).2.self = s.self ∧
    (Render s).2.world.gpu = s.world.gpu ∧
    (Render s).2.world.backBufferIndex = s.world.backBufferIndex ∧
    (Render s).2.world.trace = s.world.trace ++
      [Call.CommandAllocatorReset s.self.m_commandAllocator 0 s.world.gpu.pendingLists,
       Call.CommandListReset s.self.m_commandList s.self.m_commandAllocator
         s.self.m_pipelineState 0,
       Call.CommandListClose s.self.m_commandList hr] := by
  show wp Render (fun r t =>
    r = Res.threw ("Closing command list" ++ " " ++ toString hr) ∧
    t.self = s.self ∧ t.world.gpu = s.world.gpu ∧
    t.world.backBufferIndex = s.world.backBufferIndex ∧
    t.world.trace = s.world.trace ++
      [Call.CommandAllocatorReset s.self.m_commandAllocator 0 s.world.gpu.pendingLists,
       Call.CommandListReset s.self.m_commandList s.self.m_commandAllocator
         s.self.m_pipelineState 0,
       Call.CommandListClose s.self.m_commandList hr]) s
  unfold Render PopulateCommandList
  simp only [wp_bind, wpNext_ok, wp_modifySelf, wp_getSelf, wp_getWorld, wp_ite, wp_dxpure,
    wp_ThrowIfFailed1, wp_ThrowIfFailed, wpNext, wp_callHR, wp_create, wp_D3D12CreateDevice,
    wp_CreateCommandQueue, wp_CreateCommandList, wp_CreateFence, wp_CreateEvent, wp_GetBuffer,
    wp_Map, wp_memcpy', wp_logCall, wp_record, wp_CommandAllocatorReset, wp_CommandListReset,
    wp_CommandListClose, wp_ExecuteCommandLists, wp_Present, wp_GetCurrentBackBufferIndex,
    wp_Signal, wp_GetCompletedValue, wp_SetEventOnCompletion, wp_WaitForSingleObject,
    wp_GetHardwareAdapter, World.nextResult, S_OK_eq, h, hne, List.headD_cons, List.tail_cons, false_implies, true_and, and_self,
    ne_eq, not_false_eq_true, true_implies, not_true_eq_false, and_true,
    List.append_assoc, List.cons_append, List.nil_append]

theorem Render_fails_present (s : Sys) (hr : HRESULT) (rest : List HRESULT)
    (h : s.world.hresults = 0 :: 0 :: 0 :: hr :: rest) (hne : hr ≠ 0) :
    (Render s).1 = Res.threw ("Presenting swapchain" ++ " " ++ toString hr) ∧
    (Render s).2.self = s.self ∧
    (Render s).2.world.gpu = s.world.gpu.push
      (QueueItem.commandLists [PopulateCommandList.commands s.self s.world]) ∧
    (Render s).2.world.trace = s.world.trace ++
      [Call.CommandAllocatorReset s.self.m_commandAllocator 0 s.world.gpu.pendingLists,
       Call.CommandListReset s.self.m_commandList s.self.m_commandAllocator
         s.self.m_pipelineState 0,
       Call.CommandListClose s.self.m_commandList 0,
       Call.ExecuteCommandLists [s.self.m_commandList] (s.world.gpu.pendingLists + 1),
       Call.Present 1 0 hr] := by
  show wp Render (fun r t =>
    r = Res.threw ("Presenting swapchain" ++ " " ++ toString hr) ∧
    t.self = s.self ∧
    t.world.gpu = s.world.gpu.push
      (QueueItem.commandLists [PopulateCommandList.commands s.self s.world]) ∧
    t.world.trace = s.world.trace ++
      [Call.CommandAllocatorReset s.self.m_commandAllocator 0 s.world.gpu.pendingLists,
       Call.CommandListReset s.self.m_commandList s.self.m_commandAllocator
         s.self.m_pipelineState 0,
       Call.CommandListClose s.self.m_commandList 0,
       Call.ExecuteCommandLists [s.self.m_commandList] (s.world.gpu.pendingLists + 1),
       Call.Present 1 0 hr]) s
  unfold Render PopulateCommandList
  simp only [wp_bind, wpNext_ok, wp_modifySelf, wp_getSelf, wp_getWorld, wp_ite, wp_dxpure,
    wp_ThrowIfFailed1, wp_ThrowIfFailed, wpNext, wp_callHR, wp_create, wp_D3D12CreateDevice,
    wp_CreateCommandQueue, wp_CreateCommandList, wp_CreateFence, wp_CreateEvent, wp_GetBuffer,
    wp_Map, wp_memcpy', wp_logCall, wp_record, wp_CommandAllocatorReset, wp_CommandListReset,
    wp_CommandListClose, wp_ExecuteCommandLists, wp_Present, wp_GetCurrentBackBufferIndex,
    wp_Signal, wp_GetCompletedValue, wp_SetEventOnCompletion, wp_WaitForSingleObject,
    wp_GetHardwareAdapter, World.nextResult, S_OK_eq, h, hne, List.headD_cons, List.tail_cons, false_implies, true_and, and_self,
    ne_eq, not_false_eq_true, true_implies, not_true_eq_false, and_true,
    List.append_assoc, List.cons_append, List.nil_append, SUCCEEDED_zero, if_true,
    List.map_cons, List.map_nil, appendAt, clearAt, List.length_singleton,
    PopulateCommandList.commands]

/-- C11: a result other than `S_OK` from the allocator `Reset`, the command-list
`Reset`, the command-list `Close` or `Present` makes `Render` throw at once, with
the message of that step, and the failed call is the last call that `Render`
makes (no retry, no later step). After a failed recording step nothing is
submitted (the queue is as before), nothing is presented and the object is
unchanged; after a failed `Present` the list has been submitted, no fence signal
is issued and the object, with `m_fenceValue` and `m_frameIndex`, is unchanged. -/
theorem C11_render_failure_is_fatal (s : Sys) (hr : HRESULT) (rest : List HRESULT)
    (hne : hr ≠ S_OK) :
    (s.world.hresults = hr :: rest →
      (Render s).1 = Res.threw ("Resetting command allocator" ++ " " ++ toString hr) ∧
      (Render s).2.self = s.self ∧
      (Render s).2.world.gpu = s.world.gpu ∧
      (Render s).2.world.backBufferIndex = s.world.backBufferIndex ∧
      (Render s).2.world.recorded = s.world.recorded ∧
      (Render s).2.world.trace = s.world.trace ++
        [Call.CommandAllocatorReset s.self.m_commandAllocator hr s.world.gpu.pendingLists]) ∧
    (s.world.hresults = S_OK :: hr :: rest →
      (Render s).1 = Res.threw ("Resetting command list" ++ " " ++ toString hr) ∧
      (Render s).2.self = s.self ∧
      (Render s).2.world.gpu = s.world.gpu ∧
      (Render s).2.world.backBufferIndex = s.world.backBufferIndex ∧
      (Render s).2.world.trace = s.world.trace ++
        [Call.CommandAllocatorReset s.self.m_commandAllocator 0 s.world.gpu.pendingLists,
         Call.CommandListReset s.self.m_commandList s.self.m_commandAllocator
           s.self.m_pipelineState hr]) ∧
    (s.world.hresults = S_OK :: S_OK :: hr :: rest →
      (Render s).1 = Res.threw ("Closing command list" ++ " " ++ toString hr) ∧
      (Render s).2.self = s.self ∧
      (Render s).2.world.gpu = s.world.gpu ∧
      (Render s).2.world.backBufferIndex = s.world.backBufferIndex ∧
      (Render s).2.world.trace = s.world.trace ++
        [Call.CommandAllocatorReset s.self.m_commandAllocator 0 s.world.gpu.pendingLists,
         Call.CommandListReset s.self.m_commandList s.self.m_commandAllocator
           s.self.m_pipelineState 0,
         Call.CommandListClose s.self.m_commandList hr]) ∧
    (s.world.hresults = S_OK :: S_OK :: S_OK :: hr :: rest →
      (Render s).1 = Res.threw ("Presenting swapchain" ++ " " ++ toString hr) ∧
      (Render s).2.self = s.self ∧
      (Render s).2.world.gpu = s.world.gpu.push
        (QueueItem.commandLists [PopulateCommandList.commands s.self s.world]) ∧
      (Render s).2.world.trace = s.world.trace ++
        [Call.CommandAllocatorReset s.self.m_commandAllocator 0 s.world.gpu.pendingLists,
         Call.CommandListReset s.self.m_commandList s.self.m_commandAllocator
           s.self.m_pipelineState 0,
         Call.CommandListClose s.self.m_commandList 0,
         Call.ExecuteCommandLists [s.self.m_commandList] (s.world.gpu.pendingLists + 1),
         Call.Present 1 0 hr]) :=
  ⟨fun h => Render_fails_allocator_reset s hr rest h hne,
   fun h => Render_fails_list_reset s hr rest h hne,
   fun h => Render_fails_close s hr rest h hne,
   fun h => Render_fails_present s hr rest h hne⟩

/-- C11 on the sample machine with a `Present` that reports a removed device. -/
theorem C11_render_failure_is_fatal_witness :
    DXGI_ERROR_DEVICE_REMOVED ≠ S_OK ∧
    (Render Sys.presentFails).1 =
      Res.threw ("Presenting swapchain" ++ " " ++ toString DXGI_ERROR_DEVICE_REMOVED) ∧
    (Render Sys.presentFails).2.self.m_fenceValue = Sys.presentFails.self.m_fenceValue ∧
    (Render Sys.presentFails).2.self.m_frameIndex = Sys.presentFails.self.m_frameIndex ∧
    (Render Sys.presentFails).2.world.trace.filterMap Call.signalValue = [] :=
  have h := (C11_render_failure_is_fatal Sys.presentFails DXGI_ERROR_DEVICE_REMOVED []
    (by decide)).2.2.2 rfl
  ⟨by decide, h.1, by rw [h.2.1], by rw [h.2.1], by rw [h.2.2.2]; rfl⟩

/-! ### Waiting twice -/

theorem WaitForPreviousFrame_not_blocked (s : Sys) (hidle : s.world.gpu.Idle) :
    (WaitForPreviousFrame s).1 ≠ Res.blocked := by
  show wp WaitForPreviousFrame (fun r _ => r ≠ Res.blocked) s
  unfold WaitForPreviousFrame
  simp only [wp_bind, wpNext_ok, wp_modifySelf, wp_getSelf, wp_getWorld, wp_ite, wp_dxpure,
    wp_ThrowIfFailed1, wp_ThrowIfFailed, wpNext, wp_callHR, wp_create, wp_D3D12CreateDevice,
    wp_CreateCommandQueue, wp_CreateCommandList, wp_CreateFence, wp_CreateEvent, wp_GetBuffer,
    wp_Map, wp_memcpy', wp_logCall, wp_record, wp_CommandAllocatorReset, wp_CommandListReset,
    wp_CommandListClose, wp_ExecuteCommandLists, wp_Present, wp_GetCurrentBackBufferIndex,
    wp_Signal, wp_GetCompletedValue, wp_SetEventOnCompletion, wp_WaitForSingleObject,
    wp_GetHardwareAdapter, World.nextResult, S_OK_eq, ne_eq, reduceCtorEq, not_false_eq_true, implies_true, and_true]
  intro h1
  simp only [h1, SUCCEEDED_zero, if_true]
  have hrun := Gpu.run_idle (s.world.gpuProgress.headD 0)
    (s.world.gpu.push (QueueItem.signal s.self.m_fenceValue))
    (Gpu.push_idle _ _ hidle)
  split
  · rename_i hlt
    intro h2
    simp only [h2, SUCCEEDED_zero, if_true]
    have hmem := Gpu.mem_queue_run s.self.m_fenceValue (s.world.gpuProgress.headD 0)
      (s.world.gpu.push (QueueItem.signal s.self.m_fenceValue))
      (by simp [Gpu.push])
    have hmem' : QueueItem.signal s.self.m_fenceValue ∈
        (Gpu.run (s.world.gpuProgress.headD 0)
          (s.world.gpu.push (QueueItem.signal s.self.m_fenceValue))).queue := by
      rcases hmem with h' | h'
      · exact absurd hlt (Nat.not_lt.mpr h')
      · exact h'
    have hset : (Gpu.setEventOnCompletion (Gpu.run (s.world.gpuProgress.headD 0)
          (s.world.gpu.push (QueueItem.signal s.self.m_fenceValue))) s.self.m_fenceValue).queue
        = (Gpu.run (s.world.gpuProgress.headD 0)
          (s.world.gpu.push (QueueItem.signal s.self.m_fenceValue))).queue := by
      unfold Gpu.setEventOnCompletion
      split <;> rfl
    obtain ⟨g', hg'⟩ := Gpu.waitLoop_returns s.self.m_fenceValue _ _
      (Gpu.setEventOnCompletion_armed s.self.m_fenceValue _ hrun)
      (Or.inr (by rw [hset]; exact hmem')) (Nat.le_refl _)
    unfold Gpu.waitForEvent
    rw [hg']
    trivial
  · trivial

theorem WaitForPreviousFrame_idle (s : Sys) (hidle : s.world.gpu.Idle)
    (hok : (WaitForPreviousFrame s).1 = Res.ok ()) :
    (WaitForPreviousFrame s).2.world.gpu.Idle :=
  (WaitForPreviousFrame_fence s hidle hok).2.1

/-- C12: two calls of `WaitForPreviousFrame` in a row, the first with the fence
event idle and nothing submitted in between, never leave the thread blocked:
neither the first call nor the pair ends blocked in `WaitForSingleObject`
(the queue retires every signal it was given), and when no API call reports a
failure both calls return. -/
theorem C12_double_wait_does_not_deadlock (s : Sys) (hidle : s.world.gpu.Idle) :
    (WaitForPreviousFrame s).1 ≠ Res.blocked ∧
    ((WaitForPreviousFrame >>= fun _ => WaitForPreviousFrame) s).1 ≠ Res.blocked ∧
    (s.world.hresults = [] →
      (WaitForPreviousFrame s).1 = Res.ok () ∧
      (WaitForPreviousFrame (WaitForPreviousFrame s).2).1 = Res.ok () ∧
      ((WaitForPreviousFrame >>= fun _ => WaitForPreviousFrame) s).1 = Res.ok ()) := by
  have h1 := WaitForPreviousFrame_not_blocked s hidle
  refine ⟨h1, ?_, ?_⟩
  · cases hr : (WaitForPreviousFrame s).1 with
    | ok u =>
      rw [DX.bind_of_ok _ _ s u hr]
      exact WaitForPreviousFrame_not_blocked _ (WaitForPreviousFrame_idle s hidle hr)
    | threw e =>
      have : ((WaitForPreviousFrame >>= fun _ => WaitForPreviousFrame) s).1 = Res.threw e := by
        show (DX.bind WaitForPreviousFrame (fun _ => WaitForPreviousFrame) s).1 = Res.threw e
        unfold DX.bind
        rcases hm : WaitForPreviousFrame s with ⟨r, t⟩
        rw [hm] at hr
        simp only at hr
        subst hr
        rfl
      rw [this]
      exact fun h => Res.noConfusion h
    | blocked => exact absurd hr h1
  · intro hres
    obtain ⟨hok, hres'⟩ := WaitForPreviousFrame_returns s hres hidle
    obtain ⟨hok2, _⟩ := WaitForPreviousFrame_returns _ hres'
      (WaitForPreviousFrame_idle s hidle hok)
    refine ⟨hok, hok2, ?_⟩
    rw [DX.bind_of_ok _ _ s () hok]
    exact hok2

/-- C12 on the sample machine at its first wait: the GPU has retired nothing,
so both calls have to wait for the fence. -/
theorem C12_double_wait_does_not_deadlock_witness :
    Sys.beforeFirstWait.world.gpu.Idle ∧
    (WaitForPreviousFrame Sys.beforeFirstWait).1 = Res.ok () ∧
    (WaitForPreviousFrame (WaitForPreviousFrame Sys.beforeFirstWait).2).1 = Res.ok () :=
  have h := (C12_double_wait_does_not_deadlock Sys.beforeFirstWait ⟨rfl, rfl⟩).2.2 rfl
  ⟨⟨rfl, rfl⟩, h.1, h.2.1⟩

/-! ### The steps of a frame -/

/-- C13: a `Render` that returns has made exactly these calls, in this order:
the three calls of `PopulateCommandList` (allocator reset, list reset, close),
which leave the frame's commands in `m_commandList`; one `ExecuteCommandLists`
with the batch `[m_commandList]`; one `Present(1, 0)`; then the calls of
`WaitForPreviousFrame`: one `Signal` with the fence value on entry, the read of
the completed value, the wait if that value is behind, and the read of the back
buffer index, which becomes `m_frameIndex`. -/
theorem C13_Render_steps_in_order (s : Sys) (hok : (Render s).1 = Res.ok ()) :
    (∃ c, (Render s).2.world.trace = s.world.trace ++
      [Call.CommandAllocatorReset s.self.m_commandAllocator 0 s.world.gpu.pendingLists,
       Call.CommandListReset s.self.m_commandList s.self.m_commandAllocator
         s.self.m_pipelineState 0,
       Call.CommandListClose s.self.m_commandList 0,
       Call.ExecuteCommandLists [s.self.m_commandList] (s.world.gpu.pendingLists + 1),
       Call.Present 1 0 0,
       Call.Signal s.self.m_fence s.self.m_fenceValue 0,
       Call.GetCompletedValue s.self.m_fence c] ++
      (if c < s.self.m_fenceValue then
        [Call.SetEventOnCompletion s.self.m_fence s.self.m_fenceValue s.self.m_fenceEvent 0,
         Call.WaitForSingleObject s.self.m_fenceEvent]
       else []) ++
      [Call.GetCurrentBackBufferIndex (s.world.advance s.world.backBufferIndex)]) ∧
    (Render s).2.world.recorded s.self.m_commandList =
      PopulateCommandList.commands s.self s.world ∧
    (Render s).2.self.m_frameIndex = s.world.advance s.world.backBufferIndex ∧
    (Render s).2.self.m_frameIndex = (Render s).2.world.backBufferIndex ∧
    (Render s).2.self.m_fenceValue = (s.self.m_fenceValue + 1) % 2 ^ 64 := by
  obtain ⟨hself, hworld, c, htrace⟩ := Render_spec s hok
  refine ⟨⟨c, ?_⟩, ?_, ?_, ?_, ?_⟩
  · rw [htrace]
    simp only [Render.calls, WaitForPreviousFrame.calls, List.append_assoc, List.cons_append,
      List.nil_append]
  · rw [hworld]
    exact Function.update_same _ _ _
  · rw [hself]
  · rw [hself, hworld]
  · rw [hself]

/-- C13 on the sample machine. -/
theorem C13_Render_steps_in_order_witness :
    (Render Sys.sample).1 = Res.ok () ∧
    (Render Sys.sample).2.self.m_frameIndex = 1 ∧
    (Render Sys.sample).2.world.recorded Sys.sample.self.m_commandList =
      PopulateCommandList.commands Sys.sample.self Sys.sample.world :=
  have hok := (Render_returns Sys.sample rfl ⟨rfl, rfl⟩).1
  have h := C13_Render_steps_in_order Sys.sample hok
  ⟨hok, h.2.2.1, h.2.1⟩

/-! ### The back buffer between its two barriers -/

theorem Spec.run_commands (o : InterfaceDX12) (w : World) (viewOf : Nat → Option Handle)
    (t : Spec.Tracked)
    (hview : viewOf (w.cpuStart o.m_rtvHeap + o.m_frameIndex * o.m_rtvDescriptorSize) =
      some (o.m_renderTargets o.m_frameIndex))
    (hstate : t.states (o.m_renderTargets o.m_frameIndex) = D3D12_RESOURCE_STATES.PRESENT) :
    Spec.run viewOf t (PopulateCommandList.commands o w) =
      some { states := t.states, bound := some (o.m_renderTargets o.m_frameIndex) } := by
  have hback : Function.update t.states (o.m_renderTargets o.m_frameIndex)
      D3D12_RESOURCE_STATES.PRESENT = t.states := by
    rw [← hstate]
    exact Function.update_eq_self _ _
  simp only [PopulateCommandList.commands, Spec.run, Spec.step, hview, hstate, if_true,
    Function.update_same, Function.update_idem, hback]

theorem Spec.run_until_clear (o : InterfaceDX12) (w : World) (viewOf : Nat → Option Handle)
    (t : Spec.Tracked)
    (hview : viewOf (w.cpuStart o.m_rtvHeap + o.m_frameIndex * o.m_rtvDescriptorSize) =
      some (o.m_renderTargets o.m_frameIndex))
    (hstate : t.states (o.m_renderTargets o.m_frameIndex) = D3D12_RESOURCE_STATES.PRESENT) :
    Spec.run viewOf t ((PopulateCommandList.commands o w).take 8) =
      some { states := Function.update t.states (o.m_renderTargets o.m_frameIndex)
               D3D12_RESOURCE_STATES.RENDER_TARGET,
             bound := some (o.m_renderTargets o.m_frameIndex) } := by
  simp only [PopulateCommandList.commands, List.take, Spec.run, Spec.step, hview, hstate,
    if_true]

/-- C14: for a frame index below `FRAME_COUNT`, the command list that a
returning `PopulateCommandList` records holds exactly two barriers, both on the
back buffer of that index: the first from present to render target, the last
from render target to present; the list ends with the first barrier, the
render-target bind, the clear, the bundle execution and the second barrier, in
this order, and nothing before them is a barrier or uses a render target. Under
the rule that a resource must be in the state its next operation expects, with
the bound view referring to that back buffer: if every back buffer is in the
present state before the list executes, every command finds its resource in the
expected state, after the first eight commands (up to the bind) the back buffer
is in the render-target state, where the clear and the draw find it, and after
the whole list every resource is in the state it had before, every back buffer
in the present state. -/
theorem C14_back_buffer_state_invariant (s : Sys) (hi : s.self.m_frameIndex < FRAME_COUNT)
    (hok : (PopulateCommandList s).1 = Res.ok ()) :
    ((PopulateCommandList s).2.world.recorded s.self.m_commandList).filter Command.isBarrier =
      [Command.ResourceBarrier (s.self.m_renderTargets s.self.m_frameIndex)
         D3D12_RESOURCE_STATES.PRESENT D3D12_RESOURCE_STATES.RENDER_TARGET,
       Command.ResourceBarrier (s.self.m_renderTargets s.self.m_frameIndex)
         D3D12_RESOURCE_STATES.RENDER_TARGET D3D12_RESOURCE_STATES.PRESENT] ∧
    (∃ earlier,
      (PopulateCommandList s).2.world.recorded s.self.m_commandList = earlier ++
        [Command.ResourceBarrier (s.self.m_renderTargets s.self.m_frameIndex)
           D3D12_RESOURCE_STATES.PRESENT D3D12_RESOURCE_STATES.RENDER_TARGET,
         Command.OMSetRenderTargets (s.world.cpuStart s.self.m_rtvHeap +
           s.self.m_frameIndex * s.self.m_rtvDescriptorSize),
         Command.ClearRenderTargetView (s.world.cpuStart s.self.m_rtvHeap +
           s.self.m_frameIndex * s.self.m_rtvDescriptorSize) [0.0, 0.2, 0.4, 1.0],
         Command.ExecuteBundle s.self.m_bundleCommandList,
         Command.ResourceBarrier (s.self.m_renderTargets s.self.m_frameIndex)
           D3D12_RESOURCE_STATES.RENDER_TARGET D3D12_RESOURCE_STATES.PRESENT] ∧
      ∀ c ∈ earlier, c.isBarrier = false ∧ c.usesRenderTarget = false) ∧
    ∀ (viewOf : Nat → Option Handle) (t : Spec.Tracked),
      viewOf (s.world.cpuStart s.self.m_rtvHeap +
          s.self.m_frameIndex * s.self.m_rtvDescriptorSize) =
        some (s.self.m_renderTargets s.self.m_frameIndex) →
      (∀ n, n < FRAME_COUNT →
        t.states (s.self.m_renderTargets n) = D3D12_RESOURCE_STATES.PRESENT) →
      Spec.run viewOf t
          (((PopulateCommandList s).2.world.recorded s.self.m_commandList).take 8) =
        some { states := Function.update t.states (s.self.m_renderTargets s.self.m_frameIndex)
                 D3D12_RESOURCE_STATES.RENDER_TARGET,
               bound := some (s.self.m_renderTargets s.self.m_frameIndex) } ∧
      ∃ after,
        Spec.run viewOf t ((PopulateCommandList s).2.world.recorded s.self.m_commandList) =
          some after ∧
        after.states = t.states ∧
        ∀ n, n < FRAME_COUNT →
          after.states (s.self.m_renderTargets n) = D3D12_RESOURCE_STATES.PRESENT := by
  rw [PopulateCommandList_recorded s hok]
  refine ⟨rfl, ⟨(PopulateCommandList.commands s.self s.world).take 6, rfl, ?_⟩, ?_⟩
  · intro c hc
    simp only [PopulateCommandList.commands, List.take, List.mem_cons, List.mem_singleton,
      List.not_mem_nil, or_false] at hc
    rcases hc with h | h | h | h | h | h <;> subst h <;> exact ⟨rfl, rfl⟩
  · intro viewOf t hview hstates
    exact ⟨Spec.run_until_clear s.self s.world viewOf t hview (hstates _ hi), _,
      Spec.run_commands s.self s.world viewOf t hview (hstates _ hi), rfl, hstates⟩

/-- C14 on the sample machine, with every view referring to back buffer 0. -/
theorem C14_back_buffer_state_invariant_witness :
    Sys.sample.self.m_frameIndex < FRAME_COUNT ∧
    (PopulateCommandList Sys.sample).1 = Res.ok () ∧
    ∃ after,
      Spec.run (fun _ => some 0)
          { states := fun _ => D3D12_RESOURCE_STATES.PRESENT, bound := none }
          ((PopulateCommandList Sys.sample).2.world.recorded Sys.sample.self.m_commandList) =
        some after ∧
      after.states = (fun _ => D3D12_RESOURCE_STATES.PRESENT) ∧
      ∀ n, n < FRAME_COUNT →
        after.states (Sys.sample.self.m_renderTargets n) = D3D12_RESOURCE_STATES.PRESENT :=
  have hok := PopulateCommandList_returns Sys.sample rfl
  ⟨by decide, hok,
   ((C14_back_buffer_state_invariant Sys.sample (by decide) hok).2.2 (fun _ => some 0)
      { states := fun _ => D3D12_RESOURCE_STATES.PRESENT, bound := none } rfl
      (fun _ _ => rfl)).2⟩

/-! ### What `Init` sets up -/

theorem LoadPipeline_setup (s : Sys) :
    wp LoadPipeline (fun r t => r = Res.ok () →
      t.self = { s.self with
        m_device := t.self.m_device
        m_commandQueue := t.self.m_commandQueue
        m_swapChain := t.self.m_swapChain
        m_frameIndex := s.world.backBufferIndex
        m_rtvHeap := t.self.m_rtvHeap
        m_rtvDescriptorSize := s.world.incrementSize D3D12_DESCRIPTOR_HEAP_TYPE.RTV
        m_srvHeap := t.self.m_srvHeap
        m_srvDescriptorSize := s.world.incrementSize D3D12_DESCRIPTOR_HEAP_TYPE.CBV_SRV_UAV
        m_renderTargets := Function.update (Function.update s.self.m_renderTargets 0
          (s.world.backBuffers.getD 0 0)) 1 (s.world.backBuffers.getD 1 0)
        m_commandAllocator := t.self.m_commandAllocator
        m_bundleCommandAllocator := t.self.m_bundleCommandAllocator } ∧
      t.world = { s.world with
        hresults := t.world.hresults
        nextHandle := t.world.nextHandle
        gpu := t.world.gpu
        trace := t.world.trace } ∧
      ∃ calls, t.world.trace = s.world.trace ++ calls ∧
        calls.filter Call.isSetup =
          [Call.CreateDescriptorHeap D3D12_DESCRIPTOR_HEAP_TYPE.RTV FRAME_COUNT false 0
             t.self.m_rtvHeap,
           Call.CreateDescriptorHeap D3D12_DESCRIPTOR_HEAP_TYPE.CBV_SRV_UAV 2 true 0
             t.self.m_srvHeap,
           Call.CreateRenderTargetView (s.world.backBuffers.getD 0 0)
             (s.world.cpuStart t.self.m_rtvHeap),
           Call.CreateRenderTargetView (s.world.backBuffers.getD 1 0)
             (s.world.cpuStart t.self.m_rtvHeap +
               1 * s.world.incrementSize D3D12_DESCRIPTOR_HEAP_TYPE.RTV)]) s := by
  unfold LoadPipeline
  simp only [wp_bind, wpNext_ok, wp_modifySelf, wp_getSelf, wp_getWorld, wp_ite, wp_dxpure,
    wp_ThrowIfFailed1, wp_ThrowIfFailed, wpNext, wp_callHR, wp_create, wp_D3D12CreateDevice,
    wp_CreateCommandQueue, wp_CreateCommandList, wp_CreateFence, wp_CreateEvent, wp_GetBuffer,
    wp_Map, wp_memcpy', wp_logCall, wp_record, wp_CommandAllocatorReset, wp_CommandListReset,
    wp_CommandListClose, wp_ExecuteCommandLists, wp_Present, wp_GetCurrentBackBufferIndex,
    wp_Signal, wp_GetCompletedValue, wp_SetEventOnCompletion, wp_WaitForSingleObject,
    wp_GetHardwareAdapter, World.nextResult, S_OK_eq, FRAME_COUNT, createRenderTargetViews_zero, createRenderTargetViews_succ,
    reduceCtorEq, false_implies, implies_true, and_true, true_implies, List.append_assoc,
    List.append_cancel_left_eq, exists_eq_left', List.cons_append, List.nil_append]
  intro h0
  split <;>
  · intros
    simp only [*, SUCCEEDED_zero, if_true, true_and, and_true, List.filter_cons,
      List.filter_nil, Call.isSetup, Bool.false_eq_true, if_false, World.log]

theorem WaitForPreviousFrame.calls_filter_isSetup (o : InterfaceDX12) (c index : Nat) :
    (WaitForPreviousFrame.calls o c index).filter Call.isSetup =
      [Call.Signal o.m_fence o.m_fenceValue 0] := by
  unfold WaitForPreviousFrame.calls
  split <;> rfl

theorem SceneConstantBuffer.floats_length (c : SceneConstantBuffer) : c.floats.length = 64 := by
  simp [SceneConstantBuffer.floats]

theorem SceneConstantBuffer.sizeof_div : SceneConstantBuffer.sizeof / sizeof_float = 64 := rfl

theorem writeAt_floats (memory : Nat → List ℚ) (dest : Nat) (c : SceneConstantBuffer) :
    (writeAt memory dest (c.floats.take (SceneConstantBuffer.sizeof / sizeof_float)) dest).take 64
      = c.floats := by
  have hl := SceneConstantBuffer.floats_length c
  rw [SceneConstantBuffer.sizeof_div, List.take_of_length_le (Nat.le_of_eq hl)]
  unfold writeAt
  rw [if_pos rfl, List.take_append_of_le_length (Nat.le_of_eq hl.symm),
    List.take_of_length_le (Nat.le_of_eq hl)]

theorem LoadAssets_setup (s : Sys) :
    wp LoadAssets (fun r t => r = Res.ok () →
      t.self = { s.self with
        m_rootSignature := t.self.m_rootSignature
        m_pipelineState := t.self.m_pipelineState
        m_commandList := t.self.m_commandList
        m_vertexBuffer := t.self.m_vertexBuffer
        m_vertexBufferView := t.self.m_vertexBufferView
        m_bundleCommandList := t.self.m_bundleCommandList
        m_texture := t.self.m_texture
        m_constantBuffer := t.self.m_constantBuffer
        m_pCbvDataBegin := t.self.m_constantBuffer
        m_fence := t.self.m_fence
        m_fenceEvent := t.self.m_fenceEvent
        m_fenceValue := 2
        m_frameIndex := s.world.backBufferIndex } ∧
      t.world.cpuStart = s.world.cpuStart ∧
      t.world.gpuStart = s.world.gpuStart ∧
      t.world.gpuVirtualAddress = s.world.gpuVirtualAddress ∧
      t.world.incrementSize = s.world.incrementSize ∧
      (t.world.memory t.self.m_pCbvDataBegin).take 64 = s.self.m_constantBufferData.floats ∧
      ∃ calls, t.world.trace = s.world.trace ++ calls ∧
        calls.filter Call.isSetup =
          [Call.CreateCommittedResource D3D12_HEAP_TYPE.UPLOAD (3 * Vertex.sizeof)
             D3D12_RESOURCE_STATES.GENERIC_READ 0 t.self.m_vertexBuffer,
           Call.memcpy t.self.m_vertexBuffer (3 * Vertex.sizeof),
           Call.CreateCommittedResource D3D12_HEAP_TYPE.DEFAULT TextureWidth
             D3D12_RESOURCE_STATES.COPY_DEST 0 t.self.m_texture,
           Call.CreateCommittedResource D3D12_HEAP_TYPE.UPLOAD s.world.requiredIntermediateSize
             D3D12_RESOURCE_STATES.GENERIC_READ 0 (t.self.m_texture + 1),
           Call.CreateShaderResourceView t.self.m_texture (s.world.cpuStart s.self.m_srvHeap),
           Call.CreateCommittedResource D3D12_HEAP_TYPE.UPLOAD SceneConstantBuffer.sizeof
             D3D12_RESOURCE_STATES.GENERIC_READ 0 t.self.m_constantBuffer,
           Call.CreateConstantBufferView (s.world.gpuVirtualAddress t.self.m_constantBuffer)
             SceneConstantBuffer.sizeof
             (s.world.cpuStart s.self.m_srvHeap + 1 * s.self.m_srvDescriptorSize),
           Call.memcpy t.self.m_pCbvDataBegin SceneConstantBuffer.sizeof,
           Call.CreateFence 0 0 t.self.m_fence,
           Call.Signal t.self.m_fence 1 0]) s := by
  unfold LoadAssets
  simp only [wp_bind, wpNext_ok, wp_modifySelf, wp_getSelf, wp_getWorld, wp_ite, wp_dxpure,
    wp_ThrowIfFailed1, wp_ThrowIfFailed, wpNext, wp_callHR, wp_create, wp_D3D12CreateDevice,
    wp_CreateCommandQueue, wp_CreateCommandList, wp_CreateFence, wp_CreateEvent, wp_GetBuffer,
    wp_Map, wp_memcpy', wp_logCall, wp_record, wp_CommandAllocatorReset, wp_CommandListReset,
    wp_CommandListClose, wp_ExecuteCommandLists, wp_Present, wp_GetCurrentBackBufferIndex,
    wp_Signal, wp_GetCompletedValue, wp_SetEventOnCompletion, wp_WaitForSingleObject,
    wp_GetHardwareAdapter, World.nextResult, S_OK_eq, reduceCtorEq, false_implies, implies_true, and_true, true_implies]
  intros
  simp only [*, SUCCEEDED_zero, if_true]
  by_cases he : s.world.hresults.tail.tail.tail.tail.tail.tail.tail.tail.tail.tail.tail.tail.tail.tail.tail.tail.tail.headD 0 = 0
  · simp only [he, if_true, Nat.add_one_ne_zero, if_false]
    show (WaitForPreviousFrame _).1 = Res.ok () → _
    intro hok
    obtain ⟨hself, hworld⟩ := WaitForPreviousFrame_state _ hok
    obtain ⟨c, htrace⟩ := WaitForPreviousFrame_trace _ hok
    simp only at hself hworld htrace
    refine ⟨?_, ?_, ?_, ?_, ?_, ?_, ?_⟩
    · rw [hself]
      rfl
    · rw [hworld]
    · rw [hworld]
    · rw [hworld]
    · rw [hworld]
    · rw [hworld, hself]
      exact writeAt_floats _ _ _
    · rw [htrace, hself]
      simp only [List.append_assoc, List.append_cancel_left_eq, exists_eq_left',
        List.cons_append, List.nil_append, List.filter_cons, List.filter_append,
        List.filter_nil, Call.isSetup, Bool.false_eq_true, if_false, if_true,
        WaitForPreviousFrame.calls_filter_isSetup]
  · simp only [he, if_false, if_true, false_implies]

theorem Init_setup (p_window : Handle) (assets_path : String) (s : Sys) :
    wp (Init p_window assets_path) (fun r t => r = Res.ok () →
      t.self.m_rtvDescriptorSize = s.world.incrementSize D3D12_DESCRIPTOR_HEAP_TYPE.RTV ∧
      t.self.m_srvDescriptorSize =
        s.world.incrementSize D3D12_DESCRIPTOR_HEAP_TYPE.CBV_SRV_UAV ∧
      t.self.m_renderTargets = Function.update (Function.update s.self.m_renderTargets 0
          (s.world.backBuffers.getD 0 0)) 1 (s.world.backBuffers.getD 1 0) ∧
      t.self.m_fenceValue = 2 ∧
      t.self.m_pCbvDataBegin = t.self.m_constantBuffer ∧
      t.self.m_constantBufferData = SceneConstantBuffer.zero ∧
      t.world.cpuStart = s.world.cpuStart ∧
      t.world.gpuStart = s.world.gpuStart ∧
      t.world.gpuVirtualAddress = s.world.gpuVirtualAddress ∧
      t.world.incrementSize = s.world.incrementSize ∧
      (t.world.memory t.self.m_pCbvDataBegin).take 64 = SceneConstantBuffer.zero.floats ∧
      ∃ calls, t.world.trace = s.world.trace ++ calls ∧
        calls.filter Call.isSetup =
          [Call.CreateDescriptorHeap D3D12_DESCRIPTOR_HEAP_TYPE.RTV FRAME_COUNT false 0
             t.self.m_rtvHeap,
           Call.CreateDescriptorHeap D3D12_DESCRIPTOR_HEAP_TYPE.CBV_SRV_UAV 2 true 0
             t.self.m_srvHeap,
           Call.CreateRenderTargetView (s.world.backBuffers.getD 0 0)
             (s.world.cpuStart t.self.m_rtvHeap),
           Call.CreateRenderTargetView (s.world.backBuffers.getD 1 0)
             (s.world.cpuStart t.self.m_rtvHeap +
               1 * s.world.incrementSize D3D12_DESCRIPTOR_HEAP_TYPE.RTV),
           Call.CreateCommittedResource D3D12_HEAP_TYPE.UPLOAD (3 * Vertex.sizeof)
             D3D12_RESOURCE_STATES.GENERIC_READ 0 t.self.m_vertexBuffer,
           Call.memcpy t.self.m_vertexBuffer (3 * Vertex.sizeof),
           Call.CreateCommittedResource D3D12_HEAP_TYPE.DEFAULT TextureWidth
             D3D12_RESOURCE_STATES.COPY_DEST 0 t.self.m_texture,
           Call.CreateCommittedResource D3D12_HEAP_TYPE.UPLOAD s.world.requiredIntermediateSize
             D3D12_RESOURCE_STATES.GENERIC_READ 0 (t.self.m_texture + 1),
           Call.CreateShaderResourceView t.self.m_texture (s.world.cpuStart t.self.m_srvHeap),
           Call.CreateCommittedResource D3D12_HEAP_TYPE.UPLOAD SceneConstantBuffer.sizeof
             D3D12_RESOURCE_STATES.GENERIC_READ 0 t.self.m_constantBuffer,
           Call.CreateConstantBufferView (s.world.gpuVirtualAddress t.self.m_constantBuffer)
             SceneConstantBuffer.sizeof
             (s.world.cpuStart t.self.m_srvHeap +
               1 * s.world.incrementSize D3D12_DESCRIPTOR_HEAP_TYPE.CBV_SRV_UAV),
           Call.memcpy t.self.m_pCbvDataBegin SceneConstantBuffer.sizeof,
           Call.CreateFence 0 0 t.self.m_fence,
           Call.Signal t.self.m_fence 1 0]) s := by
  unfold Init
  simp only [wp_bind, wpNext_ok, wp_modifySelf, wp_getWorld]
  refine wp_mono _ _ _ _ (LoadPipeline_setup _) ?_
  intro r t1 h1
  cases r with
  | threw e => simp only [wpNext, reduceCtorEq, false_implies]
  | blocked => simp only [wpNext, reduceCtorEq, false_implies]
  | ok u =>
    obtain ⟨hs1, hw1, calls1, htr1, hf1⟩ := h1 rfl
    simp only at hs1 hw1 htr1 hf1
    simp only [wpNext]
    refine wp_mono _ _ _ _ (LoadAssets_setup t1) ?_
    intro r2 t h2 hok
    obtain ⟨hs2, hc2, hg2, hv2, hi2, hm2, calls2, htr2, hf2⟩ := h2 hok
    have e1 : t.self.m_rtvHeap = t1.self.m_rtvHeap := by rw [hs2]
    have e2 : t.self.m_srvHeap = t1.self.m_srvHeap := by rw [hs2]
    have e3 : t1.self.m_srvDescriptorSize =
        s.world.incrementSize D3D12_DESCRIPTOR_HEAP_TYPE.CBV_SRV_UAV := by rw [hs1]
    have e4 : t1.self.m_constantBufferData = SceneConstantBuffer.zero := by rw [hs1]
    have c1 : t1.world.cpuStart = s.world.cpuStart := by rw [hw1]
    have c2 : t1.world.gpuStart = s.world.gpuStart := by rw [hw1]
    have c3 : t1.world.gpuVirtualAddress = s.world.gpuVirtualAddress := by rw [hw1]
    have c4 : t1.world.incrementSize = s.world.incrementSize := by rw [hw1]
    have c5 : t1.world.requiredIntermediateSize = s.world.requiredIntermediateSize := by
      rw [hw1]
    refine ⟨?_, ?_, ?_, ?_, ?_, ?_, ?_, ?_, ?_, ?_, ?_, calls1 ++ calls2, ?_, ?_⟩
    · have : t.self.m_rtvDescriptorSize = t1.self.m_rtvDescriptorSize := by rw [hs2]
      rw [this, hs1]
    · have : t.self.m_srvDescriptorSize = t1.self.m_srvDescriptorSize := by rw [hs2]
      rw [this, e3]
    · have : t.self.m_renderTargets = t1.self.m_renderTargets := by rw [hs2]
      rw [this, hs1]
    · rw [hs2]
    · rw [hs2]
    · have : t.self.m_constantBufferData = t1.self.m_constantBufferData := by rw [hs2]
      rw [this, e4]
    · rw [hc2, c1]
    · rw [hg2, c2]
    · rw [hv2, c3]
    · rw [hi2, c4]
    · rw [hm2, e4]
    · rw [htr2, htr1, List.append_assoc]
    · rw [List.filter_append, hf1, hf2, e1, e2, e3, c1, c3, c5]
      rfl
theorem List.filter_filter_of_imp {α : Type} (p q : α → Bool)
    (h : ∀ a, q a = true → p a = true) (l : List α) :
    (l.filter p).filter q = l.filter q := by
  induction l with
  | nil => rfl
  | cons a l ih =>
    by_cases hq : q a = true
    · rw [List.filter_cons_of_pos (h a hq), List.filter_cons_of_pos hq,
        List.filter_cons_of_pos hq, ih]
    · by_cases hp : p a = true
      · rw [List.filter_cons_of_pos hp, List.filter_cons_of_neg hq,
          List.filter_cons_of_neg hq, ih]
      · rw [List.filter_cons_of_neg hp, List.filter_cons_of_neg hq, ih]

theorem Call.isSetup_of_isDescriptorCall (c : Call) (h : c.isDescriptorCall = true) :
    c.isSetup = true := by
  cases c <;> first | rfl | exact Bool.noConfusion h

/-! ### Descriptor slots -/

/-- C15: when `Init` returns, leaving the state `t`, its descriptor calls were,
in order: the render-target-view heap with `FRAME_COUNT` descriptors, the
shader-visible heap with 2 descriptors, the view of back buffer 0 at
`base + 0 * rtvStride` and of back buffer 1 at `base + 1 * rtvStride`, the
texture view at slot 0 and the constant-buffer view at slot 1 of the
shader-visible heap; so for every `n < FRAME_COUNT` the view of back buffer `n`
was created at `base + n * rtvStride`, and every descriptor written lies at an
index below the capacity of its heap. In every later frame (after any `Update`
and `Render` calls) a returning `PopulateCommandList` binds and clears the
render-target view at `base + m_frameIndex * rtvStride` between barriers on the
back buffer `m_renderTargets[m_frameIndex]`, and binds root slot 0 to the start
of the shader-visible heap and root slot 1 to that start plus one `srvStride`. -/
theorem C15_descriptor_slots (p_window : Handle) (assets_path : String) (s t : Sys)
    (hinit : Init p_window assets_path s = (Res.ok (), t)) :
    (∃ calls, t.world.trace = s.world.trace ++ calls ∧
      calls.filter Call.isDescriptorCall =
        [Call.CreateDescriptorHeap D3D12_DESCRIPTOR_HEAP_TYPE.RTV FRAME_COUNT false 0
           t.self.m_rtvHeap,
         Call.CreateDescriptorHeap D3D12_DESCRIPTOR_HEAP_TYPE.CBV_SRV_UAV 2 true 0
           t.self.m_srvHeap,
         Call.CreateRenderTargetView (t.self.m_renderTargets 0)
           (t.world.cpuStart t.self.m_rtvHeap + 0 * t.self.m_rtvDescriptorSize),
         Call.CreateRenderTargetView (t.self.m_renderTargets 1)
           (t.world.cpuStart t.self.m_rtvHeap + 1 * t.self.m_rtvDescriptorSize),
         Call.CreateShaderResourceView t.self.m_texture
           (t.world.cpuStart t.self.m_srvHeap + 0 * t.self.m_srvDescriptorSize),
         Call.CreateConstantBufferView (t.world.gpuVirtualAddress t.self.m_constantBuffer)
           SceneConstantBuffer.sizeof
           (t.world.cpuStart t.self.m_srvHeap + 1 * t.self.m_srvDescriptorSize)] ∧
      (∀ n, n < FRAME_COUNT →
        Call.CreateRenderTargetView (t.self.m_renderTargets n)
          (t.world.cpuStart t.self.m_rtvHeap + n * t.self.m_rtvDescriptorSize) ∈ calls) ∧
      (∀ c ∈ calls, ∀ d, c.destDescriptor = some d →
        (∃ i, i < FRAME_COUNT ∧
          d = t.world.cpuStart t.self.m_rtvHeap + i * t.self.m_rtvDescriptorSize) ∨
        (∃ i, i < 2 ∧
          d = t.world.cpuStart t.self.m_srvHeap + i * t.self.m_srvDescriptorSize))) ∧
    (∀ n, n < FRAME_COUNT → t.self.m_renderTargets n = s.world.backBuffers.getD n 0) ∧
    (∀ l : List HostCall, (PopulateCommandList (runCalls l t).2).1 = Res.ok () →
      ((PopulateCommandList (runCalls l t).2).2.world.recorded
          (runCalls l t).2.self.m_commandList).filterMap Command.renderTargetView =
        [t.world.cpuStart t.self.m_rtvHeap +
           (runCalls l t).2.self.m_frameIndex * t.self.m_rtvDescriptorSize,
         t.world.cpuStart t.self.m_rtvHeap +
           (runCalls l t).2.self.m_frameIndex * t.self.m_rtvDescriptorSize] ∧
      ((PopulateCommandList (runCalls l t).2).2.world.recorded
          (runCalls l t).2.self.m_commandList).filterMap Command.barrierResource =
        [t.self.m_renderTargets (runCalls l t).2.self.m_frameIndex,
         t.self.m_renderTargets (runCalls l t).2.self.m_frameIndex] ∧
      ((PopulateCommandList (runCalls l t).2).2.world.recorded
          (runCalls l t).2.self.m_commandList).filterMap Command.rootDescriptorTable =
        [(0, t.world.gpuStart t.self.m_srvHeap),
         (1, t.world.gpuStart t.self.m_srvHeap + 1 * t.self.m_srvDescriptorSize)]) := by
  have hok : (Init p_window assets_path s).1 = Res.ok () := by rw [hinit]
  have ht : (Init p_window assets_path s).2 = t := by rw [hinit]
  obtain ⟨hrs, hss, hrt, _, _, _, hcpu, _, hva, _, _, calls, htr, hf⟩ :=
    Init_setup p_window assets_path s hok
  rw [ht] at hrs hss hrt hcpu hva htr hf
  have hrt0 : t.self.m_renderTargets 0 = s.world.backBuffers.getD 0 0 := by
    rw [hrt]; rfl
  have hrt1 : t.self.m_renderTargets 1 = s.world.backBuffers.getD 1 0 := by
    rw [hrt]; rfl
  have hd : calls.filter Call.isDescriptorCall =
      [Call.CreateDescriptorHeap D3D12_DESCRIPTOR_HEAP_TYPE.RTV FRAME_COUNT false 0
         t.self.m_rtvHeap,
       Call.CreateDescriptorHeap D3D12_DESCRIPTOR_HEAP_TYPE.CBV_SRV_UAV 2 true 0
         t.self.m_srvHeap,
       Call.CreateRenderTargetView (t.self.m_renderTargets 0)
         (t.world.cpuStart t.self.m_rtvHeap + 0 * t.self.m_rtvDescriptorSize),
       Call.CreateRenderTargetView (t.self.m_renderTargets 1)
         (t.world.cpuStart t.self.m_rtvHeap + 1 * t.self.m_rtvDescriptorSize),
       Call.CreateShaderResourceView t.self.m_texture
         (t.world.cpuStart t.self.m_srvHeap + 0 * t.self.m_srvDescriptorSize),
       Call.CreateConstantBufferView (t.world.gpuVirtualAddress t.self.m_constantBuffer)
         SceneConstantBuffer.sizeof
         (t.world.cpuStart t.self.m_srvHeap + 1 * t.self.m_srvDescriptorSize)] := by
    rw [← List.filter_filter_of_imp Call.isSetup Call.isDescriptorCall
      Call.isSetup_of_isDescriptorCall calls, hf, hrt0, hrt1, hrs, hss, hcpu, hva]
    simp only [List.filter_cons, List.filter_nil, Call.isDescriptorCall, Bool.false_eq_true,
      if_false, if_true, Nat.zero_mul, Nat.add_zero]
  refine ⟨⟨calls, htr, hd, ?_, ?_⟩, ?_, ?_⟩
  · intro n hn
    have hmem : ∀ c, c ∈ calls.filter Call.isDescriptorCall → c ∈ calls :=
      fun c hc => (List.mem_filter.mp hc).1
    have hn' : n = 0 ∨ n = 1 := by
      unfold FRAME_COUNT at hn
      omega
    rcases hn' with h | h <;> subst h <;> apply hmem <;> rw [hd] <;>
      simp only [List.mem_cons, true_or, or_true]
  · intro c hc d hdest
    have hdc : c.isDescriptorCall = true := by
      cases c <;> first | rfl | exact Option.noConfusion hdest
    have hin : c ∈ calls.filter Call.isDescriptorCall := List.mem_filter.mpr ⟨hc, hdc⟩
    rw [hd] at hin
    simp only [List.mem_cons, List.mem_singleton, List.not_mem_nil, or_false] at hin
    rcases hin with h | h | h | h | h | h <;> subst h
    · exact Option.noConfusion hdest
    · exact Option.noConfusion hdest
    · exact Or.inl ⟨0, by decide, (Option.some.inj hdest).symm⟩
    · exact Or.inl ⟨1, by decide, (Option.some.inj hdest).symm⟩
    · exact Or.inr ⟨0, by decide, (Option.some.inj hdest).symm⟩
    · exact Or.inr ⟨1, by decide, (Option.some.inj hdest).symm⟩
  · intro n hn
    have hn' : n = 0 ∨ n = 1 := by
      unfold FRAME_COUNT at hn
      omega
    rcases hn' with h | h <;> subst h
    · exact hrt0
    · exact hrt1
  · intro l hpop
    rw [PopulateCommandList_commandsAt _ hpop, (runCalls_commandsAt l t).1]
    simp only [Sys.commandsAt, PopulateCommandList.commands, List.filterMap_cons,
      List.filterMap_nil, Command.renderTargetView, Command.barrierResource,
      Command.rootDescriptorTable, Nat.one_mul, and_self]

theorem DX.eq_of_ok {α : Type} (m : DX α) (s : Sys) (a : α) (h : (m s).1 = Res.ok a) :
    m s = (Res.ok a, (m s).2) := by
  rcases hm : m s with ⟨r, t⟩
  rw [hm] at h
  simp only at h
  subst h
  rfl

theorem PopulateCommandList_first_frame_returns (s : Sys) (h : s.world.hresults = []) :
    (PopulateCommandList (runCalls [] s).2).1 = Res.ok () :=
  PopulateCommandList_returns s h

/-- C15 on the sample machine, for the first frame after `Init`. -/
theorem C15_descriptor_slots_witness :
    (Init 1 "assets" Sys.sample).1 = Res.ok () ∧
    (∀ n, n < FRAME_COUNT →
      (Init 1 "assets" Sys.sample).2.self.m_renderTargets n =
        Sys.sample.world.backBuffers.getD n 0) ∧
    ((PopulateCommandList
        (runCalls [] (Init 1 "assets" Sys.sample).2).2).2.world.recorded
        (runCalls [] (Init 1 "assets" Sys.sample).2).2.self.m_commandList).filterMap
        Command.rootDescriptorTable =
      [(0, (Init 1 "assets" Sys.sample).2.world.gpuStart
            (Init 1 "assets" Sys.sample).2.self.m_srvHeap),
       (1, (Init 1 "assets" Sys.sample).2.world.gpuStart
            (Init 1 "assets" Sys.sample).2.self.m_srvHeap +
          1 * (Init 1 "assets" Sys.sample).2.self.m_srvDescriptorSize)] :=
  have hinit := Init_returns 1 "assets" Sys.sample rfl rfl (by decide)
  have h := C15_descriptor_slots 1 "assets" Sys.sample (Init 1 "assets" Sys.sample).2
    (DX.eq_of_ok (Init 1 "assets") Sys.sample () hinit.1)
  ⟨hinit.1, h.2.1,
   (h.2.2 [] (PopulateCommandList_first_frame_returns _ hinit.2)).2.2⟩

/-! ### The fence counter -/

theorem List.filterMap_filter_of_imp {α β : Type} (p : α → Bool) (f : α → Option β)
    (h : ∀ a, p a = false → f a = none) (l : List α) :
    (l.filter p).filterMap f = l.filterMap f := by
  induction l with
  | nil => rfl
  | cons a l ih =>
    by_cases hp : p a = true
    · rw [List.filter_cons_of_pos hp, List.filterMap_cons, List.filterMap_cons, ih]
    · have hp' : p a = false := by simpa using hp
      rw [List.filter_cons_of_neg hp, List.filterMap_cons, h a hp', ih]

theorem Call.signalValue_of_not_isSetup (c : Call) (h : c.isSetup = false) :
    c.signalValue = none := by
  cases c <;> first | rfl | exact Bool.noConfusion h

theorem Call.fenceInitialValue_of_not_isSetup (c : Call) (h : c.isSetup = false) :
    c.fenceInitialValue = none := by
  cases c <;> first | rfl | exact Bool.noConfusion h

theorem Render_calls_signals (o : InterfaceDX12) (pending : Nat) :
    (Render.calls o pending).filterMap Call.signalValue = [] := rfl

theorem WaitForPreviousFrame_calls_signals (o : InterfaceDX12) (c index : Nat) :
    (WaitForPreviousFrame.calls o c index).filterMap Call.signalValue = [o.m_fenceValue] := by
  unfold WaitForPreviousFrame.calls
  split <;> rfl

theorem runCalls_cons (c : HostCall) (rest : List HostCall) :
    runCalls (c :: rest) = (c.run >>= fun _ => runCalls rest) := rfl

theorem runCalls_signals (l : List HostCall) (u : Sys)
    (hF : u.self.m_fenceValue + l.count HostCall.render < 2 ^ 64)
    (hok : (runCalls l u).1 = Res.ok ()) :
    (runCalls l u).2.self.m_fenceValue = u.self.m_fenceValue + l.count HostCall.render ∧
    ∃ calls, (runCalls l u).2.world.trace = u.world.trace ++ calls ∧
      calls.filterMap Call.signalValue =
        List.range' u.self.m_fenceValue (l.count HostCall.render) := by
  induction l generalizing u with
  | nil => exact ⟨rfl, [], (List.append_nil _).symm, rfl⟩
  | cons c rest ih =>
    rw [runCalls_cons] at hok ⊢
    obtain ⟨x, hc, e⟩ := DX.bind_ok _ _ u () hok
    cases x
    rw [e] at hok ⊢
    cases c with
    | update =>
      have hcount : (HostCall.update :: rest).count HostCall.render =
          rest.count HostCall.render := List.count_cons_of_ne (by decide) rest
      rw [hcount] at hF ⊢
      obtain ⟨_, hself, hworld⟩ := Update_spec u
      have hfv : (Update u).2.self.m_fenceValue = u.self.m_fenceValue := by rw [hself]
      have htr : (Update u).2.world.trace = u.world.trace ++
          [Call.memcpy u.self.m_pCbvDataBegin SceneConstantBuffer.sizeof] := by rw [hworld]
      obtain ⟨h1, calls, h2, h3⟩ := ih (Update u).2 (by rw [hfv]; exact hF) hok
      refine ⟨by rw [← hfv]; exact h1,
        Call.memcpy u.self.m_pCbvDataBegin SceneConstantBuffer.sizeof :: calls, ?_, ?_⟩
      · show (runCalls rest (Update u).2).2.world.trace = _
        rw [h2, htr, List.append_assoc]
        rfl
      · rw [List.filterMap_cons]
        show calls.filterMap Call.signalValue = _
        rw [h3, hfv]
    | render =>
      have hcount : (HostCall.render :: rest).count HostCall.render =
          rest.count HostCall.render + 1 := List.count_cons_self _ _
      rw [hcount] at hF ⊢
      have hr : (Render u).1 = Res.ok () := hc
      obtain ⟨hself, _, c, htrace⟩ := Render_spec u hr
      have hfv : (Render u).2.self.m_fenceValue = u.self.m_fenceValue + 1 := by
        rw [hself]
        show (u.self.m_fenceValue + 1) % 2 ^ 64 = _
        exact Nat.mod_eq_of_lt (by omega)
      obtain ⟨h1, calls, h2, h3⟩ := ih (Render u).2 (by rw [hfv]; omega) hok
      refine ⟨?_, Render.calls u.self u.world.gpu.pendingLists ++
        WaitForPreviousFrame.calls u.self c (u.world.advance u.world.backBufferIndex) ++ calls,
        ?_, ?_⟩
      · show (runCalls rest (Render u).2).2.self.m_fenceValue = _
        rw [h1, hfv]
        omega
      · show (runCalls rest (Render u).2).2.world.trace = _
        rw [h2, htrace]
        simp only [List.append_assoc]
      · rw [List.filterMap_append, List.filterMap_append, Render_calls_signals,
          WaitForPreviousFrame_calls_signals, h3, hfv, List.range'_succ]
        rfl

/-- C16: when `Init` returns, leaving the state `t`, it has created the fence
with initial value 0 and signalled the value 1 once (the counter stood at 1 at
its first wait), and `m_fenceValue` is 2. Every `WaitForPreviousFrame` that
returns has signalled exactly the value of `m_fenceValue` on entry, once, and
left the counter one higher (modulo `2 ^ 64`). So after any `Update` and
`Render` calls that all return, `k` of them `Render` calls with
`k + 2 < 2 ^ 64`, `m_fenceValue` is `k + 2` and the values signalled since the
start of `Init` are exactly 1, 2, ..., `k + 1`, in this order, each once. -/
theorem C16_fence_counter_bookkeeping (p_window : Handle) (assets_path : String)
    (s t : Sys) (l : List HostCall) (hk : l.count HostCall.render + 2 < 2 ^ 64)
    (hinit : Init p_window assets_path s = (Res.ok (), t))
    (hrun : (runCalls l t).1 = Res.ok ()) :
    (∃ calls, t.world.trace = s.world.trace ++ calls ∧
      calls.filterMap Call.fenceInitialValue = [0] ∧
      calls.filterMap Call.signalValue = [1]) ∧
    t.self.m_fenceValue = 2 ∧
    (runCalls l t).2.self.m_fenceValue = l.count HostCall.render + 2 ∧
    (∃ calls, (runCalls l t).2.world.trace = s.world.trace ++ calls ∧
      calls.filterMap Call.signalValue = List.range' 1 (l.count HostCall.render + 1) ∧
      (calls.filterMap Call.signalValue).Pairwise (fun a b => a < b)) ∧
    (∀ u : Sys, (WaitForPreviousFrame u).1 = Res.ok () →
      (WaitForPreviousFrame u).2.self.m_fenceValue = (u.self.m_fenceValue + 1) % 2 ^ 64 ∧
      ∃ calls, (WaitForPreviousFrame u).2.world.trace = u.world.trace ++ calls ∧
        calls.filterMap Call.signalValue = [u.self.m_fenceValue]) := by
  have hok : (Init p_window assets_path s).1 = Res.ok () := by rw [hinit]
  have ht : (Init p_window assets_path s).2 = t := by rw [hinit]
  obtain ⟨_, _, _, hfv, _, _, _, _, _, _, _, calls0, htr0, hf0⟩ :=
    Init_setup p_window assets_path s hok
  rw [ht] at hfv htr0 hf0
  have hsig0 : calls0.filterMap Call.signalValue = [1] := by
    rw [← List.filterMap_filter_of_imp Call.isSetup Call.signalValue
      Call.signalValue_of_not_isSetup calls0, hf0]
    rfl
  have hfence0 : calls0.filterMap Call.fenceInitialValue = [0] := by
    rw [← List.filterMap_filter_of_imp Call.isSetup Call.fenceInitialValue
      Call.fenceInitialValue_of_not_isSetup calls0, hf0]
    rfl
  obtain ⟨hfin, calls1, htr1, hsig1⟩ := runCalls_signals l t (by rw [hfv]; omega) hrun
  rw [hfv] at hfin hsig1
  have hall : (calls0 ++ calls1).filterMap Call.signalValue =
      List.range' 1 (l.count HostCall.render + 1) := by
    rw [List.filterMap_append, hsig0, hsig1, List.range'_succ]
    rfl
  refine ⟨⟨calls0, htr0, hfence0, hsig0⟩, hfv, by rw [hfin]; omega,
    ⟨calls0 ++ calls1, by rw [htr1, htr0, List.append_assoc], hall, ?_⟩, ?_⟩
  · rw [hall]
    exact List.pairwise_lt_range' 1 _
  · intro u hu
    obtain ⟨hself, _⟩ := WaitForPreviousFrame_state u hu
    obtain ⟨c, htrace⟩ := WaitForPreviousFrame_trace u hu
    exact ⟨by rw [hself], _, htrace, WaitForPreviousFrame_calls_signals _ _ _⟩

theorem runCalls_render_ok (s : Sys) (h : s.world.hresults = []) (hidle : s.world.gpu.Idle) :
    (runCalls [HostCall.render] s).1 = Res.ok () := by
  obtain ⟨hok, _⟩ := Render_returns s h hidle
  show (DX.bind Render (fun _ => DX.pure ()) s).1 = Res.ok ()
  have e := DX.bind_of_ok Render (fun _ => DX.pure ()) s () hok
  have e' : DX.bind Render (fun _ => DX.pure ()) s = (Render >>= fun _ => DX.pure ()) s := rfl
  rw [e', e]
  rfl

/-- C16 on the sample machine, with one `Render` after `Init`. -/
theorem C16_fence_counter_bookkeeping_witness :
    (Init 1 "assets" Sys.sample).1 = Res.ok () ∧
    (runCalls [HostCall.render] (Init 1 "assets" Sys.sample).2).1 = Res.ok () ∧
    (runCalls [HostCall.render] (Init 1 "assets" Sys.sample).2).2.self.m_fenceValue =
      [HostCall.render].count HostCall.render + 2 ∧
    ∃ calls, (runCalls [HostCall.render] (Init 1 "assets" Sys.sample).2).2.world.trace =
        Sys.sample.world.trace ++ calls ∧
      calls.filterMap Call.signalValue =
        List.range' 1 ([HostCall.render].count HostCall.render + 1) ∧
      (calls.filterMap Call.signalValue).Pairwise (fun a b => a < b) :=
  have hinit := Init_returns 1 "assets" Sys.sample rfl rfl (by decide)
  have hidle := (Init_synced 1 "assets" Sys.sample hinit.1).1.idle
  have hrun := runCalls_render_ok _ hinit.2 hidle
  have h := C16_fence_counter_bookkeeping 1 "assets" Sys.sample
    (Init 1 "assets" Sys.sample).2 [HostCall.render] (by decide)
    (DX.eq_of_ok (Init 1 "assets") Sys.sample () hinit.1) hrun
  ⟨hinit.1, hrun, h.2.2.1, h.2.2.2.1⟩

/-! ### `Update`: the frame condition -/

theorem writeAt_floats_drop (memory : Nat → List ℚ) (dest : Nat) (c : SceneConstantBuffer) :
    (writeAt memory dest (c.floats.take (SceneConstantBuffer.sizeof / sizeof_float)) dest).drop 64
      = (memory dest).drop 64 := by
  have hl := SceneConstantBuffer.floats_length c
  rw [SceneConstantBuffer.sizeof_div, List.take_of_length_le (Nat.le_of_eq hl)]
  unfold writeAt
  rw [if_pos rfl, hl]
  exact List.drop_left' hl

theorem writeAt_ne (memory : Nat → List ℚ) (dest : Nat) (src : List ℚ) (q : Nat)
    (h : q ≠ dest) : writeAt memory dest src q = memory q := by
  unfold writeAt
  rw [if_neg h]

theorem Update_frame (s : Sys) :
    (Update s).2.self = { s.self with
      m_constantBufferData := { s.self.m_constantBufferData with
        offset := { s.self.m_constantBufferData.offset with
          x := (Update s).2.self.m_constantBufferData.offset.x } } } ∧
    (Update s).2.world.memory = writeAt s.world.memory s.self.m_pCbvDataBegin
      ((Update s).2.self.m_constantBufferData.floats.take
        (SceneConstantBuffer.sizeof / sizeof_float)) := by
  show wp Update (fun _ t =>
    t.self = { s.self with
      m_constantBufferData := { s.self.m_constantBufferData with
        offset := { s.self.m_constantBufferData.offset with
          x := t.self.m_constantBufferData.offset.x } } } ∧
    t.world.memory = writeAt s.world.memory s.self.m_pCbvDataBegin
      (t.self.m_constantBufferData.floats.take (SceneConstantBuffer.sizeof / sizeof_float))) s
  unfold Update
  simp only [wp_bind, wpNext_ok, wp_modifySelf, wp_getSelf, wp_ite, wp_dxpure, wp_memcpy']
  repeat' first | trivial | rfl | constructor | split

/-- C18: a call of `Update` returns and changes, of the object, only `offset.x` of
the constant-buffer data: `offset.y`, `offset.z`, `offset.w`, the 60 padding
entries, the fence counter, the frame index and every other member are as
before. Of the environment it changes only the mapped memory at
`m_pCbvDataBegin`, and logs the one `memcpy`: afterwards the first 64 floats
there (all `sizeof(SceneConstantBuffer)` bytes) are exactly the floats of the
updated struct, what lies behind them and every other address is as before. -/
theorem C18_Update_frame_condition (s : Sys) :
    (Update s).1 = Res.ok () ∧
    (Update s).2.self = { s.self with
      m_constantBufferData := { s.self.m_constantBufferData with
        offset := { s.self.m_constantBufferData.offset with
          x := (Update s).2.self.m_constantBufferData.offset.x } } } ∧
    (Update s).2.self.m_constantBufferData.offset.y = s.self.m_constantBufferData.offset.y ∧
    (Update s).2.self.m_constantBufferData.offset.z = s.self.m_constantBufferData.offset.z ∧
    (Update s).2.self.m_constantBufferData.offset.w = s.self.m_constantBufferData.offset.w ∧
    (Update s).2.self.m_constantBufferData.padding = s.self.m_constantBufferData.padding ∧
    (Update s).2.self.m_fenceValue = s.self.m_fenceValue ∧
    (Update s).2.self.m_frameIndex = s.self.m_frameIndex ∧
    ((Update s).2.world.memory s.self.m_pCbvDataBegin).take 64 =
      (Update s).2.self.m_constantBufferData.floats ∧
    (Update s).2.self.m_constantBufferData.floats.length * sizeof_float =
      SceneConstantBuffer.sizeof ∧
    ((Update s).2.world.memory s.self.m_pCbvDataBegin).drop 64 =
      (s.world.memory s.self.m_pCbvDataBegin).drop 64 ∧
    (∀ q, q ≠ s.self.m_pCbvDataBegin → (Update s).2.world.memory q = s.world.memory q) ∧
    (Update s).2.world = { s.world with
      memory := (Update s).2.world.memory
      trace := s.world.trace ++
        [Call.memcpy s.self.m_pCbvDataBegin SceneConstantBuffer.sizeof] } := by
  obtain ⟨hok, _, hworld⟩ := Update_spec s
  obtain ⟨hself, hmem⟩ := Update_frame s
  refine ⟨hok, hself, ?_, ?_, ?_, ?_, ?_, ?_, ?_, ?_, ?_, ?_, hworld⟩
  · rw [hself]
  · rw [hself]
  · rw [hself]
  · rw [hself]
  · rw [hself]
  · rw [hself]
  · rw [hmem]
    exact writeAt_floats _ _ _
  · rw [SceneConstantBuffer.floats_length]
    rfl
  · rw [hmem]
    exact writeAt_floats_drop _ _ _
  · intro q hq
    rw [hmem]
    exact writeAt_ne _ _ _ q hq

/-! ### `ThrowIfFailed` -/

theorem ThrowIfFailed_ok (msg : String) (s : Sys) :
    ThrowIfFailed S_OK msg s = (Res.ok (), s) := rfl

theorem ThrowIfFailed_threw (value : HRESULT) (msg : String) (s : Sys) (h : value ≠ S_OK) :
    ThrowIfFailed value msg s = (Res.threw (msg ++ " " ++ toString value), s) := by
  unfold ThrowIfFailed
  rw [if_pos h]
  rfl

/-- C19: `ThrowIfFailed(value, msg)` throws exactly when `value` is not `S_OK`
(0): `S_OK` passes without any effect, and every other value, also a positive
success code such as `S_FALSE` (1), is rejected. The message of the error is
`msg`, one space, and `value` in decimal. The one-argument overload is the
two-argument one with the message "Unspecified failure". -/
theorem C19_ThrowIfFailed_rejects_all_but_S_OK (value : HRESULT) (msg : String) (s : Sys) :
    (value = S_OK → ThrowIfFailed value msg s = (Res.ok (), s)) ∧
    (value ≠ S_OK →
      ThrowIfFailed value msg s = (Res.threw (msg ++ " " ++ toString value), s)) ∧
    ((∃ what, (ThrowIfFailed value msg s).1 = Res.threw what) ↔ value ≠ S_OK) ∧
    ThrowIfFailed1 value s = ThrowIfFailed value "Unspecified failure" s ∧
    SUCCEEDED 1 = true ∧
    ThrowIfFailed 1 "Presenting swapchain" s = (Res.threw "Presenting swapchain 1", s) ∧
    ThrowIfFailed DXGI_ERROR_DEVICE_REMOVED "Presenting swapchain" s =
      (Res.threw "Presenting swapchain -2005270523", s) ∧
    ThrowIfFailed1 DXGI_ERROR_DEVICE_REMOVED s =
      (Res.threw "Unspecified failure -2005270523", s) := by
  refine ⟨?_, ThrowIfFailed_threw value msg s, ?_, rfl, rfl, ?_, ?_, ?_⟩
  · intro h
    rw [h]
    rfl
  · constructor
    · rintro ⟨what, hw⟩ h
      rw [h] at hw
      exact Res.noConfusion hw
    · intro h
      exact ⟨_, by rw [ThrowIfFailed_threw value msg s h]⟩
  · rw [ThrowIfFailed_threw 1 _ s (by decide)]
    have : "Presenting swapchain" ++ " " ++ toString (1 : HRESULT) = "Presenting swapchain 1" := by
      decide
    rw [this]
  · rw [ThrowIfFailed_threw _ _ s (by decide)]
    have : "Presenting swapchain" ++ " " ++ toString DXGI_ERROR_DEVICE_REMOVED =
        "Presenting swapchain -2005270523" := by
      decide
    rw [this]
  · show ThrowIfFailed DXGI_ERROR_DEVICE_REMOVED "Unspecified failure" s = _
    rw [ThrowIfFailed_threw _ _ s (by decide)]
    have : "Unspecified failure" ++ " " ++ toString DXGI_ERROR_DEVICE_REMOVED =
        "Unspecified failure -2005270523" := by
      decide
    rw [this]

/-- C19 for `S_FALSE`: a success code that is not `S_OK` is rejected. -/
theorem C19_ThrowIfFailed_rejects_all_but_S_OK_witness :
    (1 : HRESULT) ≠ S_OK ∧ SUCCEEDED 1 = true ∧
    ThrowIfFailed 1 "Mapping the vertex buffer" Sys.sample =
      (Res.threw ("Mapping the vertex buffer" ++ " " ++ toString (1 : HRESULT)), Sys.sample) :=
  ⟨by decide, rfl,
   (C19_ThrowIfFailed_rejects_all_but_S_OK 1 "Mapping the vertex buffer" Sys.sample).2.1
     (by decide)⟩

/-! ### The size of the constant buffer -/

/-- C20: with 4-byte floats `sizeof(SceneConstantBuffer)` is `4*4 + 60*4 = 256`
bytes, a multiple of 256, and the struct is 64 floats. When `Init` returns,
leaving the state `t`, this size is the width of the committed resource behind
`m_constantBuffer`, the `SizeInBytes` of every constant-buffer view created and
the size of the initial copy to `m_pCbvDataBegin`; and it is the size of the
copy that every `Update` makes. -/
theorem C20_constant_buffer_size (p_window : Handle) (assets_path : String) (s t : Sys)
    (hinit : Init p_window assets_path s = (Res.ok (), t)) :
    sizeof_float = 4 ∧
    SceneConstantBuffer.sizeof = 4 * 4 + 60 * 4 ∧
    SceneConstantBuffer.sizeof = 256 ∧
    SceneConstantBuffer.sizeof % 256 = 0 ∧
    (∀ c : SceneConstantBuffer, c.floats.length * sizeof_float = SceneConstantBuffer.sizeof) ∧
    (∃ calls, t.world.trace = s.world.trace ++ calls ∧
      Call.CreateCommittedResource D3D12_HEAP_TYPE.UPLOAD SceneConstantBuffer.sizeof
        D3D12_RESOURCE_STATES.GENERIC_READ 0 t.self.m_constantBuffer ∈ calls ∧
      Call.CreateConstantBufferView (t.world.gpuVirtualAddress t.self.m_constantBuffer)
        SceneConstantBuffer.sizeof
        (t.world.cpuStart t.self.m_srvHeap + 1 * t.self.m_srvDescriptorSize) ∈ calls ∧
      Call.memcpy t.self.m_pCbvDataBegin SceneConstantBuffer.sizeof ∈ calls ∧
      ∀ bufferLocation sizeInBytes destDescriptor,
        Call.CreateConstantBufferView bufferLocation sizeInBytes destDescriptor ∈ calls →
        sizeInBytes = SceneConstantBuffer.sizeof) ∧
    (∀ u : Sys, (Update u).2.world.trace = u.world.trace ++
      [Call.memcpy u.self.m_pCbvDataBegin SceneConstantBuffer.sizeof]) := by
  have hok : (Init p_window assets_path s).1 = Res.ok () := by rw [hinit]
  have ht : (Init p_window assets_path s).2 = t := by rw [hinit]
  obtain ⟨_, hss, _, _, _, _, hcpu, _, hva, _, _, calls, htr, hf⟩ :=
    Init_setup p_window assets_path s hok
  rw [ht] at hss hcpu hva htr hf
  have hmem : ∀ c, c ∈ calls.filter Call.isSetup → c ∈ calls :=
    fun c hc => (List.mem_filter.mp hc).1
  refine ⟨rfl, rfl, rfl, rfl, ?_, ⟨calls, htr, ?_, ?_, ?_, ?_⟩, ?_⟩
  · intro c
    rw [SceneConstantBuffer.floats_length]
    rfl
  · apply hmem
    rw [hf]
    simp only [List.mem_cons, true_or, or_true]
  · apply hmem
    rw [hf, hss, hcpu, hva]
    simp only [List.mem_cons, true_or, or_true]
  · apply hmem
    rw [hf]
    simp only [List.mem_cons, true_or, or_true]
  · intro a b d hc
    have hin : Call.CreateConstantBufferView a b d ∈ calls.filter Call.isSetup :=
      List.mem_filter.mpr ⟨hc, rfl⟩
    rw [hf] at hin
    simp only [List.mem_cons, List.mem_singleton, List.not_mem_nil, or_false, reduceCtorEq,
      false_or, Call.CreateConstantBufferView.injEq] at hin
    exact hin.2.1
  · intro u
    rw [(Update_spec u).2.2]

/-- C20 on the sample machine. -/
theorem C20_constant_buffer_size_witness :
    (Init 1 "assets" Sys.sample).1 = Res.ok () ∧
    SceneConstantBuffer.sizeof = 256 ∧
    ∃ calls, (Init 1 "assets" Sys.sample).2.world.trace = Sys.sample.world.trace ++ calls ∧
      Call.memcpy (Init 1 "assets" Sys.sample).2.self.m_pCbvDataBegin
        SceneConstantBuffer.sizeof ∈ calls :=
  have hinit := Init_returns 1 "assets" Sys.sample rfl rfl (by decide)
  have h := C20_constant_buffer_size 1 "assets" Sys.sample (Init 1 "assets" Sys.sample).2
    (DX.eq_of_ok (Init 1 "assets") Sys.sample () hinit.1)
  have ⟨calls, htr, _, _, hm, _⟩ := h.2.2.2.2.2.1
  ⟨hinit.1, h.2.2.1, calls, htr, hm⟩

/-! ### `Update`: the stored value -/

theorem Update_memory_head (s : Sys) :
    ((Update s).2.world.memory s.self.m_pCbvDataBegin).head? =
      some (Update s).2.self.m_constantBufferData.offset.x := by
  show wp Update (fun _ t => (t.world.memory s.self.m_pCbvDataBegin).head?
    = some t.self.m_constantBufferData.offset.x) s
  unfold Update
  simp only [wp_bind, wpNext_ok, wp_modifySelf, wp_getSelf, wp_ite, wp_dxpure, wp_memcpy']
  split <;>
    simp [writeAt, SceneConstantBuffer.floats, SceneConstantBuffer.sizeof, sizeof_float]

theorem Update_offset_x_from_zero (s : Sys) (h : s.self.m_constantBufferData.offset.x = 0) :
    (Update s).2.self.m_constantBufferData.offset.x = 5368709 / 1073741824 := by
  rw [Update_offset_x, h, Float32.round_zero_add_step, if_neg (by norm_num)]

theorem Init_offset_x (p_window : Handle) (assets_path : String) (s : Sys) :
    (Init p_window assets_path s).2.self.m_constantBufferData.offset.x = 0 := by
  rw [Init_constantBufferData]
  rfl

/-- C3 as written does not hold: after `Init` on the sample machine `offset.x` is
0 and `0 + 0.005` does not exceed 1.25, yet the next `Update` stores
5368709/1073741824, the binary32 sum of 0 and `0.005f`, and not `0 + 0.005`. -/
theorem C3_counterexample :
    (Init 1 "assets" Sys.sample).1 = Res.ok () ∧
    (Init 1 "assets" Sys.sample).2.self.m_constantBufferData.offset.x = 0 ∧
    ¬ ((Init 1 "assets" Sys.sample).2.self.m_constantBufferData.offset.x + 0.005 > 1.25) ∧
    (Update (Init 1 "assets" Sys.sample).2).2.self.m_constantBufferData.offset.x =
      5368709 / 1073741824 ∧
    (Update (Init 1 "assets" Sys.sample).2).2.self.m_constantBufferData.offset.x ≠
      (Init 1 "assets" Sys.sample).2.self.m_constantBufferData.offset.x + 0.005 := by
  have hinit := Init_returns 1 "assets" Sys.sample rfl rfl (by decide)
  have hx := Init_offset_x 1 "assets" Sys.sample
  have hu := Update_offset_x_from_zero _ hx
  refine ⟨hinit.1, hx, ?_, hu, ?_⟩
  · rw [hx]
    norm_num
  · rw [hu, hx]
    norm_num

/-- C3, amended: for every prior value `x` of `offset.x`, one call of `Update`
returns and stores, in the struct and at the start of the mapped constant
buffer, exactly -1.25 when the binary32 sum of `x` and `0.005f` exceeds 1.25, and
exactly that sum otherwise; `0.005f` is 5368709/1073741824 and `1.25f` is 1.25.
The stored value never exceeds 1.25; on crossing 1.25 it is neither the clamped
value 1.25 nor the sum less 2.5. The sum is rounded: from 0 the stored value is
5368709/1073741824, and from 10443817/8388608 (`0x3f9f5c29`) the sum rounds to
exactly 1.25, does not cross, and 1.25 is stored. -/
theorem C3_Update_resets_exactly (s : Sys) :
    (Update s).1 = Res.ok () ∧
    Float32.round 0.005 = 5368709 / 1073741824 ∧
    Float32.round 1.25 = 1.25 ∧
    (Update s).2.self.m_constantBufferData.offset.x =
      (if Float32.round (s.self.m_constantBufferData.offset.x + Float32.round 0.005) >
          Float32.round 1.25
       then -1.25
       else Float32.round (s.self.m_constantBufferData.offset.x + Float32.round 0.005)) ∧
    ((Update s).2.world.memory s.self.m_pCbvDataBegin).head? =
      some (Update s).2.self.m_constantBufferData.offset.x ∧
    (Update s).2.self.m_constantBufferData.offset.x ≤ 1.25 ∧
    (Float32.round (s.self.m_constantBufferData.offset.x + Float32.round 0.005) > 1.25 →
      (Update s).2.self.m_constantBufferData.offset.x = -1.25 ∧
      (Update s).2.self.m_constantBufferData.offset.x ≠ 1.25 ∧
      (Update s).2.self.m_constantBufferData.offset.x ≠
        Float32.round (s.self.m_constantBufferData.offset.x + Float32.round 0.005) - 2.5) ∧
    (s.self.m_constantBufferData.offset.x = 0 →
      (Update s).2.self.m_constantBufferData.offset.x = 5368709 / 1073741824 ∧
      (Update s).2.self.m_constantBufferData.offset.x ≠ 0.005) ∧
    (s.self.m_constantBufferData.offset.x = 10443817 / 8388608 →
      s.self.m_constantBufferData.offset.x + 0.005 > 1.25 ∧
      (Update s).2.self.m_constantBufferData.offset.x = 1.25) := by
  refine ⟨Update_returns s, Float32.round_step, Float32.round_bound, ?_, Update_memory_head s,
    ?_, ?_, ?_, ?_⟩
  · rw [Float32.round_step, Float32.round_bound]
    exact Update_offset_x s
  · rw [Update_offset_x]
    split
    · norm_num
    · rename_i hn
      exact not_lt.mp hn
  · rw [Float32.round_step]
    intro h
    rw [Update_offset_x, if_pos h]
    refine ⟨rfl, by norm_num, ?_⟩
    intro h'
    linarith
  · intro h
    have hu := Update_offset_x_from_zero s h
    rw [hu]
    exact ⟨rfl, by norm_num⟩
  · intro h
    refine ⟨by rw [h]; norm_num, ?_⟩
    rw [Update_offset_x, h, Float32.round_ties_to_bound, if_neg (by norm_num)]

/-- C3 (amended) on the sample machine, for the first `Update` after `Init`. -/
theorem C3_Update_resets_exactly_witness :
    (Init 1 "assets" Sys.sample).1 = Res.ok () ∧
    (Init 1 "assets" Sys.sample).2.self.m_constantBufferData.offset.x = 0 ∧
    (Update (Init 1 "assets" Sys.sample).2).1 = Res.ok () ∧
    (Update (Init 1 "assets" Sys.sample).2).2.self.m_constantBufferData.offset.x =
      5368709 / 1073741824 :=
  have hinit := Init_returns 1 "assets" Sys.sample rfl rfl (by decide)
  have hx := Init_offset_x 1 "assets" Sys.sample
  have h := C3_Update_resets_exactly (Init 1 "assets" Sys.sample).2
  ⟨hinit.1, hx, h.1, (h.2.2.2.2.2.2.2.1 hx).1⟩

/-! ### `Update`: the wrap at the bound, over the states of a session -/

theorem Call.executedLists_of_not_isQueueWork (c : Call) (h : c.isQueueWork = false) :
    c.executedLists = none := by
  cases c <;> first | rfl | exact Bool.noConfusion h

theorem List.filterMap_eq_nil_of_forall {α β : Type} (f : α → Option β) (l : List α)
    (h : ∀ a ∈ l, f a = none) : l.filterMap f = [] := by
  induction l with
  | nil => rfl
  | cons a l ih =>
    rw [List.filterMap_cons, h a (List.mem_cons_self a l)]
    exact ih (fun b hb => h b (List.mem_cons_of_mem a hb))

theorem WaitForPreviousFrame_calls_executedLists (o : InterfaceDX12) (c index : Nat) :
    (WaitForPreviousFrame.calls o c index).filterMap Call.executedLists = [] := by
  unfold WaitForPreviousFrame.calls
  split <;> rfl

theorem Render_calls_executedLists (o : InterfaceDX12) (pending : Nat) :
    (Render.calls o pending).filterMap Call.executedLists = [[o.m_commandList]] := rfl

theorem LoadAssets_submissions (s : Sys) :
    wp LoadAssets (fun r t => r = Res.ok () →
      ∃ calls, t.world.trace = s.world.trace ++ calls ∧
        calls.filterMap Call.executedLists = [[t.self.m_commandList]] ∧
        calls.countP Call.isPresent = 0) s := by
  unfold LoadAssets
  simp only [wp_bind, wpNext_ok, wp_modifySelf, wp_getSelf, wp_getWorld, wp_ite, wp_dxpure,
    wp_ThrowIfFailed1, wp_ThrowIfFailed, wpNext, wp_callHR, wp_create, wp_D3D12CreateDevice,
    wp_CreateCommandQueue, wp_CreateCommandList, wp_CreateFence, wp_CreateEvent, wp_GetBuffer,
    wp_Map, wp_memcpy', wp_logCall, wp_record, wp_CommandAllocatorReset, wp_CommandListReset,
    wp_CommandListClose, wp_ExecuteCommandLists, wp_Present, wp_GetCurrentBackBufferIndex,
    wp_Signal, wp_GetCompletedValue, wp_SetEventOnCompletion, wp_WaitForSingleObject,
    wp_GetHardwareAdapter, World.nextResult, S_OK_eq, reduceCtorEq, false_implies, implies_true, and_true, true_implies]
  intros
  simp only [*, SUCCEEDED_zero, if_true]
  by_cases he : s.world.hresults.tail.tail.tail.tail.tail.tail.tail.tail.tail.tail.tail.tail.tail.tail.tail.tail.tail.headD 0 = 0
  · simp only [he, if_true, Nat.add_one_ne_zero, if_false]
    show (WaitForPreviousFrame _).1 = Res.ok () → _
    intro hok
    obtain ⟨hself, _⟩ := WaitForPreviousFrame_state _ hok
    obtain ⟨c, htrace⟩ := WaitForPreviousFrame_trace _ hok
    simp only at hself htrace
    rw [htrace, hself]
    simp only [List.append_assoc, List.append_cancel_left_eq, exists_eq_left',
      List.cons_append, List.nil_append, List.filterMap_cons, List.filterMap_append,
      List.filterMap_nil, Call.executedLists, WaitForPreviousFrame_calls_executedLists,
      List.countP_cons, List.countP_append, List.countP_nil, Call.isPresent,
      WaitForPreviousFrame.calls_countP_isPresent, Bool.false_eq_true, if_false, and_self]
  · simp only [he, if_false, if_true, false_implies]

theorem Init_submissions (p_window : Handle) (assets_path : String) (s : Sys) :
    wp (Init p_window assets_path) (fun r t => r = Res.ok () →
      ∃ calls, t.world.trace = s.world.trace ++ calls ∧
        calls.filterMap Call.executedLists = [[t.self.m_commandList]] ∧
        calls.countP Call.isPresent = 0) s := by
  unfold Init
  simp only [wp_bind, wpNext_ok, wp_modifySelf, wp_getWorld]
  refine wp_mono _ _ _ _ (LoadPipeline_spec _) ?_
  intro r t1 h1
  cases r with
  | threw e => simp only [wpNext, reduceCtorEq, false_implies]
  | blocked => simp only [wpNext, reduceCtorEq, false_implies]
  | ok u =>
    obtain ⟨_, _, _, calls1, htr1, hq1⟩ := h1 rfl
    simp only at htr1
    simp only [wpNext]
    refine wp_mono _ _ _ _ (LoadAssets_submissions t1) ?_
    intro r2 t h2 hok
    obtain ⟨calls2, htr2, he2, hp2⟩ := h2 hok
    refine ⟨calls1 ++ calls2, by rw [htr2, htr1, List.append_assoc], ?_, ?_⟩
    · rw [List.filterMap_append, he2, List.filterMap_eq_nil_of_forall _ _
        (fun c hc => Call.executedLists_of_not_isQueueWork c (hq1 c hc))]
      rfl
    · rw [List.countP_append, hp2, List.countP_eq_zero.mpr]
      intro c hc
      simp [Call.not_isPresent_of_not_isQueueWork c (hq1 c hc)]

theorem scenario_submissions (p_window : Handle) (assets_path : String) (s : Sys)
    (hok : (scenario p_window assets_path s).1 = Res.ok ()) :
    ∃ initCalls frameCalls,
      (Init p_window assets_path s).2.world.trace = s.world.trace ++ initCalls ∧
      (scenario p_window assets_path s).2.world.trace =
        s.world.trace ++ initCalls ++ frameCalls ∧
      initCalls.filterMap Call.executedLists =
        [[(Init p_window assets_path s).2.self.m_commandList]] ∧
      initCalls.countP Call.isPresent = 0 ∧
      frameCalls.filterMap Call.executedLists =
        [[(Init p_window assets_path s).2.self.m_commandList]] ∧
      frameCalls.countP Call.isPresent = 1 := by
  unfold scenario at hok ⊢
  obtain ⟨u, hinit, e1⟩ := DX.bind_ok _ _ s () hok
  cases u
  rw [e1] at hok ⊢
  have hupd := Update_spec (Init p_window assets_path s).2
  have e2 := DX.bind_of_ok Update (fun _ => Render) (Init p_window assets_path s).2 () hupd.1
  rw [e2] at hok ⊢
  obtain ⟨initCalls, htr, he, hp⟩ := Init_submissions p_window assets_path s hinit
  obtain ⟨_, _, c, htrace⟩ := Render_spec _ hok
  obtain ⟨_, huself, huworld⟩ := hupd
  have hcl : (Update (Init p_window assets_path s).2).2.self.m_commandList =
      (Init p_window assets_path s).2.self.m_commandList := by rw [huself]
  have htu : (Update (Init p_window assets_path s).2).2.world.trace = s.world.trace ++
      initCalls ++ [Call.memcpy (Init p_window assets_path s).2.self.m_pCbvDataBegin
        SceneConstantBuffer.sizeof] := by
    rw [huworld]; simp only; rw [htr]
  refine ⟨initCalls,
    Call.memcpy (Init p_window assets_path s).2.self.m_pCbvDataBegin SceneConstantBuffer.sizeof ::
      (Render.calls (Update (Init p_window assets_path s).2).2.self
          (Update (Init p_window assets_path s).2).2.world.gpu.pendingLists ++
        WaitForPreviousFrame.calls (Update (Init p_window assets_path s).2).2.self c
          ((Update (Init p_window assets_path s).2).2.world.advance
            (Update (Init p_window assets_path s).2).2.world.backBufferIndex)),
    htr, ?_, he, hp, ?_, ?_⟩
  · show (Render (Update (Init p_window assets_path s).2).2).2.world.trace = _
    rw [htrace, htu]
    simp only [List.append_assoc, List.cons_append, List.nil_append]
  · rw [List.filterMap_cons, List.filterMap_append, Render_calls_executedLists,
      WaitForPreviousFrame_calls_executedLists, hcl]
    rfl
  · simp only [List.countP_append, List.countP_cons, List.countP_nil, Call.isPresent,
      Render_calls_countP_isPresent, WaitForPreviousFrame.calls_countP_isPresent,
      Bool.false_eq_true, if_false]

/-- C6, as stated, fails on the sample machine (256x256 window, every call
succeeding): the scenario returns and two command lists are submitted in it, not
one. Its log holds two `ExecuteCommandLists` calls, each with a batch of one
command list: the upload batch that `LoadAssets` submits during `Init` and the
frame that `Render` submits. -/
theorem C6_counterexample :
    World.sample.windowWidth = 256 ∧ World.sample.windowHeight = 256 ∧
    (scenario 1 "assets" Sys.sample).1 = Res.ok () ∧
    (scenario 1 "assets" Sys.sample).2.world.trace.filterMap Call.executedLists =
      [[(Init 1 "assets" Sys.sample).2.self.m_commandList],
       [(Init 1 "assets" Sys.sample).2.self.m_commandList]] ∧
    (((scenario 1 "assets" Sys.sample).2.world.trace.filterMap Call.executedLists).map
      List.length).sum = 2 ∧
    (((scenario 1 "assets" Sys.sample).2.world.trace.filterMap Call.executedLists).map
      List.length).sum ≠ 1 := by
  have hok := scenario_returns 1 "assets" Sys.sample rfl rfl (by decide)
  obtain ⟨initCalls, frameCalls, _, htr, he, _, hf, _⟩ :=
    scenario_submissions 1 "assets" Sys.sample hok
  have hall : (scenario 1 "assets" Sys.sample).2.world.trace.filterMap Call.executedLists =
      [[(Init 1 "assets" Sys.sample).2.self.m_commandList],
       [(Init 1 "assets" Sys.sample).2.self.m_commandList]] := by
    rw [htr, List.filterMap_append, List.filterMap_append, he, hf]
    rfl
  refine ⟨rfl, rfl, hok, hall, ?_, ?_⟩
  · rw [hall]
    rfl
  · rw [hall]
    decide

/-- C6, amended: when the scenario `Init`, one `Update`, one `Render` returns,
`Init` has made exactly one `ExecuteCommandLists` call, with a batch of exactly
one command list (`m_commandList`, the upload batch of `LoadAssets`), and no
`Present`; the following `Update` and `Render` have made exactly one more
`ExecuteCommandLists` call, again with the batch `[m_commandList]`, and exactly
one `Present`. So two command lists are submitted in the scenario, one of them
during the frame, and one `Present` is made. On a two-buffer swap chain whose
current index advances modulo 2 at each `Present`, the frame index after the
scenario is the flipped pre-render frame index. -/
theorem C6_scenario_submissions_and_flip (p_window : Handle) (assets_path : String) (s : Sys)
    (hok : (scenario p_window assets_path s).1 = Res.ok ()) :
    (∃ initCalls frameCalls,
      (Init p_window assets_path s).2.world.trace = s.world.trace ++ initCalls ∧
      (scenario p_window assets_path s).2.world.trace =
        s.world.trace ++ initCalls ++ frameCalls ∧
      initCalls.filterMap Call.executedLists =
        [[(Init p_window assets_path s).2.self.m_commandList]] ∧
      initCalls.countP Call.isPresent = 0 ∧
      frameCalls.filterMap Call.executedLists =
        [[(Init p_window assets_path s).2.self.m_commandList]] ∧
      frameCalls.countP Call.isPresent = 1 ∧
      (((initCalls ++ frameCalls).filterMap Call.executedLists).map List.length).sum = 2 ∧
      ((frameCalls.filterMap Call.executedLists).map List.length).sum = 1) ∧
    ((∀ i, s.world.advance i = (i + 1) % 2) → s.world.backBufferIndex < 2 →
      (scenario p_window assets_path s).2.self.m_frameIndex =
        1 - (Update (Init p_window assets_path s).2).2.self.m_frameIndex ∧
      (scenario p_window assets_path s).2.self.m_frameIndex ≠
        (Update (Init p_window assets_path s).2).2.self.m_frameIndex) := by
  obtain ⟨_, _, hpre, hpost, _⟩ := scenario_spec p_window assets_path s hok
  obtain ⟨initCalls, frameCalls, h1, h2, h3, h4, h5, h6⟩ :=
    scenario_submissions p_window assets_path s hok
  refine ⟨⟨initCalls, frameCalls, h1, h2, h3, h4, h5, h6, ?_, ?_⟩, ?_⟩
  · rw [List.filterMap_append, h3, h5]
    rfl
  · rw [h5]
    rfl
  · intro hadv hlt
    rw [hpre, hpost, hadv]
    omega

/-- C6 (amended) on the sample machine. -/
theorem C6_scenario_submissions_and_flip_witness :
    (scenario 1 "assets" Sys.sample).1 = Res.ok () ∧
    (∀ i, Sys.sample.world.advance i = (i + 1) % 2) ∧
    Sys.sample.world.backBufferIndex < 2 ∧
    (scenario 1 "assets" Sys.sample).2.self.m_frameIndex ≠
      (Update (Init 1 "assets" Sys.sample).2).2.self.m_frameIndex ∧
    ∃ initCalls frameCalls,
      (scenario 1 "assets" Sys.sample).2.world.trace =
        Sys.sample.world.trace ++ initCalls ++ frameCalls ∧
      (((initCalls ++ frameCalls).filterMap Call.executedLists).map List.length).sum = 2 ∧
      ((frameCalls.filterMap Call.executedLists).map List.length).sum = 1 ∧
      frameCalls.countP Call.isPresent = 1 :=
  have h := C6_scenario_submissions_and_flip 1 "assets" Sys.sample
    (scenario_returns 1 "assets" Sys.sample rfl rfl (by decide))
  have ⟨initCalls, frameCalls, _, h2, _, _, _, h6, h7, h8⟩ := h.1
  ⟨scenario_returns 1 "assets" Sys.sample rfl rfl (by decide), fun _ => rfl, by decide,
   (h.2 (fun _ => rfl) (by decide)).2, initCalls, frameCalls, h2, h7, h8, h6⟩

/-! ### What a frame records: one session and two sessions -/

theorem Init_viewport (p_window : Handle) (assets_path : String) (s : Sys) :
    wp (Init p_window assets_path) (fun r t => r = Res.ok () →
      t.self.m_viewport =
        { TopLeftX := 0, TopLeftY := 0, Width := (s.world.windowWidth : ℚ),
          Height := (s.world.windowHeight : ℚ), MinDepth := 0, MaxDepth := 0 } ∧
      t.self.m_scissorRect =
        { left := 0, top := 0, right := s.world.windowWidth,
          bottom := s.world.windowHeight }) s := by
  unfold Init
  simp only [wp_bind, wpNext_ok, wp_modifySelf, wp_getWorld]
  refine wp_mono _ _ _ _ (LoadPipeline_setup _) ?_
  intro r t1 h1
  cases r with
  | threw e => simp only [wpNext, reduceCtorEq, false_implies]
  | blocked => simp only [wpNext, reduceCtorEq, false_implies]
  | ok u =>
    obtain ⟨hs1, _, _⟩ := h1 rfl
    simp only at hs1
    simp only [wpNext]
    refine wp_mono _ _ _ _ (LoadAssets_setup t1) ?_
    intro r2 t h2 hok
    obtain ⟨hs2, _⟩ := h2 hok
    constructor
    · have : t.self.m_viewport = t1.self.m_viewport := by rw [hs2]
      rw [this, hs1]
    · have : t.self.m_scissorRect = t1.self.m_scissorRect := by rw [hs2]
      rw [this, hs1]

theorem PopulateCommandList.commands_viewports (o : InterfaceDX12) (w : World) :
    (PopulateCommandList.commands o w).filterMap Command.viewports = [[o.m_viewport]] := rfl

theorem PopulateCommandList.commands_barrierResource (o : InterfaceDX12) (w : World) :
    (PopulateCommandList.commands o w).filterMap Command.barrierResource =
      [o.m_renderTargets o.m_frameIndex, o.m_renderTargets o.m_frameIndex] := rfl

theorem Init_frameIndex (p_window : Handle) (assets_path : String) (s : Sys)
    (hok : (Init p_window assets_path s).1 = Res.ok ()) :
    (Init p_window assets_path s).2.self.m_frameIndex = s.world.backBufferIndex :=
  (Init_spec p_window assets_path s hok).1


/-- C7 as written does not hold: `Init` on the sample machine (256x256 window)
and `Init` on the same machine with a 512x256 window both return and leave the
same `m_frameIndex`, `PopulateCommandList` returns in both states, and the two
recorded sequences differ: they set viewports of different width. -/
theorem C7_counterexample :
    (Init 1 "assets" Sys.sample).1 = Res.ok () ∧
    (Init 1 "assets" Sys.wideWindow).1 = Res.ok () ∧
    (Init 1 "assets" Sys.sample).2.self.m_frameIndex =
      (Init 1 "assets" Sys.wideWindow).2.self.m_frameIndex ∧
    (PopulateCommandList (Init 1 "assets" Sys.sample).2).1 = Res.ok () ∧
    (PopulateCommandList (Init 1 "assets" Sys.wideWindow).2).1 = Res.ok () ∧
    (PopulateCommandList (Init 1 "assets" Sys.sample).2).2.world.recorded
        (Init 1 "assets" Sys.sample).2.self.m_commandList ≠
      (PopulateCommandList (Init 1 "assets" Sys.wideWindow).2).2.world.recorded
        (Init 1 "assets" Sys.wideWindow).2.self.m_commandList := by
  have h1 := Init_returns 1 "assets" Sys.sample rfl rfl (by decide)
  have h2 := Init_returns 1 "assets" Sys.wideWindow rfl rfl (by decide)
  have p1 := PopulateCommandList_returns _ h1.2
  have p2 := PopulateCommandList_returns _ h2.2
  have v1 := (Init_viewport 1 "assets" Sys.sample h1.1).1
  have v2 := (Init_viewport 1 "assets" Sys.wideWindow h2.1).1
  refine ⟨h1.1, h2.1, ?_, p1, p2, ?_⟩
  · rw [Init_frameIndex 1 "assets" Sys.sample h1.1,
      Init_frameIndex 1 "assets" Sys.wideWindow h2.1]
    rfl
  · rw [PopulateCommandList_recorded _ p1, PopulateCommandList_recorded _ p2]
    intro heq
    have hv := congrArg (List.filterMap Command.viewports) heq
    rw [PopulateCommandList.commands_viewports, PopulateCommandList.commands_viewports,
      v1, v2] at hv
    have hw : ((Sys.sample.world.windowWidth : ℚ)) = (Sys.wideWindow.world.windowWidth : ℚ) := by
      have := List.cons.inj hv
      have := List.cons.inj this.1
      exact congrArg D3D12_VIEWPORT.Width this.1
    have e1 : ((Sys.sample.world.windowWidth : ℚ)) = 256 := by
      show (((256 : Int)) : ℚ) = 256
      norm_num
    have e2 : ((Sys.wideWindow.world.windowWidth : ℚ)) = 512 := by
      show (((512 : Int)) : ℚ) = 512
      norm_num
    rw [e1, e2] at hw
    norm_num at hw


/-- C7, amended: within one session the command sequence that
`PopulateCommandList` records is a function of the frame index. For any two
states reached from the same state (such as the state that `Init` left) by any
`Update` and `Render` calls, so with any constant-buffer values, in both of
which `PopulateCommandList` returns: each recorded sequence is the one the
common state determines for the frame index, equal frame indices give equal
sequences, and in any case the two sequences are equal once the back buffer
named by the barriers and the render-target-view handle are erased. Two states
of different sessions need not agree: the sequence also holds what `Init` set
up (viewport and scissor rectangle of the window, and the handles). -/
theorem C7_recorded_commands_function_of_frame_index (s₀ : Sys) (l₁ l₂ : List HostCall)
    (h₁ : (PopulateCommandList (runCalls l₁ s₀).2).1 = Res.ok ())
    (h₂ : (PopulateCommandList (runCalls l₂ s₀).2).1 = Res.ok ()) :
    ((runCalls l₁ s₀).2.self.m_frameIndex = (runCalls l₂ s₀).2.self.m_frameIndex →
      (PopulateCommandList (runCalls l₁ s₀).2).2.world.recorded
          (runCalls l₁ s₀).2.self.m_commandList =
        (PopulateCommandList (runCalls l₂ s₀).2).2.world.recorded
          (runCalls l₂ s₀).2.self.m_commandList) ∧
    ((PopulateCommandList (runCalls l₁ s₀).2).2.world.recorded
          (runCalls l₁ s₀).2.self.m_commandList).map Command.eraseFrame =
      ((PopulateCommandList (runCalls l₂ s₀).2).2.world.recorded
          (runCalls l₂ s₀).2.self.m_commandList).map Command.eraseFrame ∧
    (PopulateCommandList (runCalls l₁ s₀).2).2.world.recorded
        (runCalls l₁ s₀).2.self.m_commandList =
      s₀.commandsAt (runCalls l₁ s₀).2.self.m_frameIndex ∧
    (PopulateCommandList (runCalls l₂ s₀).2).2.world.recorded
        (runCalls l₂ s₀).2.self.m_commandList =
      s₀.commandsAt (runCalls l₂ s₀).2.self.m_frameIndex := by
  rw [PopulateCommandList_commandsAt _ h₁, PopulateCommandList_commandsAt _ h₂,
    (runCalls_commandsAt l₁ s₀).1, (runCalls_commandsAt l₂ s₀).1]
  refine ⟨?_, Sys.commandsAt_eraseFrame s₀ _ _, rfl, rfl⟩
  intro h
  rw [h]


theorem runCalls_nil (s : Sys) : (runCalls [] s).2 = s := rfl

theorem runCalls_render_frameIndex (s : Sys) (h : s.world.hresults = [])
    (hidle : s.world.gpu.Idle) :
    (runCalls [HostCall.render] s).2.self.m_frameIndex =
      s.world.advance s.world.backBufferIndex := by
  obtain ⟨hok, _⟩ := Render_returns s h hidle
  obtain ⟨hself, _⟩ := Render_spec s hok
  show (DX.bind Render (fun _ => DX.pure ()) s).2.self.m_frameIndex = _
  have e := DX.bind_of_ok Render (fun _ => DX.pure ()) s () hok
  have e' : DX.bind Render (fun _ => DX.pure ()) s = (Render >>= fun _ => DX.pure ()) s := rfl
  rw [e', e]
  show (Render s).2.self.m_frameIndex = _
  rw [hself]

theorem Sys.commandsAt_barrierResource (s : Sys) (i : Nat) :
    (s.commandsAt i).filterMap Command.barrierResource =
      [s.self.m_renderTargets i, s.self.m_renderTargets i] := rfl

theorem Init_backBuffers (p_window : Handle) (assets_path : String) (s : Sys)
    (hok : (Init p_window assets_path s).1 = Res.ok ())
    (h0 : s.world.backBuffers.getD 0 0 = 101) (h1 : s.world.backBuffers.getD 1 0 = 102)
    (hb : s.world.backBufferIndex = 0) (ha : s.world.advance 0 = 1) :
    (Init p_window assets_path s).2.self.m_renderTargets 0 = 101 ∧
    (Init p_window assets_path s).2.self.m_renderTargets 1 = 102 ∧
    (Init p_window assets_path s).2.self.m_frameIndex = 0 ∧
    (Init p_window assets_path s).2.world.advance
      (Init p_window assets_path s).2.world.backBufferIndex = 1 := by
  obtain ⟨_, _, hrt, _⟩ := Init_setup p_window assets_path s hok
  obtain ⟨hf, _, hb', ha', _⟩ := Init_spec p_window assets_path s hok
  refine ⟨?_, ?_, ?_, ?_⟩
  · rw [hrt, ← h0]
    rfl
  · rw [hrt, ← h1]
    rfl
  · rw [hf, hb]
  · rw [ha', hb', hb, ha]

/-- C7 (amended) after `Init` on the sample machine: the frame recorded before
and the frame recorded after one `Render` have the frame indices 0 and 1 and
name the back buffers 101 and 102, and they agree once these are erased. -/
theorem C7_recorded_commands_function_of_frame_index_witness :
    (Init 1 "assets" Sys.sample).1 = Res.ok () ∧
    (PopulateCommandList (runCalls [] (Init 1 "assets" Sys.sample).2).2).1 = Res.ok () ∧
    (PopulateCommandList
      (runCalls [HostCall.render] (Init 1 "assets" Sys.sample).2).2).1 = Res.ok () ∧
    (runCalls [] (Init 1 "assets" Sys.sample).2).2.self.m_frameIndex = 0 ∧
    (runCalls [HostCall.render] (Init 1 "assets" Sys.sample).2).2.self.m_frameIndex = 1 ∧
    ((PopulateCommandList (runCalls [] (Init 1 "assets" Sys.sample).2).2).2.world.recorded
        (runCalls [] (Init 1 "assets" Sys.sample).2).2.self.m_commandList).filterMap
        Command.barrierResource = [101, 101] ∧
    ((PopulateCommandList
        (runCalls [HostCall.render] (Init 1 "assets" Sys.sample).2).2).2.world.recorded
        (runCalls [HostCall.render] (Init 1 "assets" Sys.sample).2).2.self.m_commandList).filterMap
        Command.barrierResource = [102, 102] ∧
    ((PopulateCommandList (runCalls [] (Init 1 "assets" Sys.sample).2).2).2.world.recorded
        (runCalls [] (Init 1 "assets" Sys.sample).2).2.self.m_commandList).map
        Command.eraseFrame =
      ((PopulateCommandList
        (runCalls [HostCall.render] (Init 1 "assets" Sys.sample).2).2).2.world.recorded
        (runCalls [HostCall.render] (Init 1 "assets" Sys.sample).2).2.self.m_commandList).map
        Command.eraseFrame := by
  have hinit := Init_returns 1 "assets" Sys.sample rfl rfl (by decide)
  have hidle := (Init_synced 1 "assets" Sys.sample hinit.1).1.idle
  have hp1 := PopulateCommandList_first_frame_returns _ hinit.2
  have hp2 := PopulateCommandList_returns _
    (runCalls_render_returns (Init 1 "assets" Sys.sample).2 hinit.2 hidle)
  have h := C7_recorded_commands_function_of_frame_index (Init 1 "assets" Sys.sample).2
    [] [HostCall.render] hp1 hp2
  obtain ⟨hr0, hr1, hf, ha⟩ := Init_backBuffers 1 "assets" Sys.sample hinit.1 rfl rfl rfl rfl
  have hf0 : (runCalls [] (Init 1 "assets" Sys.sample).2).2.self.m_frameIndex = 0 :=
    (congrArg (fun t : Sys => t.self.m_frameIndex)
      (runCalls_nil (Init 1 "assets" Sys.sample).2)).trans hf
  have hf1 : (runCalls [HostCall.render] (Init 1 "assets" Sys.sample).2).2.self.m_frameIndex
      = 1 :=
    (runCalls_render_frameIndex _ hinit.2 hidle).trans ha
  refine ⟨hinit.1, hp1, hp2, hf0, hf1, ?_, ?_, h.2.1⟩
  · rw [h.2.2.1, hf0, Sys.commandsAt_barrierResource, hr0]
  · rw [h.2.2.2, hf1, Sys.commandsAt_barrierResource, hr1]

end scribble
